import Mathlib

/-!
nsgenbind: property table and accessor generation.

A shallow embedding of `src/jsapi-libdom-property.c` and of the output bookkeeping of
`src/jsapi-binding.c`.  Text written with `fprintf` to
`binding->outfile` is modelled as the string a function returns next to its
`int` result; callers concatenate the strings in program order.  Diagnostics
sent to `stderr` (the `WARN` lines and the "Unable to find interface" message)
are not part of the output sink and are left out.
-/

namespace Nsgenbind

/-! ## Data model -/

/-- Modelled from the spec: the generic tree node of §3 (the node declarations of
`nsgenbind-ast.h` and `webidl-ast.h` are not among the sources): a type tag, an optional
text, an optional integer and an ordered list of children.  A C pointer to the head of a
sibling list is a `List`, a pointer to one found node is an `Option`. -/
inductive ast_node (τ : Type) where
  | mk (type : τ) (text : Option String) (number : Option Int) (children : List (ast_node τ))

/-- Type tag of a node. -/
def ast_node.type {τ : Type} : ast_node τ → τ
  | .mk t _ _ _ => t

/-- Text held by a node, when it holds one. -/
def ast_node.text {τ : Type} : ast_node τ → Option String
  | .mk _ s _ _ => s

/-- Integer held by a node, when it holds one. -/
def ast_node.number {τ : Type} : ast_node τ → Option Int
  | .mk _ _ n _ => n

/-- Children of a node, in list order. -/
def ast_node.children {τ : Type} : ast_node τ → List (ast_node τ)
  | .mk _ _ _ c => c

/-- Modelled from the spec: tags of the binding-specification tree that the property
generator names (`enum genbind_node_type` of `nsgenbind-ast.h`, not among the sources). -/
inductive genbind_node_type where
  | GENBIND_NODE_TYPE_IDENT
  | GENBIND_NODE_TYPE_CBLOCK
  | GENBIND_NODE_TYPE_BINDING
  | GENBIND_NODE_TYPE_BINDING_INTERNAL
  | GENBIND_NODE_TYPE_BINDING_PROPERTY
  | GENBIND_NODE_TYPE_GETTER
  | GENBIND_NODE_TYPE_SETTER
  | GENBIND_NODE_TYPE_MODIFIER
  deriving DecidableEq, Repr

/-- Modelled from the spec: tags of the WebIDL tree that the property generator names
(`enum webidl_node_type` of `webidl-ast.h`, not among the sources). -/
inductive webidl_node_type where
  | WEBIDL_NODE_TYPE_IDENT
  | WEBIDL_NODE_TYPE_INTERFACE
  | WEBIDL_NODE_TYPE_INTERFACE_INHERITANCE
  | WEBIDL_NODE_TYPE_INTERFACE_IMPLEMENTS
  | WEBIDL_NODE_TYPE_LIST
  | WEBIDL_NODE_TYPE_ATTRIBUTE
  | WEBIDL_NODE_TYPE_TYPE
  | WEBIDL_NODE_TYPE_TYPE_BASE
  | WEBIDL_NODE_TYPE_MODIFIER
  deriving DecidableEq, Repr

open genbind_node_type webidl_node_type

/-- Node of the binding-specification tree. -/
abbrev genbind_node := ast_node genbind_node_type

/-- Node of the WebIDL tree. -/
abbrev webidl_node := ast_node webidl_node_type

/-- Modelled from the spec: `enum genbind_type_modifier` (§4.3: four classifications
combinable as a bit-set); `GENBIND_TYPE_NONE`: shared, no type handler. -/
def GENBIND_TYPE_NONE : Int := 0

/-- Modelled from the spec: the type-handler bit of `enum genbind_type_modifier`. -/
def GENBIND_TYPE_TYPE : Int := 1

/-- Modelled from the spec: the unshared bit of `enum genbind_type_modifier`. -/
def GENBIND_TYPE_UNSHARED : Int := 2

/-- Modelled from the spec: type handler and unshared, both bits of
`enum genbind_type_modifier`. -/
def GENBIND_TYPE_TYPE_UNSHARED : Int := 3

/-- Modelled from the spec: `enum webidl_type_modifier` of `webidl-ast.h` (not among the
sources); the enumerators are distinct tags and only their distinctness is used. -/
def WEBIDL_TYPE_MODIFIER_NONE : Int := 0

/-- Modelled from the spec: the unsigned sub-key of short and long (§4.5). -/
def WEBIDL_TYPE_MODIFIER_UNSIGNED : Int := 1

/-- Modelled from the spec: the readonly flag of an attribute (§3). -/
def WEBIDL_TYPE_READONLY : Int := 3

/-- Values the C sources leave to the platform or to chance; every definition that
depends on one takes it from here, and the theorems hold for all of them. -/
structure c_env where
  /-- what `genbind_node_getint` / `webidl_node_getint` yield for an absent node or a
  node holding no integer (the accessors are not among the sources) -/
  getint_absent : Int
  /-- what `fprintf` prints for a `%s` whose argument is `NULL` -/
  null_text : String
  /-- content of the local `int ret` of `webidl_property_body_cb`, which is declared
  without an initialiser -/
  ret_indeterminate : Int

/-- Text printed by a `%s` conversion. -/
def fmt_s (env : c_env) : Option String → String
  | some s => s
  | none => env.null_text

/-- Modelled from the spec: `struct binding` of `jsapi-libdom.h` (not among the sources),
the binding context of §3 with the fields the property generator reads.  `outfile` is the
text the functions return. -/
structure binding where
  /-- root list of the binding-specification tree -/
  gb_ast : List genbind_node
  /-- root list of the WebIDL tree -/
  wi_ast : List webidl_node
  /-- name of the top-level interface -/
  interface : String
  /-- whether the class has private storage -/
  has_private : Bool
  /-- the list of `BINDING_PROPERTY` overrides (children of the binding block) -/
  binding_list : List genbind_node

/-! ## Query engine (§4.1) -/

/-- Modelled from the spec: `*_node_gettext`; the text of a node, none for an absent
node. -/
def node_gettext {τ : Type} : Option (ast_node τ) → Option String
  | some n => n.text
  | none => none

/-- Modelled from the spec: `*_node_getint`; the integer of a node.  What an absent node
or a node without integer yields is taken from the environment. -/
def node_getint {τ : Type} (env : c_env) : Option (ast_node τ) → Int
  | some n => n.number.getD env.getint_absent
  | none => env.getint_absent

/-- Modelled from the spec: `*_node_getnode`; the child list of a node, empty for an
absent node. -/
def node_getnode {τ : Type} : Option (ast_node τ) → List (ast_node τ)
  | some n => n.children
  | none => []

/-- Modelled from the spec: `find_first(children, type_tag)` of §4.1, the first node of
the list whose tag is `type` (the `prev` cursor of the C functions is `NULL` here). -/
def node_find_type {τ : Type} [DecidableEq τ] (nodes : List (ast_node τ)) (type : τ) :
    Option (ast_node τ) :=
  nodes.find? (fun n => decide (n.type = type))

/-- Whether a node has a child `IDENT` (tag `identTag`) whose text equals `ident`. -/
def node_has_ident {τ : Type} [DecidableEq τ] (identTag : τ) (n : ast_node τ)
    (ident : String) : Bool :=
  n.children.any (fun c => decide (c.type = identTag) && decide (c.text = some ident))

/-- Modelled from the spec: `find_first(children, type_tag, identifier)` of §4.1, the
first node of the list whose tag is `type` and which has a child `IDENT` whose text
equals the identifier.  An absent (`NULL`) identifier equals no text, so nothing is
found. -/
def node_find_type_ident {τ : Type} [DecidableEq τ] (identTag : τ)
    (nodes : List (ast_node τ)) (type : τ) : Option String → Option (ast_node τ)
  | none => none
  | some ident =>
    nodes.find? (fun n => decide (n.type = type) && node_has_ident identTag n ident)

/-- Modelled from the spec: `for_each(children, type_tag, visitor)` of §4.1: the visitor
runs on every node of the list whose tag is `type`, in list order; the first non-zero
result stops the iteration and is the overall result; the text written accumulates. -/
def node_for_each_type {τ : Type} [DecidableEq τ] (type : τ)
    (cb : ast_node τ → Int × String) : List (ast_node τ) → Int × String
  | [] => (0, "")
  | n :: rest =>
    if n.type = type then
      let r := cb n
      if r.1 ≠ 0 then r
      else
        let r2 := node_for_each_type type cb rest
        (r2.1, r.2 ++ r2.2)
    else node_for_each_type type cb rest

/-- The same iteration for a visitor that recurses into the generator and so may run out
of fuel (`none`). -/
def node_for_each_type_fuel {τ : Type} [DecidableEq τ] (type : τ)
    (cb : ast_node τ → Option (Int × String)) : List (ast_node τ) → Option (Int × String)
  | [] => some (0, "")
  | n :: rest =>
    if n.type = type then
      match cb n with
      | none => none
      | some r =>
        if r.1 ≠ 0 then some r
        else
          match node_for_each_type_fuel type cb rest with
          | none => none
          | some r2 => some (r2.1, r.2 ++ r2.2)
    else node_for_each_type_fuel type cb rest

/-- The C function `genbind_node_gettext`. -/
def genbind_node_gettext (node : Option genbind_node) : Option String := node_gettext node

/-- The C function `genbind_node_getint`. -/
def genbind_node_getint (env : c_env) (node : Option genbind_node) : Int :=
  node_getint env node

/-- The C function `genbind_node_getnode`. -/
def genbind_node_getnode (node : Option genbind_node) : List genbind_node :=
  node_getnode node

/-- The C function `genbind_node_find_type(node, NULL, type)`. -/
def genbind_node_find_type (node : List genbind_node) (type : genbind_node_type) :
    Option genbind_node :=
  node_find_type node type

/-- The C function `genbind_node_find_type_ident(node, NULL, type, ident)`. -/
def genbind_node_find_type_ident (node : List genbind_node) (type : genbind_node_type)
    (ident : Option String) : Option genbind_node :=
  node_find_type_ident GENBIND_NODE_TYPE_IDENT node type ident

/-- The C function `genbind_node_for_each_type`. -/
def genbind_node_for_each_type (node : List genbind_node) (type : genbind_node_type)
    (cb : genbind_node → Int × String) : Int × String :=
  node_for_each_type type cb node

/-- The C function `webidl_node_gettext`. -/
def webidl_node_gettext (node : Option webidl_node) : Option String := node_gettext node

/-- The C function `webidl_node_getint`. -/
def webidl_node_getint (env : c_env) (node : Option webidl_node) : Int :=
  node_getint env node

/-- The C function `webidl_node_getnode`. -/
def webidl_node_getnode (node : Option webidl_node) : List webidl_node :=
  node_getnode node

/-- The C function `webidl_node_find_type(node, NULL, type)`. -/
def webidl_node_find_type (node : List webidl_node) (type : webidl_node_type) :
    Option webidl_node :=
  node_find_type node type

/-- The C function `webidl_node_find_type_ident(node, type, ident)`. -/
def webidl_node_find_type_ident (node : List webidl_node) (type : webidl_node_type)
    (ident : Option String) : Option webidl_node :=
  node_find_type_ident WEBIDL_NODE_TYPE_IDENT node type ident

/-- The C function `webidl_node_for_each_type` with a visitor that does not recurse. -/
def webidl_node_for_each_type (node : List webidl_node) (type : webidl_node_type)
    (cb : webidl_node → Int × String) : Int × String :=
  node_for_each_type type cb node

/-! ## Shared-modifier resolver (§4.3) -/

/-- The C function `get_binding_shared_modifier`: search binding for property sharing
modifier. -/
def get_binding_shared_modifier (env : c_env) (binding : binding) (type : Option String)
    (ident : Option String) : Int :=
  -- look for node matching the ident first
  let shared_node := genbind_node_find_type_ident binding.binding_list
    GENBIND_NODE_TYPE_BINDING_PROPERTY ident
  -- look for a node matching the type
  let shared_node := match shared_node with
    | none => genbind_node_find_type_ident binding.binding_list
        GENBIND_NODE_TYPE_BINDING_PROPERTY type
    | some n => some n
  match shared_node with
  | some n =>
    match genbind_node_find_type (genbind_node_getnode (some n))
        GENBIND_NODE_TYPE_MODIFIER with
    | some shared_mod_node => genbind_node_getint env (some shared_mod_node)
    | none => GENBIND_TYPE_NONE
  | none => GENBIND_TYPE_NONE

/-! ## Property table (§4.4, table pass) -/

/-- The C function `webidl_property_spec_cb`: one `JSAPI_PS` table entry for an
attribute. -/
def webidl_property_spec_cb (env : c_env) (binding : binding) (node : webidl_node) :
    Int × String :=
  let ident_node := webidl_node_find_type (webidl_node_getnode (some node))
    WEBIDL_NODE_TYPE_IDENT
  match webidl_node_gettext ident_node with
  | none =>
    -- properties must have an operator
    (-1, "")
  | some ident =>
    -- get type name
    let type_node := webidl_node_find_type (webidl_node_getnode (some node))
      WEBIDL_NODE_TYPE_TYPE
    let ident_node := webidl_node_find_type (webidl_node_getnode type_node)
      WEBIDL_NODE_TYPE_IDENT
    let type := webidl_node_gettext ident_node
    -- generate JSAPI_PS macro entry
    let modifier_node := webidl_node_find_type (webidl_node_getnode (some node))
      WEBIDL_NODE_TYPE_MODIFIER
    let out1 :=
      if webidl_node_getint env modifier_node = WEBIDL_TYPE_READONLY then
        "\tJSAPI_PS_RO(\"" ++ ident ++ "\", "
      else
        "\tJSAPI_PS(\"" ++ ident ++ "\", "
    -- generate property shared status
    let shared_mod := get_binding_shared_modifier env binding type (some ident)
    let out2 :=
      if shared_mod = GENBIND_TYPE_TYPE then
        -- shared property with a type handler
        fmt_s env type ++ ", 0, JSPROP_ENUMERATE | JSPROP_SHARED"
      else if shared_mod = GENBIND_TYPE_UNSHARED then
        -- unshared property without type handler
        ident ++ ", 0, JSPROP_ENUMERATE"
      else if shared_mod = GENBIND_TYPE_TYPE_UNSHARED then
        -- unshared property with a type handler
        fmt_s env type ++ ", 0, JSPROP_ENUMERATE"
      else
        -- default and GENBIND_TYPE_NONE: shared property without type handler
        ident ++ ", 0, JSPROP_ENUMERATE | JSPROP_SHARED"
    (0, out1 ++ out2 ++ "),\n")

/-- The `while (members_node != NULL)` loop of `generate_property_spec`: for every `LIST`
child of the interface node in list order (the loop finds the first one and then, with
the previous one as cursor, the next), the comment line and the entries of its
attributes.  The result of the iteration over the attributes is not looked at. -/
def generate_property_spec_members (env : c_env) (binding : binding)
    (interface : Option String) : List webidl_node → String
  | [] => ""
  | members_node :: rest =>
    if members_node.type = WEBIDL_NODE_TYPE_LIST then
      "\t/**** " ++ fmt_s env interface ++ " ****/\n"
        ++ (webidl_node_for_each_type (webidl_node_getnode (some members_node))
              WEBIDL_NODE_TYPE_ATTRIBUTE (webidl_property_spec_cb env binding)).2
        ++ generate_property_spec_members env binding interface rest
    else generate_property_spec_members env binding interface rest

/-- The C function `generate_property_spec`.  The recursion follows interface names and
is not bounded by the code, so the embedding takes fuel: `none` means the fuel ran out,
every call uses one unit. -/
def generate_property_spec (env : c_env) (binding : binding) :
    Nat → Option String → Option (Int × String)
  | 0, _ => none
  | fuel + 1, interface =>
    -- find interface in webidl with correct ident attached
    match webidl_node_find_type_ident binding.wi_ast WEBIDL_NODE_TYPE_INTERFACE
        interface with
    | none => some (-1, "")
    | some interface_node =>
      -- generate property entries for each list (partial interfaces)
      let out := generate_property_spec_members env binding interface
        (webidl_node_getnode (some interface_node))
      -- check for inherited nodes and insert them too
      let inherit_node := webidl_node_find_type (webidl_node_getnode (some interface_node))
        WEBIDL_NODE_TYPE_INTERFACE_INHERITANCE
      let inherited : Option (Int × String) :=
        match inherit_node with
        | some n => generate_property_spec env binding fuel (webidl_node_gettext (some n))
        | none => some (0, "")
      match inherited with
      | none => none
      | some r =>
        if r.1 = 0 then
          match node_for_each_type_fuel WEBIDL_NODE_TYPE_INTERFACE_IMPLEMENTS
              (fun n => generate_property_spec env binding fuel
                (webidl_node_gettext (some n)))
              (webidl_node_getnode (some interface_node)) with
          | none => none
          | some r2 => some (r2.1, out ++ r.2 ++ r2.2)
        else some (r.1, out ++ r.2)

/-- The C function `output_property_spec`: generate property specifier structure. -/
def output_property_spec (env : c_env) (binding : binding) (fuel : Nat) :
    Option (Int × String) :=
  match generate_property_spec env binding fuel (some binding.interface) with
  | none => none
  | some r =>
    some (r.1, "static JSPropertySpec jsclass_properties[] = \x7b\n" ++ r.2
      ++ "\tJSAPI_PS_END\n\x7d;\n\n")

/-! ## Type mapping table (§4.5) -/

/-- Modelled from the spec: `enum webidl_type` of `webidl-ast.h` (not among the sources),
the type categories of §4.5; the enumerators are distinct tags and only their
distinctness is used. -/
def WEBIDL_TYPE_USER : Int := 0

/-- Modelled from the spec: the boolean category of `enum webidl_type`. -/
def WEBIDL_TYPE_BOOL : Int := 1

/-- Modelled from the spec: the byte category of `enum webidl_type`. -/
def WEBIDL_TYPE_BYTE : Int := 2

/-- Modelled from the spec: the octet category of `enum webidl_type`. -/
def WEBIDL_TYPE_OCTET : Int := 3

/-- Modelled from the spec: the float category of `enum webidl_type`. -/
def WEBIDL_TYPE_FLOAT : Int := 4

/-- Modelled from the spec: the double category of `enum webidl_type`. -/
def WEBIDL_TYPE_DOUBLE : Int := 5

/-- Modelled from the spec: the short category of `enum webidl_type`. -/
def WEBIDL_TYPE_SHORT : Int := 6

/-- Modelled from the spec: the long category of `enum webidl_type`. -/
def WEBIDL_TYPE_LONG : Int := 7

/-- Modelled from the spec: the long long category of `enum webidl_type`. -/
def WEBIDL_TYPE_LONGLONG : Int := 8

/-- Modelled from the spec: the string category of `enum webidl_type`. -/
def WEBIDL_TYPE_STRING : Int := 9

/-- Modelled from the spec: the sequence category of `enum webidl_type`. -/
def WEBIDL_TYPE_SEQUENCE : Int := 10

/-- Modelled from the spec: the object category of `enum webidl_type`. -/
def WEBIDL_TYPE_OBJECT : Int := 11

/-- Modelled from the spec: the date category of `enum webidl_type`. -/
def WEBIDL_TYPE_DATE : Int := 12

/-- Modelled from the spec: the void category of `enum webidl_type`. -/
def WEBIDL_TYPE_VOID : Int := 13

/-- The C function `output_return`: the return conversion for the type of an attribute. -/
def output_return (env : c_env) (ident : String) (node : webidl_node) : Int × String :=
  let type_node := webidl_node_find_type (webidl_node_getnode (some node))
    WEBIDL_NODE_TYPE_TYPE
  let type_base := webidl_node_find_type (webidl_node_getnode type_node)
    WEBIDL_NODE_TYPE_TYPE_BASE
  let webidl_arg_type := webidl_node_getint env type_base
  let out :=
    if webidl_arg_type = WEBIDL_TYPE_USER then
      -- User type are represented with jsobject
      "\tJSAPI_PROP_SET_RVAL(cx, vp, OBJECT_TO_JSVAL(" ++ ident ++ "));\n"
    else if webidl_arg_type = WEBIDL_TYPE_BOOL then
      "\tJSAPI_PROP_SET_RVAL(cx, vp, BOOLEAN_TO_JSVAL(" ++ ident ++ "));\n"
    else if webidl_arg_type = WEBIDL_TYPE_BYTE then ""
    else if webidl_arg_type = WEBIDL_TYPE_OCTET then ""
    else if webidl_arg_type = WEBIDL_TYPE_FLOAT ∨ webidl_arg_type = WEBIDL_TYPE_DOUBLE then
      "\tJSAPI_PROP_SET_RVAL(cx, vp, DOUBLE_TO_JSVAL(" ++ ident ++ "));\n"
    else if webidl_arg_type = WEBIDL_TYPE_SHORT then
      "\tJSAPI_PROP_SET_RVAL(cx, vp, INT_TO_JSVAL(" ++ ident ++ "));\n"
    else if webidl_arg_type = WEBIDL_TYPE_LONGLONG then ""
    else if webidl_arg_type = WEBIDL_TYPE_LONG then
      "\tJSAPI_PROP_SET_RVAL(cx, vp, INT_TO_JSVAL(" ++ ident ++ "));\n"
    else if webidl_arg_type = WEBIDL_TYPE_STRING then
      "\tJSAPI_PROP_SET_RVAL(cx, vp, JSAPI_STRING_TO_JSVAL(" ++ ident ++ "));\n"
    else if webidl_arg_type = WEBIDL_TYPE_SEQUENCE then ""
    else if webidl_arg_type = WEBIDL_TYPE_OBJECT then
      "\tJSAPI_PROP_SET_RVAL(cx, vp, OBJECT_TO_JSVAL(" ++ ident ++ "));\n"
    else if webidl_arg_type = WEBIDL_TYPE_DATE then ""
    else if webidl_arg_type = WEBIDL_TYPE_VOID then
      -- specifically requires no value
      ""
    else ""
  (0, out)

/-- The C function `output_return_declaration`: generate variable declaration of the
correct type with appropriate default. -/
def output_return_declaration (env : c_env) (ident : String) (node : webidl_node) :
    Int × String :=
  let type_node := webidl_node_find_type (webidl_node_getnode (some node))
    WEBIDL_NODE_TYPE_TYPE
  let type_base := webidl_node_find_type (webidl_node_getnode type_node)
    WEBIDL_NODE_TYPE_TYPE_BASE
  let webidl_arg_type := webidl_node_getint env type_base
  let out :=
    if webidl_arg_type = WEBIDL_TYPE_USER then
      -- User type are represented with jsobject
      let type_name := webidl_node_find_type (webidl_node_getnode type_node)
        WEBIDL_NODE_TYPE_IDENT
      "\tJSObject *" ++ ident ++ " = NULL; /* "
        ++ fmt_s env (webidl_node_gettext type_name) ++ " */\n"
    else if webidl_arg_type = WEBIDL_TYPE_BOOL then
      "\tJSBool " ++ ident ++ " = JS_FALSE;\n"
    else if webidl_arg_type = WEBIDL_TYPE_BYTE then ""
    else if webidl_arg_type = WEBIDL_TYPE_OCTET then ""
    else if webidl_arg_type = WEBIDL_TYPE_FLOAT ∨ webidl_arg_type = WEBIDL_TYPE_DOUBLE then
      "\tdouble " ++ ident ++ " = 0;\n"
    else if webidl_arg_type = WEBIDL_TYPE_SHORT then
      let type_mod := webidl_node_find_type (webidl_node_getnode type_node)
        WEBIDL_NODE_TYPE_MODIFIER
      if type_mod.isSome ∧ webidl_node_getint env type_mod = WEBIDL_TYPE_MODIFIER_UNSIGNED then
        "\tuint16_t " ++ ident ++ " = 0;\n"
      else
        "\tint16_t " ++ ident ++ " = 0;\n"
    else if webidl_arg_type = WEBIDL_TYPE_LONGLONG then ""
    else if webidl_arg_type = WEBIDL_TYPE_LONG then
      let type_mod := webidl_node_find_type (webidl_node_getnode type_node)
        WEBIDL_NODE_TYPE_MODIFIER
      if type_mod.isSome ∧ webidl_node_getint env type_mod = WEBIDL_TYPE_MODIFIER_UNSIGNED then
        "\tuint32_t " ++ ident ++ " = 0;\n"
      else
        "\tint32_t " ++ ident ++ " = 0;\n"
    else if webidl_arg_type = WEBIDL_TYPE_STRING then
      "\tJSString *" ++ ident ++ " = NULL;\n"
    else if webidl_arg_type = WEBIDL_TYPE_SEQUENCE then ""
    else if webidl_arg_type = WEBIDL_TYPE_OBJECT then
      "\tJSObject *" ++ ident ++ " = NULL;\n"
    else if webidl_arg_type = WEBIDL_TYPE_DATE then ""
    else if webidl_arg_type = WEBIDL_TYPE_VOID then
      -- specifically requires no value
      ""
    else ""
  (0, out)

/-! ## Accessor bodies (§4.4, body pass) -/

/-- Modelled from the spec: `output_code_block` of `jsapi-libdom.c` (not among the
sources): the code block owned by a `GETTER` or `SETTER` node copied verbatim into the
output, that is the texts of the `CBLOCK` nodes of the list, in list order. -/
def output_code_block (env : c_env) (codelist : List genbind_node) : String :=
  (genbind_node_for_each_type codelist GENBIND_NODE_TYPE_CBLOCK
    (fun n => (0, fmt_s env (genbind_node_gettext (some n))))).2

/-- The text written under `if (binding->has_private)`: fetch the private record and
fail when the object has none. -/
def output_private_prologue (binding : binding) : String :=
  if binding.has_private then
    "\tstruct jsclass_private *private;\n"
      ++ "\n"
      ++ "\tprivate = JS_GetInstancePrivate(cx,\n"
      ++ "\t\tobj,\n"
      ++ "\t\t&JSClass_" ++ binding.interface ++ ",\n"
      ++ "\t\tNULL);\n"
      ++ "\tif (private == NULL)\n"
      ++ "\t\treturn JS_FALSE;\n\n"
  else ""

/-- The C function `output_property_placeholder`. -/
def output_property_placeholder (binding : binding) (ident : String) : Int × String :=
  (0, "\tJSLOG(\"property " ++ binding.interface ++ "." ++ ident
        ++ " has no implementation\");\n")

/-- The C function `output_property_getter`. -/
def output_property_getter (env : c_env) (binding : binding) (node : webidl_node)
    (ident : String) : Int × String :=
  let out1 := "static JSBool JSAPI_PROP_GETTER(" ++ ident
    ++ ", JSContext *cx, JSObject *obj, jsval *vp)\n" ++ "\x7b\n"
  -- return value declaration
  let out2 := (output_return_declaration env "jsret" node).2
  -- get context
  let out3 := output_private_prologue binding
  let property_node := genbind_node_find_type_ident binding.gb_ast
    GENBIND_NODE_TYPE_GETTER (some ident)
  let out4 :=
    match property_node with
    | some p =>
      -- binding source block
      output_code_block env (genbind_node_getnode (some p))
    | none =>
      -- examine internal variables and see if they are gettable
      let binding_node := genbind_node_find_type binding.gb_ast GENBIND_NODE_TYPE_BINDING
      let internal_node : Option genbind_node :=
        match binding_node with
        | some b => genbind_node_find_type_ident (genbind_node_getnode (some b))
            GENBIND_NODE_TYPE_BINDING_INTERNAL (some ident)
        | none => none
      match internal_node with
      | some _ => "\tjsret = private->" ++ ident ++ ";\n"
      | none => (output_property_placeholder binding ident).2
  let out5 := (output_return env "jsret" node).2
  (0, out1 ++ out2 ++ out3 ++ out4 ++ out5 ++ "\treturn JS_TRUE;\n" ++ "\x7d\n\n")

/-- The C function `output_property_setter`. -/
def output_property_setter (env : c_env) (_binding : binding) (node : webidl_node)
    (ident : String) : Int × String :=
  let modifier_node := webidl_node_find_type (webidl_node_getnode (some node))
    WEBIDL_NODE_TYPE_MODIFIER
  if webidl_node_getint env modifier_node = WEBIDL_TYPE_READONLY then
    -- readonly so a set function is not required
    (0, "")
  else
    (0, "static JSBool JSAPI_PROP_SETTER(" ++ ident
          ++ ", JSContext *cx, JSObject *obj, jsval *vp)\n"
          ++ "\x7b\n" ++ "        return JS_FALSE;\n" ++ "\x7d\n\n")

/-- The C function `webidl_property_body_cb`. -/
def webidl_property_body_cb (env : c_env) (binding : binding) (node : webidl_node) :
    Int × String :=
  let ident_node := webidl_node_find_type (webidl_node_getnode (some node))
    WEBIDL_NODE_TYPE_IDENT
  match webidl_node_gettext ident_node with
  | none =>
    -- properties must have an operator
    (-1, "")
  | some ident =>
    -- get type name
    let type_node := webidl_node_find_type (webidl_node_getnode (some node))
      WEBIDL_NODE_TYPE_TYPE
    let ident_node := webidl_node_find_type (webidl_node_getnode type_node)
      WEBIDL_NODE_TYPE_IDENT
    let type := webidl_node_gettext ident_node
    -- find shared modifiers
    let shared_mod := get_binding_shared_modifier env binding type (some ident)
    -- only generate individual getters/setters if there is not a type handler
    if Int.land shared_mod GENBIND_TYPE_TYPE = 0 then
      let ret := output_property_setter env binding node ident
      if ret.1 = 0 then
        -- property getter
        let ret2 := output_property_getter env binding node ident
        (ret2.1, ret.2 ++ ret2.2)
      else ret
    else
      -- ret was never assigned
      (env.ret_indeterminate, "")

/-- The `while (members_node != NULL)` loop of `generate_property_body`: for every `LIST`
child of the interface node in list order, the comment line and the accessor bodies of
its attributes.  The result of the iteration over the attributes is not looked at. -/
def generate_property_body_members (env : c_env) (binding : binding)
    (interface : Option String) : List webidl_node → String
  | [] => ""
  | members_node :: rest =>
    if members_node.type = WEBIDL_NODE_TYPE_LIST then
      "/**** " ++ fmt_s env interface ++ " ****/\n"
        ++ (webidl_node_for_each_type (webidl_node_getnode (some members_node))
              WEBIDL_NODE_TYPE_ATTRIBUTE (webidl_property_body_cb env binding)).2
        ++ generate_property_body_members env binding interface rest
    else generate_property_body_members env binding interface rest

/-- The C function `generate_property_body`, with fuel as `generate_property_spec`. -/
def generate_property_body (env : c_env) (binding : binding) :
    Nat → Option String → Option (Int × String)
  | 0, _ => none
  | fuel + 1, interface =>
    -- find interface in webidl with correct ident attached
    match webidl_node_find_type_ident binding.wi_ast WEBIDL_NODE_TYPE_INTERFACE
        interface with
    | none => some (-1, "")
    | some interface_node =>
      -- generate property bodies
      let out := generate_property_body_members env binding interface
        (webidl_node_getnode (some interface_node))
      -- check for inherited nodes and insert them too
      let inherit_node := webidl_node_find_type (webidl_node_getnode (some interface_node))
        WEBIDL_NODE_TYPE_INTERFACE_INHERITANCE
      let inherited : Option (Int × String) :=
        match inherit_node with
        | some n => generate_property_body env binding fuel (webidl_node_gettext (some n))
        | none => some (0, "")
      match inherited with
      | none => none
      | some r =>
        if r.1 = 0 then
          match node_for_each_type_fuel WEBIDL_NODE_TYPE_INTERFACE_IMPLEMENTS
              (fun n => generate_property_body env binding fuel
                (webidl_node_gettext (some n)))
              (webidl_node_getnode (some interface_node)) with
          | none => none
          | some r2 => some (r2.1, out ++ r.2 ++ r2.2)
        else some (r.1, out ++ r.2)

/-- The C function `output_property_type_setter`: setter for type handler. -/
def output_property_type_setter (env : c_env) (binding : binding) (type : String) :
    Int × String :=
  let out1 := "static JSBool JSAPI_PROP_SETTER(" ++ type
    ++ ", JSContext *cx, JSObject *obj, jsval *vp)\n" ++ "\x7b\n"
  -- get context
  let out2 := output_private_prologue binding
  let property_node := genbind_node_find_type_ident binding.gb_ast
    GENBIND_NODE_TYPE_SETTER (some type)
  let out3 :=
    match property_node with
    | some p =>
      -- binding source block
      output_code_block env (genbind_node_getnode (some p))
    | none => ""
  (0, out1 ++ out2 ++ out3 ++ "        return JS_TRUE;\n" ++ "\x7d\n\n")

/-- The C function `output_property_type_getter`: getter for type handlers. -/
def output_property_type_getter (env : c_env) (binding : binding) (type : String) :
    Int × String :=
  let out1 := "static JSBool JSAPI_PROP_GETTER(" ++ type
    ++ ", JSContext *cx, JSObject *obj, jsval *vp)\n" ++ "\x7b\n"
  -- get context
  let out2 := output_private_prologue binding
  let property_node := genbind_node_find_type_ident binding.gb_ast
    GENBIND_NODE_TYPE_GETTER (some type)
  let out3 :=
    match property_node with
    | some p =>
      -- binding source block
      output_code_block env (genbind_node_getnode (some p))
    | none => ""
  (0, out1 ++ out2 ++ out3 ++ "        return JS_TRUE;\n" ++ "\x7d\n\n")

/-- The C function `typehandler_property_cb`: callback to emit property handlers for
whole types. -/
def typehandler_property_cb (env : c_env) (binding : binding) (node : genbind_node) :
    Int × String :=
  let mod_node := genbind_node_find_type (genbind_node_getnode (some node))
    GENBIND_NODE_TYPE_MODIFIER
  let share_mod := genbind_node_getint env mod_node
  if Int.land share_mod GENBIND_TYPE_TYPE = GENBIND_TYPE_TYPE then
    -- type handler
    let ident_node := genbind_node_find_type (genbind_node_getnode (some node))
      GENBIND_NODE_TYPE_IDENT
    match genbind_node_gettext ident_node with
    | some type =>
      let ret := output_property_type_setter env binding type
      if ret.1 = 0 then
        -- property getter
        let ret2 := output_property_type_getter env binding type
        (ret2.1, ret.2 ++ ret2.2)
      else ret
    | none => (0, "")
  else (0, "")

/-- The C function `output_property_body`. -/
def output_property_body (env : c_env) (binding : binding) (fuel : Nat) :
    Option (Int × String) :=
  match generate_property_body env binding fuel (some binding.interface) with
  | none => none
  | some res =>
    if res.1 = 0 then
      let res2 := genbind_node_for_each_type binding.binding_list
        GENBIND_NODE_TYPE_BINDING_PROPERTY (typehandler_property_cb env binding)
      some (res2.1, res.2 ++ res2.2)
    else some res

/-! ## Vocabulary of the claims -/

/-- A `BINDING_PROPERTY` override keyed by `key`: a node with that tag owning an `IDENT`
child whose text is `key`. -/
def is_override_keyed_by (n : genbind_node) (key : String) : Prop :=
  n.type = GENBIND_NODE_TYPE_BINDING_PROPERTY ∧
    ∃ c ∈ n.children, c.type = GENBIND_NODE_TYPE_IDENT ∧ c.text = some key

instance (n : genbind_node) (key : String) : Decidable (is_override_keyed_by n key) := by
  unfold is_override_keyed_by
  infer_instance

/-- The node carries `MODIFIER m`: its first `MODIFIER` child holds the integer `m`. -/
def carries_modifier (n : genbind_node) (m : Int) : Prop :=
  ∃ pre mn post, n.children = pre ++ mn :: post ∧
    (∀ c ∈ pre, c.type ≠ GENBIND_NODE_TYPE_MODIFIER) ∧
    mn.type = GENBIND_NODE_TYPE_MODIFIER ∧ mn.number = some m

/-- The node has no `MODIFIER` child. -/
def carries_no_modifier (n : genbind_node) : Prop :=
  ∀ c ∈ n.children, c.type ≠ GENBIND_NODE_TYPE_MODIFIER

/-- The identifier of an attribute: the text of its first `IDENT` child. -/
def attribute_ident (node : webidl_node) : Option String :=
  webidl_node_gettext (webidl_node_find_type node.children WEBIDL_NODE_TYPE_IDENT)

/-- The type name of an attribute: the text of the first `IDENT` child of its first `TYPE`
child. -/
def attribute_type_name (node : webidl_node) : Option String :=
  webidl_node_gettext (webidl_node_find_type
    (webidl_node_getnode (webidl_node_find_type node.children WEBIDL_NODE_TYPE_TYPE))
    WEBIDL_NODE_TYPE_IDENT)

/-- The attribute is readonly: the integer of its first `MODIFIER` child is
`WEBIDL_TYPE_READONLY`. -/
def attribute_is_readonly (env : c_env) (node : webidl_node) : Prop :=
  webidl_node_getint env (webidl_node_find_type node.children WEBIDL_NODE_TYPE_MODIFIER)
    = WEBIDL_TYPE_READONLY

instance (env : c_env) (node : webidl_node) : Decidable (attribute_is_readonly env node) := by
  unfold attribute_is_readonly
  infer_instance

/-- Layout of one property table entry: the macro, the quoted name, the storage slot, a
zero and the flags. -/
def table_entry (macroname name slot flags : String) : String :=
  "\t" ++ macroname ++ "(\"" ++ name ++ "\", " ++ slot ++ ", 0, " ++ flags ++ "),\n"

/-- Whether the text `needle` occurs in the text `hay`. -/
def occurs_in (needle hay : String) : Prop := needle.data <:+: hay.data

instance (needle hay : String) : Decidable (occurs_in needle hay) := by
  unfold occurs_in
  infer_instance

/-- A block of the binding tree with tag `ty` keyed by `key`: a node with that tag owning
an `IDENT` child whose text is `key`. -/
def is_block_keyed_by (ty : genbind_node_type) (n : genbind_node) (key : String) : Prop :=
  n.type = ty ∧ ∃ c ∈ n.children, c.type = GENBIND_NODE_TYPE_IDENT ∧ c.text = some key

instance (ty : genbind_node_type) (n : genbind_node) (key : String) :
    Decidable (is_block_keyed_by ty n key) := by
  unfold is_block_keyed_by
  infer_instance

/-- The name an override is listed under by the type-handler pass: the text of its first
`IDENT` child. -/
def override_name (n : genbind_node) : Option String :=
  genbind_node_gettext (genbind_node_find_type n.children GENBIND_NODE_TYPE_IDENT)

/-- The integer the type-handler pass reads from an override: that of its first `MODIFIER`
child. -/
def override_modifier (env : c_env) (n : genbind_node) : Int :=
  genbind_node_getint env (genbind_node_find_type n.children GENBIND_NODE_TYPE_MODIFIER)

/-- First lines of a generated getter: the function head, the declaration of the return
value and the private-storage prologue. -/
def getter_head (env : c_env) (b : binding) (node : webidl_node) (ident : String) : String :=
  "static JSBool JSAPI_PROP_GETTER(" ++ ident
    ++ ", JSContext *cx, JSObject *obj, jsval *vp)\n" ++ "\x7b\n"
    ++ (output_return_declaration env "jsret" node).2 ++ output_private_prologue b

/-- Last lines of a generated getter: the return conversion, the success return and the
closing brace. -/
def getter_tail (env : c_env) (node : webidl_node) : String :=
  (output_return env "jsret" node).2 ++ "\treturn JS_TRUE;\n" ++ "\x7d\n\n"

/-- First lines of a type-level accessor named `macroname` for the type name `type`: the
function head and the private-storage prologue. -/
def type_accessor_head (b : binding) (macroname type : String) : String :=
  "static JSBool " ++ macroname ++ "(" ++ type
    ++ ", JSContext *cx, JSObject *obj, jsval *vp)\n" ++ "\x7b\n"
    ++ output_private_prologue b

/-- An `INTERFACE` node of the WebIDL tree named `name`: a node with that tag owning an
`IDENT` child whose text is `name`. -/
def is_interface_named (n : webidl_node) (name : String) : Prop :=
  n.type = WEBIDL_NODE_TYPE_INTERFACE ∧
    ∃ c ∈ n.children, c.type = WEBIDL_NODE_TYPE_IDENT ∧ c.text = some name

instance (n : webidl_node) (name : String) : Decidable (is_interface_named n name) := by
  unfold is_interface_named
  infer_instance

/-- One copy of the comment line for every `LIST` fragment among the children of an
interface node. -/
def fragment_comments (comment : String) : List webidl_node → String
  | [] => ""
  | c :: rest =>
    if c.type = WEBIDL_NODE_TYPE_LIST then comment ++ fragment_comments comment rest
    else fragment_comments comment rest

/-! ## Example trees -/

/-- An environment for the examples: absent integers read as -1, a `NULL` string prints as
`(null)`, the unassigned `ret` holds 7. -/
def env_ex : c_env := ⟨-1, "(null)", 7⟩

/-- Binding tree leaf: `IDENT` with a text. -/
def gb_ident (s : String) : genbind_node := .mk GENBIND_NODE_TYPE_IDENT (some s) none []

/-- Binding tree leaf: `MODIFIER` with an integer. -/
def gb_modifier (m : Int) : genbind_node := .mk GENBIND_NODE_TYPE_MODIFIER none (some m) []

/-- Binding tree node: `BINDING_PROPERTY` with children. -/
def gb_property (c : List genbind_node) : genbind_node :=
  .mk GENBIND_NODE_TYPE_BINDING_PROPERTY none none c

/-- WebIDL leaf: `IDENT` with a text. -/
def wi_ident (s : String) : webidl_node := .mk WEBIDL_NODE_TYPE_IDENT (some s) none []

/-- WebIDL attribute: `MODIFIER` (readonly flag), `TYPE` (base category and type name) and
`IDENT`. -/
def wi_attribute (modifier base : Int) (type name : String) : webidl_node :=
  .mk WEBIDL_NODE_TYPE_ATTRIBUTE none none
    [.mk WEBIDL_NODE_TYPE_MODIFIER none (some modifier) [],
     .mk WEBIDL_NODE_TYPE_TYPE none none
       [.mk WEBIDL_NODE_TYPE_TYPE_BASE none (some base) [], wi_ident type],
     wi_ident name]

/-- WebIDL interface with a name and further children. -/
def wi_interface (name : String) (c : List webidl_node) : webidl_node :=
  .mk WEBIDL_NODE_TYPE_INTERFACE none none (wi_ident name :: c)

/-- WebIDL `LIST` fragment. -/
def wi_list (c : List webidl_node) : webidl_node := .mk WEBIDL_NODE_TYPE_LIST none none c

/-- Override keyed by the type name `DOMString`, marked unshared. -/
def ex_type_unshared : genbind_node :=
  gb_property [gb_modifier GENBIND_TYPE_UNSHARED, gb_ident "DOMString"]

/-- Override keyed by the identifier `name`, marked as type handler. -/
def ex_ident_typehandler : genbind_node :=
  gb_property [gb_modifier GENBIND_TYPE_TYPE, gb_ident "name"]

/-- Override keyed by the identifier `name` without any `MODIFIER`. -/
def ex_ident_plain : genbind_node := gb_property [gb_ident "name"]

/-- Binding whose list holds the type-keyed override before the identifier-keyed one. -/
def ex_binding_both : binding :=
  ⟨[], [], "X", false, [ex_type_unshared, ex_ident_typehandler]⟩

/-- Binding whose identifier-keyed override has no `MODIFIER`, next to a type-keyed
override that has one. -/
def ex_binding_plain : binding :=
  ⟨[], [], "X", false, [ex_ident_plain, ex_type_unshared]⟩

/-- Binding with the type-keyed unshared override only. -/
def ex_binding_type_only : binding :=
  ⟨[], [], "X", false, [ex_type_unshared]⟩

/-- Override keyed by the type name `DOMString`, marked as type handler. -/
def ex_type_typehandler : genbind_node :=
  gb_property [gb_modifier GENBIND_TYPE_TYPE, gb_ident "DOMString"]

/-- The attribute `readonly DOMString name` (user type). -/
def ex_attr_name_ro : webidl_node := wi_attribute WEBIDL_TYPE_READONLY WEBIDL_TYPE_USER
  "DOMString" "name"

/-- Interface `X` with the single attribute `readonly DOMString name`, and a binding whose
only override makes `DOMString` a type handler. -/
def ex_binding_typehandler : binding :=
  ⟨[], [wi_interface "X" [wi_list [ex_attr_name_ro]]], "X", false, [ex_type_typehandler]⟩

/-- Binding tree leaf: `CBLOCK` with its code text. -/
def gb_cblock (s : String) : genbind_node := .mk GENBIND_NODE_TYPE_CBLOCK (some s) none []

/-- A hand-written `SETTER` block keyed by the identifier `name`. -/
def ex_setter_block : genbind_node :=
  .mk GENBIND_NODE_TYPE_SETTER none none
    [gb_ident "name", gb_cblock "\tprivate->name = JSVAL_TO_OBJECT(*vp);\n\treturn JS_TRUE;\n"]

/-- A hand-written `GETTER` block keyed by the identifier `name`. -/
def ex_getter_block : genbind_node :=
  .mk GENBIND_NODE_TYPE_GETTER none none
    [gb_ident "name", gb_cblock "\tjsret = lookup(private);\n"]

/-- A `BINDING` block declaring the internal field `name`. -/
def ex_binding_block : genbind_node :=
  .mk GENBIND_NODE_TYPE_BINDING none none
    [.mk GENBIND_NODE_TYPE_BINDING_INTERNAL none none [gb_ident "name"]]

/-- Binding whose tree holds a `SETTER` block keyed by `name`, a `GETTER` block keyed by
`name` and an internal field `name`; no overrides. -/
def ex_binding_blocks : binding :=
  ⟨[ex_setter_block, ex_getter_block, ex_binding_block],
   [wi_interface "X" [wi_list [wi_attribute WEBIDL_TYPE_MODIFIER_NONE WEBIDL_TYPE_USER
      "DOMString" "name"]]], "X", false, []⟩

/-- Interface `X` with two fragments holding the attributes `DOMString first`,
`readonly DOMString second` and `DOMString third`, and a binding whose only type-handler
override is keyed by `DOMString`, next to an unshared override keyed by `Other`. -/
def ex_binding_dedup : binding :=
  ⟨[], [wi_interface "X"
      [wi_list [wi_attribute WEBIDL_TYPE_MODIFIER_NONE WEBIDL_TYPE_USER "DOMString" "first",
                wi_attribute WEBIDL_TYPE_READONLY WEBIDL_TYPE_USER "DOMString" "second"],
       wi_list [wi_attribute WEBIDL_TYPE_MODIFIER_NONE WEBIDL_TYPE_USER "DOMString"
                  "third"]]],
   "X", false,
   [gb_property [gb_modifier GENBIND_TYPE_UNSHARED, gb_ident "Other"], ex_type_typehandler]⟩

/-- The attribute `DOMString name` (not readonly, user type). -/
def ex_attr_name : webidl_node := wi_attribute WEBIDL_TYPE_MODIFIER_NONE WEBIDL_TYPE_USER
  "DOMString" "name"

/-! ## Vocabulary of the resolution claims -/

/-- Texts put one after the other. -/
def concat_texts : List String → String
  | [] => ""
  | s :: rest => s ++ concat_texts rest

/-- Lists put one after the other. -/
def concat_lists {α : Type} : List (List α) → List α
  | [] => []
  | l :: rest => l ++ concat_lists rest

/-- The text a resolution wrote, empty when it gave no result. -/
def resolved_text : Option (Int × String) → String
  | some r => r.2
  | none => ""

/-- The traversal shared by `generate_property_spec` and `generate_property_body` (§4.2),
with the text of the own fragments left open: find the interface, write the own
fragments, resolve the parent, then the mixins while the result is 0.  The two
generators are shown equal to it below; it is used to prove facts about both at once. -/
def resolve_chain (members : Option String → List webidl_node → String)
    (wi_ast : List webidl_node) : Nat → Option String → Option (Int × String)
  | 0, _ => none
  | fuel + 1, interface =>
    match webidl_node_find_type_ident wi_ast WEBIDL_NODE_TYPE_INTERFACE interface with
    | none => some (-1, "")
    | some interface_node =>
      let out := members interface (webidl_node_getnode (some interface_node))
      let inherit_node := webidl_node_find_type (webidl_node_getnode (some interface_node))
        WEBIDL_NODE_TYPE_INTERFACE_INHERITANCE
      let inherited : Option (Int × String) :=
        match inherit_node with
        | some n => resolve_chain members wi_ast fuel (webidl_node_gettext (some n))
        | none => some (0, "")
      match inherited with
      | none => none
      | some r =>
        if r.1 = 0 then
          match node_for_each_type_fuel WEBIDL_NODE_TYPE_INTERFACE_IMPLEMENTS
              (fun n => resolve_chain members wi_ast fuel (webidl_node_gettext (some n)))
              (webidl_node_getnode (some interface_node)) with
          | none => none
          | some r2 => some (r2.1, out ++ r.2 ++ r2.2)
        else some (r.1, out ++ r.2)

/-- WebIDL `INTERFACE_INHERITANCE` child naming the parent. -/
def wi_inherits (parent : String) : webidl_node :=
  .mk WEBIDL_NODE_TYPE_INTERFACE_INHERITANCE (some parent) none []

/-- WebIDL `INTERFACE_IMPLEMENTS` child naming a mixin. -/
def wi_implements (mixin : String) : webidl_node :=
  .mk WEBIDL_NODE_TYPE_INTERFACE_IMPLEMENTS (some mixin) none []

/-- Interface `X : Missing` with one attribute and the mixin `Y`; `Y` is declared with one
attribute, `Missing` is not declared.  No overrides. -/
def ex_binding_missing_parent : binding :=
  ⟨[], [wi_interface "X" [wi_list [wi_attribute WEBIDL_TYPE_MODIFIER_NONE WEBIDL_TYPE_USER
            "DOMString" "name"],
          wi_inherits "Missing", wi_implements "Y"],
        wi_interface "Y" [wi_list [wi_attribute WEBIDL_TYPE_MODIFIER_NONE WEBIDL_TYPE_USER
            "DOMString" "mixed"]]],
   "X", false, []⟩

/-- Interface `X` with one attribute and the mixins `Y`, `Gone`, `Z` in that order; `Y`
and `Z` are declared with one attribute each, `Gone` is not declared.  No overrides. -/
def ex_binding_missing_mixin : binding :=
  ⟨[], [wi_interface "X" [wi_list [wi_attribute WEBIDL_TYPE_MODIFIER_NONE WEBIDL_TYPE_USER
            "DOMString" "name"],
          wi_implements "Y", wi_implements "Gone", wi_implements "Z"],
        wi_interface "Y" [wi_list [wi_attribute WEBIDL_TYPE_MODIFIER_NONE WEBIDL_TYPE_USER
            "DOMString" "mixed"]],
        wi_interface "Z" [wi_list [wi_attribute WEBIDL_TYPE_MODIFIER_NONE WEBIDL_TYPE_USER
            "DOMString" "late"]]],
   "X", false, []⟩

/-- An attribute of type `DOMString` that has no `IDENT` child of its own. -/
def ex_attr_nameless : webidl_node :=
  .mk WEBIDL_NODE_TYPE_ATTRIBUTE none none
    [.mk WEBIDL_NODE_TYPE_MODIFIER none (some WEBIDL_TYPE_MODIFIER_NONE) [],
     .mk WEBIDL_NODE_TYPE_TYPE none none
       [.mk WEBIDL_NODE_TYPE_TYPE_BASE none (some WEBIDL_TYPE_USER) [], wi_ident "DOMString"]]

/-- Interface `X` with one fragment holding `DOMString first`, the nameless attribute and
`DOMString third`; no inheritance, no mixins, no overrides. -/
def ex_binding_nameless : binding :=
  ⟨[], [wi_interface "X" [wi_list
      [wi_attribute WEBIDL_TYPE_MODIFIER_NONE WEBIDL_TYPE_USER "DOMString" "first",
       ex_attr_nameless,
       wi_attribute WEBIDL_TYPE_MODIFIER_NONE WEBIDL_TYPE_USER "DOMString" "third"]]],
   "X", false, []⟩

/-- The table entry of an attribute as the claims describe it (§4.4): quoted identifier,
storage slot by classification, flags by classification, read-only macro by the readonly
flag; nothing for an attribute without identifier. -/
def attribute_entry (env : c_env) (b : binding) (a : webidl_node) : String :=
  match attribute_ident a with
  | none => ""
  | some ident =>
    table_entry
      (if attribute_is_readonly env a then "JSAPI_PS_RO" else "JSAPI_PS")
      ident
      (if get_binding_shared_modifier env b (attribute_type_name a) (some ident)
            = GENBIND_TYPE_TYPE ∨
          get_binding_shared_modifier env b (attribute_type_name a) (some ident)
            = GENBIND_TYPE_TYPE_UNSHARED
        then fmt_s env (attribute_type_name a) else ident)
      (if get_binding_shared_modifier env b (attribute_type_name a) (some ident)
            = GENBIND_TYPE_UNSHARED ∨
          get_binding_shared_modifier env b (attribute_type_name a) (some ident)
            = GENBIND_TYPE_TYPE_UNSHARED
        then "JSPROP_ENUMERATE" else "JSPROP_ENUMERATE | JSPROP_SHARED")

/-- The `LIST` fragments among the children of an interface node, in document order. -/
def interface_fragments (children : List webidl_node) : List webidl_node :=
  children.filter (fun f => decide (f.type = WEBIDL_NODE_TYPE_LIST))

/-- The `ATTRIBUTE` members of a fragment, in list order. -/
def fragment_attributes (f : webidl_node) : List webidl_node :=
  f.children.filter (fun a => decide (a.type = WEBIDL_NODE_TYPE_ATTRIBUTE))

/-- The table text of the own fragments as the claims describe it: for every fragment in
document order the comment line and one entry for each of its attributes in list order. -/
def own_entries (env : c_env) (b : binding) (name : String)
    (children : List webidl_node) : String :=
  concat_texts ((interface_fragments children).map (fun f =>
    "\t/**** " ++ name ++ " ****/\n"
      ++ concat_texts ((fragment_attributes f).map (attribute_entry env b))))

/-- Interface `X` declared in two fragments, `DOMString first` and `readonly DOMString
second` in the one, `DOMString third` in the other; no inheritance, no mixins, no
overrides. -/
def ex_binding_partial : binding :=
  ⟨[], [wi_interface "X"
      [wi_list [wi_attribute WEBIDL_TYPE_MODIFIER_NONE WEBIDL_TYPE_USER "DOMString" "first",
                wi_attribute WEBIDL_TYPE_READONLY WEBIDL_TYPE_USER "DOMString" "second"],
       wi_list [wi_attribute WEBIDL_TYPE_MODIFIER_NONE WEBIDL_TYPE_USER "DOMString"
                  "third"]]],
   "X", false, []⟩

/-- The attribute `readonly long count` (signed long, no type name). -/
def ex_attr_count : webidl_node :=
  .mk WEBIDL_NODE_TYPE_ATTRIBUTE none none
    [.mk WEBIDL_NODE_TYPE_MODIFIER none (some WEBIDL_TYPE_READONLY) [],
     .mk WEBIDL_NODE_TYPE_TYPE none none
       [.mk WEBIDL_NODE_TYPE_TYPE_BASE none (some WEBIDL_TYPE_LONG) []],
     wi_ident "count"]

/-- The tree of `interface Foo { readonly long count; }` and `interface Bar : Foo {}`, with
`Bar` the top-level interface; no overrides, no blocks, no internal fields. -/
def ex_binding_bar : binding :=
  ⟨[], [wi_interface "Foo" [wi_list [ex_attr_count]],
        wi_interface "Bar" [wi_list [], wi_inherits "Foo"]],
   "Bar", false, []⟩

/-- Interface `X : P` with the attribute `own` and the mixins `M1`, `M2` in that order;
`P`, `M1` and `M2` are declared with the attributes `parent`, `mixed1` and `mixed2`. -/
def ex_binding_mixins : binding :=
  ⟨[], [wi_interface "X" [wi_implements "M1", wi_inherits "P",
          wi_list [wi_attribute WEBIDL_TYPE_MODIFIER_NONE WEBIDL_TYPE_USER "DOMString" "own"],
          wi_implements "M2"],
        wi_interface "M2" [wi_list [wi_attribute WEBIDL_TYPE_MODIFIER_NONE WEBIDL_TYPE_USER
            "DOMString" "mixed2"]],
        wi_interface "M1" [wi_list [wi_attribute WEBIDL_TYPE_MODIFIER_NONE WEBIDL_TYPE_USER
            "DOMString" "mixed1"]],
        wi_interface "P" [wi_list [wi_attribute WEBIDL_TYPE_MODIFIER_NONE WEBIDL_TYPE_USER
            "DOMString" "parent"]]],
   "X", false, []⟩

/-- The `INTERFACE_IMPLEMENTS` children of an interface node, in list order. -/
def interface_mixins (children : List webidl_node) : List webidl_node :=
  children.filter (fun m => decide (m.type = WEBIDL_NODE_TYPE_INTERFACE_IMPLEMENTS))

/-- The `TYPE` child of an attribute (the first one). -/
def attribute_type_node (node : webidl_node) : Option webidl_node :=
  webidl_node_find_type node.children WEBIDL_NODE_TYPE_TYPE

/-- The type category of an attribute: the integer of the first `TYPE_BASE` child of its
`TYPE` child. -/
def attribute_type_base (env : c_env) (node : webidl_node) : Int :=
  webidl_node_getint env (webidl_node_find_type
    (webidl_node_getnode (attribute_type_node node)) WEBIDL_NODE_TYPE_TYPE_BASE)

/-- The `TYPE` node of the attribute has a `MODIFIER` child and it is `unsigned`. -/
def attribute_type_unsigned (env : c_env) (node : webidl_node) : Prop :=
  (webidl_node_find_type (webidl_node_getnode (attribute_type_node node))
      WEBIDL_NODE_TYPE_MODIFIER).isSome ∧
    webidl_node_getint env (webidl_node_find_type
      (webidl_node_getnode (attribute_type_node node)) WEBIDL_NODE_TYPE_MODIFIER)
      = WEBIDL_TYPE_MODIFIER_UNSIGNED

instance (env : c_env) (node : webidl_node) :
    Decidable (attribute_type_unsigned env node) := by
  unfold attribute_type_unsigned
  infer_instance

/-- An attribute of a primitive type: readonly flag, base category, optional signedness
modifier, identifier. -/
def wi_attribute_prim (modifier base : Int) (sign : Option Int) (name : String) :
    webidl_node :=
  .mk WEBIDL_NODE_TYPE_ATTRIBUTE none none
    [.mk WEBIDL_NODE_TYPE_MODIFIER none (some modifier) [],
     .mk WEBIDL_NODE_TYPE_TYPE none none
       (.mk WEBIDL_NODE_TYPE_TYPE_BASE none (some base) [] ::
        (match sign with
         | some m => [.mk WEBIDL_NODE_TYPE_MODIFIER none (some m) []]
         | none => [])),
     wi_ident name]

/-- The attribute `unsigned long size`. -/
def ex_attr_ulong : webidl_node :=
  wi_attribute_prim WEBIDL_TYPE_MODIFIER_NONE WEBIDL_TYPE_LONG
    (some WEBIDL_TYPE_MODIFIER_UNSIGNED) "size"

/-- The attribute `long long big`. -/
def ex_attr_longlong : webidl_node :=
  wi_attribute_prim WEBIDL_TYPE_MODIFIER_NONE WEBIDL_TYPE_LONGLONG none "big"

/-- The body source of a generated getter (§4.4): the code of the `GETTER` block keyed by
the identifier, else the read of the internal field of that identifier declared in the
binding block, else the placeholder log line. -/
def getter_body_source (env : c_env) (b : binding) (ident : String) : String :=
  match genbind_node_find_type_ident b.gb_ast GENBIND_NODE_TYPE_GETTER (some ident) with
  | some p => output_code_block env p.children
  | none =>
    match genbind_node_find_type b.gb_ast GENBIND_NODE_TYPE_BINDING with
    | some bn =>
      (match genbind_node_find_type_ident bn.children GENBIND_NODE_TYPE_BINDING_INTERNAL
          (some ident) with
       | some _ => "\tjsret = private->" ++ ident ++ ";\n"
       | none => "\tJSLOG(\"property " ++ b.interface ++ "." ++ ident
                    ++ " has no implementation\");\n")
    | none => "\tJSLOG(\"property " ++ b.interface ++ "." ++ ident
                    ++ " has no implementation\");\n"

/-- The categories of §4.5 without a mapping: byte, octet, long long, date, sequence. -/
def is_unsupported_type (t : Int) : Prop :=
  t = WEBIDL_TYPE_BYTE ∨ t = WEBIDL_TYPE_OCTET ∨ t = WEBIDL_TYPE_LONGLONG ∨
    t = WEBIDL_TYPE_DATE ∨ t = WEBIDL_TYPE_SEQUENCE

instance (t : Int) : Decidable (is_unsupported_type t) := by
  unfold is_unsupported_type
  infer_instance

/-- The scenario of §8: the tree of `interface Foo { readonly long count; }` (signed long,
one fragment) with `Foo` the top-level interface, and a binding tree without overrides,
`GETTER` / `SETTER` blocks, internal fields or private storage. -/
def ex_binding_foo : binding :=
  ⟨[], [wi_interface "Foo" [wi_list [ex_attr_count]]], "Foo", false, []⟩

/-- The relation the recursion follows: the interface named by `X` names `Y` when an
`INTERFACE` node of the tree named `X` has an `INTERFACE_INHERITANCE` or
`INTERFACE_IMPLEMENTS` child whose text is `Y`.  A child without text names the absent
text, which the recursion is entered with all the same. -/
def interface_names (wi_ast : List webidl_node) (X Y : Option String) : Prop :=
  ∃ x, X = some x ∧ ∃ inode ∈ wi_ast, is_interface_named inode x ∧
    ∃ c ∈ inode.children,
      (c.type = WEBIDL_NODE_TYPE_INTERFACE_INHERITANCE ∨
        c.type = WEBIDL_NODE_TYPE_INTERFACE_IMPLEMENTS) ∧ c.text = Y

/-- The texts of all children of the nodes of a tree: every text the relation can lead to. -/
def named_texts (wi_ast : List webidl_node) : List (Option String) :=
  concat_lists (wi_ast.map (fun n => n.children.map (fun c => c.text)))

/-- Interface `C : B`, `B : A` with mixin `M`, and `A`, `M` without parent; one attribute
each. -/
def ex_binding_chain : binding :=
  ⟨[], [wi_interface "C" [wi_list [wi_attribute WEBIDL_TYPE_MODIFIER_NONE WEBIDL_TYPE_USER
            "DOMString" "c"], wi_inherits "B"],
        wi_interface "B" [wi_list [wi_attribute WEBIDL_TYPE_MODIFIER_NONE WEBIDL_TYPE_USER
            "DOMString" "b"], wi_inherits "A", wi_implements "M"],
        wi_interface "A" [wi_list [wi_attribute WEBIDL_TYPE_MODIFIER_NONE WEBIDL_TYPE_USER
            "DOMString" "a"]],
        wi_interface "M" [wi_list [wi_attribute WEBIDL_TYPE_MODIFIER_NONE WEBIDL_TYPE_USER
            "DOMString" "m"]]],
   "C", false, []⟩

/-- The depth of the names of the example chain. -/
def ex_chain_rank : Option String → Nat
  | some "C" => 2
  | some "B" => 1
  | _ => 0

/-! ## Output file bookkeeping (`src/jsapi-binding.c`) -/

/-- The macro `HDR_COMMENT_PREABLE`. -/
def HDR_COMMENT_PREABLE : String := "/* Generated by nsgenjsapi\n"

/-- The three file-scope variables of `jsapi-binding.c`: the text written so far to the
open `outfile` (none while the pointer is `NULL`), the text `hdr_comments` points to (none
while it is `NULL`), and the flag `hdr_comments_output`. -/
structure output_state where
  /-- text written to the sink; none while `outfile` is `NULL` -/
  outfile : Option String
  /-- the header comment text; none while `hdr_comments` is `NULL` -/
  hdr_comments : Option String
  /-- whether the header comments have been written -/
  hdr_comments_output : Bool

/-- The variables as their initialisers leave them. -/
def output_state_initial : output_state := ⟨none, none, false⟩

/-- The C function `strlen`; a text is the sequence of the `char`s of the C string. -/
def strlen (s : String) : Nat := s.length

/-- Conversion of a length to the 32-bit `int` it is stored in (two's complement
wrap-around). -/
def to_int (n : Nat) : Int := (((n + 2 ^ 31) % 2 ^ 32 : Nat) : Int) - 2 ^ 31

/-- The C function `snprintf(buf, size, ...)` on a buffer of positive size: the first
`size - 1` characters of the formatted text are stored, followed by the terminator. -/
def snprintf (size : Int) (text : String) : String := ⟨text.data.take (size.toNat - 1)⟩

/-- The C function `genjsbind_outputopen`.  `fopen_ok` is whether `fopen` yields a stream;
without a file name the sink is `stdout`. -/
def genjsbind_outputopen (outfilename : Option String) (fopen_ok : Bool)
    (s : output_state) : Int × output_state :=
  -- open output file
  let outfile : Option String :=
    match outfilename with
    | none => some ""
    | some _ => if fopen_ok then some "" else none
  match outfile with
  | none => (4, { s with outfile := none })
  | some f => (0, { s with outfile := some f, hdr_comments := some HDR_COMMENT_PREABLE })

/-- The C function `genjsbind_header_comment`.  The result is none where the C is
undefined: `hdr_comments` is `NULL`, or the length does not fit the `int` so that the
buffer is not one of positive size.  The warning goes to `stderr` and is left out. -/
def genjsbind_header_comment (comment : String) (s : output_state) :
    Option (Int × output_state) :=
  match s.hdr_comments with
  | none => none
  | some hdr_comments =>
    let fulllen : Int := to_int (strlen hdr_comments + strlen comment + 2)
    if fulllen ≤ 0 then none
    else
      let fullstr := snprintf fulllen (hdr_comments ++ "\n" ++ comment)
      some (0, { s with hdr_comments := some fullstr })

/-- The C function `genjsbind_output_interface`.  The result is none where the C is
undefined: `outfile` or `hdr_comments` is `NULL`. -/
def genjsbind_output_interface (interface : String) (s : output_state) :
    Option (Int × output_state) :=
  match s.outfile with
  | none => none
  | some f =>
    if s.hdr_comments_output = false then
      match s.hdr_comments with
      | none => none
      | some hdr_comments =>
        some (0, { s with
          outfile := some (f ++ (hdr_comments ++ "\n*/\n\n")
            ++ ("/* interface " ++ interface ++ " */\n\n")),
          hdr_comments_output := true })
    else
      some (0, { s with outfile := some (f ++ ("/* interface " ++ interface ++ " */\n\n")) })

/-- A call of one of the two functions that follow the opening of the output. -/
inductive output_call where
  | header_comment (comment : String)
  | output_interface (interface : String)

/-- A sequence of calls, one after the other, from a state; none as soon as one call is
undefined. -/
def output_run : List output_call → output_state → Option output_state
  | [], s => some s
  | .header_comment comment :: rest, s =>
    match genjsbind_header_comment comment s with
    | none => none
    | some r => output_run rest r.2
  | .output_interface interface :: rest, s =>
    match genjsbind_output_interface interface s with
    | none => none
    | some r => output_run rest r.2

/-- The comments of the `genjsbind_header_comment` calls of a sequence, in call order. -/
def comments_of : List output_call → List String
  | [] => []
  | .header_comment comment :: rest => comment :: comments_of rest
  | .output_interface _ :: rest => comments_of rest

/-- The names of the `genjsbind_output_interface` calls of a sequence, in call order. -/
def interfaces_of : List output_call → List String
  | [] => []
  | .header_comment _ :: rest => interfaces_of rest
  | .output_interface interface :: rest => interface :: interfaces_of rest

/-- The header text: the fixed preamble followed by the comments, each after a newline. -/
def header_text (comments : List String) : String :=
  HDR_COMMENT_PREABLE ++ concat_texts (comments.map (fun c => "\n" ++ c))

/-- One `interface` line for each name. -/
def interface_lines (names : List String) : String :=
  concat_texts (names.map (fun i => "/* interface " ++ i ++ " */\n\n"))

/-- The length of the header text with the comments, its terminator and the newline of one
more comment counted in. -/
def header_size (comments : List String) : Nat :=
  strlen HDR_COMMENT_PREABLE + (comments.map (fun c => strlen c + 1)).sum + 1

/-- Two comments, the interface `Foo`, a late comment, the interface `Bar`. -/
def ex_calls : List output_call :=
  [.header_comment "first", .header_comment "second", .output_interface "Foo",
   .header_comment "late", .output_interface "Bar"]

/-- The environment of the examples with the unassigned `ret` holding 0. -/
def env_ret_zero : c_env := ⟨-1, "(null)", 0⟩

/-- The attribute `DOMString handled`, whose type has a type handler. -/
def ex_attr_handled : webidl_node :=
  wi_attribute WEBIDL_TYPE_MODIFIER_NONE WEBIDL_TYPE_USER "DOMString" "handled"

/-- Interface `X` with one fragment holding `DOMString handled` and then `Foo other`, and a
binding whose only override makes `DOMString` a type handler. -/
def ex_binding_skip : binding :=
  ⟨[], [wi_interface "X" [wi_list [ex_attr_handled,
      wi_attribute WEBIDL_TYPE_MODIFIER_NONE WEBIDL_TYPE_USER "Foo" "other"]]],
   "X", false, [ex_type_typehandler]⟩

/-- The first line of the property table. -/
def property_table_header : String := "static JSPropertySpec jsclass_properties[] = \x7b\n"

/-- The last lines of the property table: the terminator entry and the closing of the
array. -/
def property_table_footer : String := "\tJSAPI_PS_END\n\x7d;\n\n"

/-- The categories of §4.5 that have a declaration and a conversion: user, boolean, float,
double, short, long, string, object. -/
def is_mapped_type (t : Int) : Prop :=
  t = WEBIDL_TYPE_USER ∨ t = WEBIDL_TYPE_BOOL ∨ t = WEBIDL_TYPE_FLOAT ∨
    t = WEBIDL_TYPE_DOUBLE ∨ t = WEBIDL_TYPE_SHORT ∨ t = WEBIDL_TYPE_LONG ∨
    t = WEBIDL_TYPE_STRING ∨ t = WEBIDL_TYPE_OBJECT

instance (t : Int) : Decidable (is_mapped_type t) := by
  unfold is_mapped_type
  infer_instance

/-- An attribute whose type category is the integer 99, which is no enumerator. -/
def ex_attr_unknown : webidl_node :=
  wi_attribute_prim WEBIDL_TYPE_MODIFIER_NONE 99 none "odd"

/-- The code copied into a type-level accessor: that of the first block of tag `ty` keyed
by the type name in the binding tree, nothing when there is no such block. -/
def type_accessor_block (env : c_env) (b : binding) (ty : genbind_node_type)
    (type : String) : String :=
  match genbind_node_find_type_ident b.gb_ast ty (some type) with
  | some p => output_code_block env (genbind_node_getnode (some p))
  | none => ""

/-- One setter definition followed by one getter definition, both keyed by the type name
`type`: each is the function head with the private-storage prologue, the copied block and
the success return. -/
def type_accessor_pair (env : c_env) (b : binding) (type : String) : String :=
  (type_accessor_head b "JSAPI_PROP_SETTER" type
      ++ type_accessor_block env b GENBIND_NODE_TYPE_SETTER type
      ++ "        return JS_TRUE;\n\x7d\n\n")
    ++ (type_accessor_head b "JSAPI_PROP_GETTER" type
      ++ type_accessor_block env b GENBIND_NODE_TYPE_GETTER type
      ++ "        return JS_TRUE;\n\x7d\n\n")

/-- The names the type-handler pass writes a pair for, in list order: the name of every
`BINDING_PROPERTY` override of the list that has a name and whose modifier, as the pass
reads it, has the type-handler bit. -/
def typehandler_names (env : c_env) : List genbind_node → List String
  | [] => []
  | q :: rest =>
    if q.type = GENBIND_NODE_TYPE_BINDING_PROPERTY ∧
        Int.land (override_modifier env q) GENBIND_TYPE_TYPE = GENBIND_TYPE_TYPE then
      match override_name q with
      | some t => t :: typehandler_names env rest
      | none => typehandler_names env rest
    else typehandler_names env rest

/-- Interface `X` with the single attribute `DOMString name`, and a binding that lists the
type-handler override keyed by `DOMString` twice. -/
def ex_binding_handler_twice : binding :=
  ⟨[], [wi_interface "X" [wi_list [ex_attr_name]]], "X", false,
   [ex_type_typehandler, ex_type_typehandler]⟩

/-- Override keyed by the type name `DOMString` without a `MODIFIER` child. -/
def ex_type_plain : genbind_node := gb_property [gb_ident "DOMString"]

/-- Interface `X` with two fragments holding the attributes `DOMString first`,
`readonly DOMString second` and `DOMString third`, and a binding with four overrides:
unshared `Other`, type handler `DOMString`, type handler `Node`, and a later unshared
override that is keyed by `DOMString` again. -/
def ex_binding_handlers : binding :=
  ⟨[], [wi_interface "X"
      [wi_list [wi_attribute WEBIDL_TYPE_MODIFIER_NONE WEBIDL_TYPE_USER "DOMString" "first",
                wi_attribute WEBIDL_TYPE_READONLY WEBIDL_TYPE_USER "DOMString" "second"],
       wi_list [wi_attribute WEBIDL_TYPE_MODIFIER_NONE WEBIDL_TYPE_USER "DOMString"
                  "third"]]],
   "X", false,
   [gb_property [gb_modifier GENBIND_TYPE_UNSHARED, gb_ident "Other"], ex_type_typehandler,
    gb_property [gb_modifier GENBIND_TYPE_TYPE, gb_ident "Node"], ex_type_unshared]⟩

/-- Interface `X` with the single attribute `DOMString name`, and a binding that lists the
type-handler override keyed by `DOMString` and after it the override keyed by `DOMString`
that has no `MODIFIER` child. -/
def ex_binding_handler_plain : binding :=
  ⟨[], [wi_interface "X" [wi_list [ex_attr_name]]], "X", false,
   [ex_type_typehandler, ex_type_plain]⟩

/-! ## Lemmas on the query engine -/

theorem node_has_ident_iff {τ : Type} [DecidableEq τ] (tag : τ) (n : ast_node τ)
    (key : String) :
    node_has_ident tag n key = true ↔ ∃ c ∈ n.children, c.type = tag ∧ c.text = some key := by
  simp [node_has_ident, List.any_eq_true]

theorem node_find_type_first {τ : Type} [DecidableEq τ] (ty : τ)
    (pre post : List (ast_node τ)) (p : ast_node τ)
    (hpre : ∀ c ∈ pre, c.type ≠ ty) (hp : p.type = ty) :
    node_find_type (pre ++ p :: post) ty = some p := by
  unfold node_find_type
  rw [List.find?_append]
  have h1 : List.find? (fun n => decide (n.type = ty)) pre = none := by
    rw [List.find?_eq_none]
    intro c hc
    simpa using hpre c hc
  rw [h1]
  simp [List.find?_cons, hp]

theorem node_find_type_none {τ : Type} [DecidableEq τ] (ty : τ) (l : List (ast_node τ))
    (h : ∀ c ∈ l, c.type ≠ ty) : node_find_type l ty = none := by
  unfold node_find_type
  rw [List.find?_eq_none]
  intro c hc
  simpa using h c hc

theorem node_find_type_ident_first {τ : Type} [DecidableEq τ] (tag ty : τ)
    (pre post : List (ast_node τ)) (p : ast_node τ) (key : String)
    (hpre : ∀ q ∈ pre, ¬ (q.type = ty ∧ ∃ c ∈ q.children, c.type = tag ∧ c.text = some key))
    (hp : p.type = ty) (hk : ∃ c ∈ p.children, c.type = tag ∧ c.text = some key) :
    node_find_type_ident tag (pre ++ p :: post) ty (some key) = some p := by
  show List.find? (fun n => decide (n.type = ty) && node_has_ident tag n key)
    (pre ++ p :: post) = some p
  rw [List.find?_append]
  have h1 : List.find? (fun n => decide (n.type = ty) && node_has_ident tag n key) pre
      = none := by
    rw [List.find?_eq_none]
    intro q hq
    have := hpre q hq
    rw [← node_has_ident_iff] at this
    simpa using this
  rw [h1]
  have h2 : node_has_ident tag p key = true := (node_has_ident_iff tag p key).2 hk
  simp [List.find?_cons, hp, h2]

theorem node_find_type_ident_none {τ : Type} [DecidableEq τ] (tag ty : τ)
    (l : List (ast_node τ)) (key : String)
    (h : ∀ q ∈ l, ¬ (q.type = ty ∧ ∃ c ∈ q.children, c.type = tag ∧ c.text = some key)) :
    node_find_type_ident tag l ty (some key) = none := by
  show List.find? (fun n => decide (n.type = ty) && node_has_ident tag n key) l = none
  rw [List.find?_eq_none]
  intro q hq
  have := h q hq
  rw [← node_has_ident_iff] at this
  simpa using this

theorem genbind_modifier_of_carries (env : c_env) (p : genbind_node) (m : Int)
    (h : carries_modifier p m) :
    ∃ mn, genbind_node_find_type (genbind_node_getnode (some p)) GENBIND_NODE_TYPE_MODIFIER
        = some mn ∧ genbind_node_getint env (some mn) = m := by
  obtain ⟨pre, mn, post, hc, hpre, hty, hnum⟩ := h
  refine ⟨mn, ?_, ?_⟩
  · show node_find_type p.children _ = some mn
    rw [hc]
    exact node_find_type_first _ pre post mn hpre hty
  · simp [genbind_node_getint, node_getint, hnum]

theorem shared_modifier_of_ident_override (env : c_env) (b : binding)
    (type : Option String) (ident : String) (pre post : List genbind_node)
    (p1 : genbind_node) (m1 : Int)
    (hlist : b.binding_list = pre ++ p1 :: post)
    (hfirst : ∀ q ∈ pre, ¬ is_override_keyed_by q ident)
    (h1 : is_override_keyed_by p1 ident) (hm1 : carries_modifier p1 m1) :
    get_binding_shared_modifier env b type (some ident) = m1 := by
  have hfind : genbind_node_find_type_ident b.binding_list
      GENBIND_NODE_TYPE_BINDING_PROPERTY (some ident) = some p1 := by
    rw [hlist]
    exact node_find_type_ident_first _ _ pre post p1 ident hfirst h1.1 h1.2
  obtain ⟨mn, hmn, hint⟩ := genbind_modifier_of_carries env p1 m1 hm1
  simp only [get_binding_shared_modifier, hfind, hmn, hint]

theorem shared_modifier_of_plain_ident_override (env : c_env) (b : binding)
    (type : Option String) (ident : String) (pre post : List genbind_node)
    (p1 : genbind_node)
    (hlist : b.binding_list = pre ++ p1 :: post)
    (hfirst : ∀ q ∈ pre, ¬ is_override_keyed_by q ident)
    (h1 : is_override_keyed_by p1 ident) (hno : carries_no_modifier p1) :
    get_binding_shared_modifier env b type (some ident) = GENBIND_TYPE_NONE := by
  have hfind1 : genbind_node_find_type_ident b.binding_list
      GENBIND_NODE_TYPE_BINDING_PROPERTY (some ident) = some p1 := by
    rw [hlist]
    exact node_find_type_ident_first _ _ pre post p1 ident hfirst h1.1 h1.2
  have hmod : genbind_node_find_type (genbind_node_getnode (some p1))
      GENBIND_NODE_TYPE_MODIFIER = none := node_find_type_none _ _ hno
  simp only [get_binding_shared_modifier, hfind1, hmod]

theorem shared_modifier_of_type_override (env : c_env) (b : binding)
    (type ident : String) (pre post : List genbind_node) (p2 : genbind_node) (m : Int)
    (hnone : ∀ q ∈ b.binding_list, ¬ is_override_keyed_by q ident)
    (hlist : b.binding_list = pre ++ p2 :: post)
    (hfirst : ∀ q ∈ pre, ¬ is_override_keyed_by q type)
    (h2 : is_override_keyed_by p2 type) (hm2 : carries_modifier p2 m) :
    get_binding_shared_modifier env b (some type) (some ident) = m := by
  have hfind1 : genbind_node_find_type_ident b.binding_list
      GENBIND_NODE_TYPE_BINDING_PROPERTY (some ident) = none :=
    node_find_type_ident_none _ _ _ ident hnone
  have hfind2 : genbind_node_find_type_ident b.binding_list
      GENBIND_NODE_TYPE_BINDING_PROPERTY (some type) = some p2 := by
    rw [hlist]
    exact node_find_type_ident_first _ _ pre post p2 type hfirst h2.1 h2.2
  obtain ⟨mn, hmn, hint⟩ := genbind_modifier_of_carries env p2 m hm2
  simp only [get_binding_shared_modifier, hfind1, hfind2, hmn, hint]

/-! ## Shared-modifier resolution: theorems -/

/-- C1 (identifier precedence): when the first override of the binding list keyed by the
attribute identifier carries `MODIFIER m1`, and an override keyed by the type name carrying
a different `MODIFIER m2` stands anywhere in the list, `get_binding_shared_modifier`
returns `m1`. -/
theorem C1_identifier_precedence (env : c_env) (b : binding) (type ident : String)
    (pre post : List genbind_node) (p1 p2 : genbind_node) (m1 m2 : Int)
    (hlist : b.binding_list = pre ++ p1 :: post)
    (hfirst : ∀ q ∈ pre, ¬ is_override_keyed_by q ident)
    (h1 : is_override_keyed_by p1 ident) (hm1 : carries_modifier p1 m1)
    (_h2mem : p2 ∈ b.binding_list) (_h2 : is_override_keyed_by p2 type)
    (_hm2 : carries_modifier p2 m2) (_hne : m1 ≠ m2) :
    get_binding_shared_modifier env b (some type) (some ident) = m1 :=
  shared_modifier_of_ident_override env b (some type) ident pre post p1 m1 hlist hfirst h1 hm1

theorem ex_type_unshared_not_name : ¬ is_override_keyed_by ex_type_unshared "name" := by
  rintro ⟨_, c, hc, _, ht⟩
  simp [ex_type_unshared, gb_property, gb_modifier, gb_ident, ast_node.children] at hc
  rcases hc with rfl | rfl <;> simp [ast_node.text] at ht

theorem ex_type_unshared_keyed : is_override_keyed_by ex_type_unshared "DOMString" :=
  ⟨rfl, gb_ident "DOMString", .tail _ (.head _), rfl, rfl⟩

theorem ex_type_unshared_carries : carries_modifier ex_type_unshared GENBIND_TYPE_UNSHARED :=
  ⟨[], gb_modifier GENBIND_TYPE_UNSHARED, [gb_ident "DOMString"], rfl,
    (fun _ h => nomatch h), rfl, rfl⟩

/-- Witness of C1: the type-keyed override (unshared) comes first in the list, the
identifier-keyed one (type handler) second, and the identifier-keyed modifier is
returned. -/
theorem C1_identifier_precedence_witness :
    get_binding_shared_modifier env_ex ex_binding_both (some "DOMString") (some "name")
      = GENBIND_TYPE_TYPE :=
  C1_identifier_precedence env_ex ex_binding_both "DOMString" "name"
    [ex_type_unshared] [] ex_ident_typehandler ex_type_unshared
    GENBIND_TYPE_TYPE GENBIND_TYPE_UNSHARED rfl
    (fun q hq => by
      rw [List.mem_singleton] at hq
      subst hq
      exact ex_type_unshared_not_name)
    ⟨rfl, gb_ident "name", .tail _ (.head _), rfl, rfl⟩
    ⟨[], gb_modifier GENBIND_TYPE_TYPE, [gb_ident "name"], rfl, (fun _ h => nomatch h), rfl, rfl⟩
    (.head _) ex_type_unshared_keyed ex_type_unshared_carries (by decide)

/-- C2, counterexample: the identifier-keyed override exists without `MODIFIER`, the
type-keyed override carries `MODIFIER` unshared, and the result is not unshared. -/
theorem C2_counterexample :
    ex_ident_plain ∈ ex_binding_plain.binding_list ∧
    is_override_keyed_by ex_ident_plain "name" ∧ carries_no_modifier ex_ident_plain ∧
    ex_type_unshared ∈ ex_binding_plain.binding_list ∧
    is_override_keyed_by ex_type_unshared "DOMString" ∧
    carries_modifier ex_type_unshared GENBIND_TYPE_UNSHARED ∧
    get_binding_shared_modifier env_ex ex_binding_plain (some "DOMString") (some "name")
      ≠ GENBIND_TYPE_UNSHARED := by
  refine ⟨.head _, ⟨rfl, gb_ident "name", .head _, rfl, rfl⟩, ?_, .tail _ (.head _),
    ex_type_unshared_keyed, ex_type_unshared_carries, by decide⟩
  intro c hc
  simp [ex_ident_plain, gb_property, gb_ident, ast_node.children] at hc
  subst hc
  simp [ast_node.type]

/-- C2 as amended: the type-keyed override is consulted only when the binding list has no
identifier-keyed override, and then the `MODIFIER` of the first type-keyed override is
returned; when the first identifier-keyed override has no `MODIFIER` child the result is
`GENBIND_TYPE_NONE`, whatever the type-keyed override carries. -/
theorem C2_type_name_fallback (env : c_env) (b : binding) (type ident : String)
    (pre2 post2 : List genbind_node) (p2 : genbind_node) (m : Int)
    (h2list : b.binding_list = pre2 ++ p2 :: post2)
    (h2first : ∀ q ∈ pre2, ¬ is_override_keyed_by q type)
    (h2 : is_override_keyed_by p2 type) (hm2 : carries_modifier p2 m) :
    ((∀ q ∈ b.binding_list, ¬ is_override_keyed_by q ident) →
      get_binding_shared_modifier env b (some type) (some ident) = m) ∧
    (∀ pre1 p1 post1, b.binding_list = pre1 ++ p1 :: post1 →
      (∀ q ∈ pre1, ¬ is_override_keyed_by q ident) →
      is_override_keyed_by p1 ident → carries_no_modifier p1 →
      get_binding_shared_modifier env b (some type) (some ident) = GENBIND_TYPE_NONE) := by
  constructor
  · intro hnone
    exact shared_modifier_of_type_override env b type ident pre2 post2 p2 m hnone h2list
      h2first h2 hm2
  · intro pre1 p1 post1 h1list h1first h1 hno
    exact shared_modifier_of_plain_ident_override env b (some type) ident pre1 post1 p1
      h1list h1first h1 hno

/-- Witness of C2 as amended: with the identifier-keyed override lacking a `MODIFIER`,
the unshared type-keyed override is not consulted and the result is
`GENBIND_TYPE_NONE`. -/
theorem C2_type_name_fallback_witness :
    get_binding_shared_modifier env_ex ex_binding_plain (some "DOMString") (some "name")
      = GENBIND_TYPE_NONE :=
  (C2_type_name_fallback env_ex ex_binding_plain "DOMString" "name"
    [ex_ident_plain] [] ex_type_unshared GENBIND_TYPE_UNSHARED rfl
    (fun q hq => by
      rw [List.mem_singleton] at hq
      subst hq
      rintro ⟨_, c, hc, _, ht⟩
      simp [ex_ident_plain, gb_property, gb_ident, ast_node.children] at hc
      subst hc
      simp [ast_node.text] at ht)
    ex_type_unshared_keyed ex_type_unshared_carries).2
    [] ex_ident_plain [ex_type_unshared] rfl (fun _ h => nomatch h)
    ⟨rfl, gb_ident "name", .head _, rfl, rfl⟩
    (fun c hc => by
      simp [ex_ident_plain, gb_property, gb_ident, ast_node.children] at hc
      subst hc
      simp [ast_node.type])

/-! ## Property table entries: theorems -/

/-- The entry written by `webidl_property_spec_cb` for an attribute with an identifier, in
the layout of `table_entry`. -/
theorem webidl_property_spec_cb_entry (env : c_env) (b : binding) (node : webidl_node)
    (ident : String) (hident : attribute_ident node = some ident) :
    webidl_property_spec_cb env b node =
      (0, table_entry
        (if attribute_is_readonly env node then "JSAPI_PS_RO" else "JSAPI_PS")
        ident
        (if get_binding_shared_modifier env b (attribute_type_name node) (some ident)
              = GENBIND_TYPE_TYPE ∨
            get_binding_shared_modifier env b (attribute_type_name node) (some ident)
              = GENBIND_TYPE_TYPE_UNSHARED
          then fmt_s env (attribute_type_name node) else ident)
        (if get_binding_shared_modifier env b (attribute_type_name node) (some ident)
              = GENBIND_TYPE_UNSHARED ∨
            get_binding_shared_modifier env b (attribute_type_name node) (some ident)
              = GENBIND_TYPE_TYPE_UNSHARED
          then "JSPROP_ENUMERATE" else "JSPROP_ENUMERATE | JSPROP_SHARED")) := by
  have h1 : webidl_node_gettext (webidl_node_find_type (webidl_node_getnode (some node))
      WEBIDL_NODE_TYPE_IDENT) = some ident := hident
  have h2 : webidl_node_gettext (webidl_node_find_type (webidl_node_getnode
      (webidl_node_find_type (webidl_node_getnode (some node)) WEBIDL_NODE_TYPE_TYPE))
      WEBIDL_NODE_TYPE_IDENT) = attribute_type_name node := rfl
  have h3 : (webidl_node_getint env (webidl_node_find_type (webidl_node_getnode (some node))
      WEBIDL_NODE_TYPE_MODIFIER) = WEBIDL_TYPE_READONLY) = attribute_is_readonly env node := rfl
  simp only [webidl_property_spec_cb, h1, h2, h3]
  generalize get_binding_shared_modifier env b (attribute_type_name node) (some ident) = m
  have e12 : GENBIND_TYPE_TYPE ≠ GENBIND_TYPE_UNSHARED := by decide
  have e13 : GENBIND_TYPE_TYPE ≠ GENBIND_TYPE_TYPE_UNSHARED := by decide
  have e23 : GENBIND_TYPE_UNSHARED ≠ GENBIND_TYPE_TYPE_UNSHARED := by decide
  by_cases hr : attribute_is_readonly env node <;>
  by_cases c1 : m = GENBIND_TYPE_TYPE <;>
  by_cases c2 : m = GENBIND_TYPE_UNSHARED <;>
  by_cases c3 : m = GENBIND_TYPE_TYPE_UNSHARED <;>
  simp_all [table_entry, String.append_assoc]

/-- C3 (shared flag): the entry written for an attribute with an identifier has flags
that are one of the two flag texts, always contain `JSPROP_ENUMERATE`, and contain
`JSPROP_SHARED` exactly when the classification is neither `Unshared` nor
`TypeHandlerUnshared` (on the four classifications: exactly when the unshared bit is
clear).  With no identifier-keyed override and a type-keyed `Unshared` one, the flags are
exactly `JSPROP_ENUMERATE`. -/
theorem C3_shared_flag (env : c_env) (b : binding) (node : webidl_node) (ident : String)
    (hident : attribute_ident node = some ident) :
    ∃ macroname slot flags,
      webidl_property_spec_cb env b node = (0, table_entry macroname ident slot flags) ∧
      (flags = "JSPROP_ENUMERATE | JSPROP_SHARED" ∨ flags = "JSPROP_ENUMERATE") ∧
      occurs_in "JSPROP_ENUMERATE" flags ∧
      (occurs_in "JSPROP_SHARED" flags ↔
        ¬ (get_binding_shared_modifier env b (attribute_type_name node) (some ident)
              = GENBIND_TYPE_UNSHARED ∨
           get_binding_shared_modifier env b (attribute_type_name node) (some ident)
              = GENBIND_TYPE_TYPE_UNSHARED)) ∧
      (∀ c ∈ [GENBIND_TYPE_NONE, GENBIND_TYPE_TYPE, GENBIND_TYPE_UNSHARED,
            GENBIND_TYPE_TYPE_UNSHARED],
        (Int.land c GENBIND_TYPE_UNSHARED = 0 ↔
          ¬ (c = GENBIND_TYPE_UNSHARED ∨ c = GENBIND_TYPE_TYPE_UNSHARED))) ∧
      (∀ type pre p post, attribute_type_name node = some type →
        (∀ q ∈ b.binding_list, ¬ is_override_keyed_by q ident) →
        b.binding_list = pre ++ p :: post →
        (∀ q ∈ pre, ¬ is_override_keyed_by q type) →
        is_override_keyed_by p type → carries_modifier p GENBIND_TYPE_UNSHARED →
        flags = "JSPROP_ENUMERATE") := by
  refine ⟨_, _, _, webidl_property_spec_cb_entry env b node ident hident, ?_, ?_, ?_, ?_, ?_⟩
  · split_ifs <;> simp
  · split_ifs <;> decide
  · split_ifs with h
    · simp only [h, not_true_eq_false, iff_false]
      decide
    · simp only [h, not_false_eq_true, iff_true]
      decide
  · decide
  · intro type pre p post htype hnone hlist hfirst hkey hmod
    have hm := shared_modifier_of_type_override env b type ident pre post p
      GENBIND_TYPE_UNSHARED hnone hlist hfirst hkey hmod
    rw [htype, hm]
    simp

/-- Witness of C3: the attribute `DOMString name` under a binding whose only override is
the type-keyed unshared one. -/
theorem C3_shared_flag_witness :
    attribute_ident ex_attr_name = some "name" ∧
    ∃ macroname slot flags,
      webidl_property_spec_cb env_ex ex_binding_type_only ex_attr_name
        = (0, table_entry macroname "name" slot flags) ∧
      (flags = "JSPROP_ENUMERATE | JSPROP_SHARED" ∨ flags = "JSPROP_ENUMERATE") ∧
      occurs_in "JSPROP_ENUMERATE" flags ∧
      (occurs_in "JSPROP_SHARED" flags ↔
        ¬ (get_binding_shared_modifier env_ex ex_binding_type_only
              (attribute_type_name ex_attr_name) (some "name") = GENBIND_TYPE_UNSHARED ∨
           get_binding_shared_modifier env_ex ex_binding_type_only
              (attribute_type_name ex_attr_name) (some "name")
              = GENBIND_TYPE_TYPE_UNSHARED)) ∧
      (∀ c ∈ [GENBIND_TYPE_NONE, GENBIND_TYPE_TYPE, GENBIND_TYPE_UNSHARED,
            GENBIND_TYPE_TYPE_UNSHARED],
        (Int.land c GENBIND_TYPE_UNSHARED = 0 ↔
          ¬ (c = GENBIND_TYPE_UNSHARED ∨ c = GENBIND_TYPE_TYPE_UNSHARED))) ∧
      (∀ type pre p post, attribute_type_name ex_attr_name = some type →
        (∀ q ∈ ex_binding_type_only.binding_list, ¬ is_override_keyed_by q "name") →
        ex_binding_type_only.binding_list = pre ++ p :: post →
        (∀ q ∈ pre, ¬ is_override_keyed_by q type) →
        is_override_keyed_by p type → carries_modifier p GENBIND_TYPE_UNSHARED →
        flags = "JSPROP_ENUMERATE") :=
  ⟨rfl, C3_shared_flag env_ex ex_binding_type_only ex_attr_name "name" rfl⟩

/-- The scenario of C3 evaluated: the entry written for `DOMString name` under the
type-keyed unshared override. -/
theorem webidl_property_spec_cb_unshared_example :
    webidl_property_spec_cb env_ex ex_binding_type_only ex_attr_name
      = (0, "\tJSAPI_PS(\"name\", name, 0, JSPROP_ENUMERATE),\n") := by
  decide

/-- C4 (storage slot and read-only marker): the entry written for an attribute with an
identifier names the type name as storage slot when the classification is `TypeHandler`
or `TypeHandlerUnshared` (on the four classifications: when the type-handler bit is set)
and the identifier otherwise; it uses `JSAPI_PS_RO` when the attribute is readonly and
`JSAPI_PS` otherwise, whatever the classification. -/
theorem C4_storage_slot_and_readonly_marker (env : c_env) (b : binding)
    (node : webidl_node) (ident : String) (hident : attribute_ident node = some ident) :
    (∃ flags, webidl_property_spec_cb env b node =
      (0, table_entry
        (if attribute_is_readonly env node then "JSAPI_PS_RO" else "JSAPI_PS")
        ident
        (if get_binding_shared_modifier env b (attribute_type_name node) (some ident)
              = GENBIND_TYPE_TYPE ∨
            get_binding_shared_modifier env b (attribute_type_name node) (some ident)
              = GENBIND_TYPE_TYPE_UNSHARED
          then fmt_s env (attribute_type_name node) else ident)
        flags)) ∧
    (∀ c ∈ [GENBIND_TYPE_NONE, GENBIND_TYPE_TYPE, GENBIND_TYPE_UNSHARED,
          GENBIND_TYPE_TYPE_UNSHARED],
      (Int.land c GENBIND_TYPE_TYPE ≠ 0 ↔
        (c = GENBIND_TYPE_TYPE ∨ c = GENBIND_TYPE_TYPE_UNSHARED))) :=
  ⟨⟨_, webidl_property_spec_cb_entry env b node ident hident⟩, by decide⟩

/-- Witness of C4: the readonly attribute `DOMString name` under a type-handler override
keyed by `DOMString`: the entry uses `JSAPI_PS_RO` and the slot `DOMString`. -/
theorem C4_storage_slot_and_readonly_marker_witness :
    attribute_ident ex_attr_name_ro = some "name" ∧
    (∃ flags, webidl_property_spec_cb env_ex ex_binding_typehandler ex_attr_name_ro =
      (0, table_entry "JSAPI_PS_RO" "name" "DOMString" flags)) :=
  ⟨rfl, (C4_storage_slot_and_readonly_marker env_ex ex_binding_typehandler ex_attr_name_ro
    "name" rfl).1⟩

/-! ## Accessor bodies: theorems -/

/-- The text of a type-level setter: head, the code block of the `SETTER` block keyed by
the type name when there is one, and the success return. -/
theorem output_property_type_setter_eq (env : c_env) (b : binding) (type : String) :
    (output_property_type_setter env b type).2 =
      type_accessor_head b "JSAPI_PROP_SETTER" type
        ++ (match genbind_node_find_type_ident b.gb_ast GENBIND_NODE_TYPE_SETTER
              (some type) with
            | some p => output_code_block env (genbind_node_getnode (some p))
            | none => "")
        ++ "        return JS_TRUE;\n\x7d\n\n" := by
  simp only [output_property_type_setter, type_accessor_head, String.append_assoc]
  rfl

/-- The text of a type-level getter: head, the code block of the `GETTER` block keyed by
the type name when there is one, and the success return. -/
theorem output_property_type_getter_eq (env : c_env) (b : binding) (type : String) :
    (output_property_type_getter env b type).2 =
      type_accessor_head b "JSAPI_PROP_GETTER" type
        ++ (match genbind_node_find_type_ident b.gb_ast GENBIND_NODE_TYPE_GETTER
              (some type) with
            | some p => output_code_block env (genbind_node_getnode (some p))
            | none => "")
        ++ "        return JS_TRUE;\n\x7d\n\n" := by
  simp only [output_property_type_getter, type_accessor_head, String.append_assoc]
  rfl


set_option maxRecDepth 100000 in
/-- C5, counterexample: interface `X` has the single attribute `readonly DOMString name`
and the binding makes `DOMString` a type handler; the output of `output_property_body`
holds a setter definition, the one keyed by the type name that stands for the readonly
attribute. -/
theorem C5_counterexample :
    attribute_is_readonly env_ex ex_attr_name_ro ∧
    Int.land (get_binding_shared_modifier env_ex ex_binding_typehandler
      (attribute_type_name ex_attr_name_ro) (attribute_ident ex_attr_name_ro))
      GENBIND_TYPE_TYPE = GENBIND_TYPE_TYPE ∧
    output_property_body env_ex ex_binding_typehandler 1 = some (0,
      "/**** X ****/\n"
      ++ "static JSBool JSAPI_PROP_SETTER(DOMString, JSContext *cx, JSObject *obj, jsval *vp)\n"
      ++ "\x7b\n        return JS_TRUE;\n\x7d\n\n"
      ++ "static JSBool JSAPI_PROP_GETTER(DOMString, JSContext *cx, JSObject *obj, jsval *vp)\n"
      ++ "\x7b\n        return JS_TRUE;\n\x7d\n\n") ∧
    ∃ out, output_property_body env_ex ex_binding_typehandler 1 = some (0, out) ∧
      occurs_in "static JSBool JSAPI_PROP_SETTER(" out := by
  refine ⟨by decide, by decide, rfl, _, rfl, ?_⟩
  decide

/-- C5 as amended: for a readonly attribute the per-attribute path produces no setter
(`output_property_setter` writes nothing and returns 0, and `webidl_property_body_cb`
writes the getter alone, or nothing under a type handler); a type-handler override,
however, always produces its type-level pair, setter first, whatever the readonly flag
of the attributes of that type. -/
theorem C5_readonly_suppression (env : c_env) (b : binding) (node : webidl_node)
    (ident : String) (hident : attribute_ident node = some ident)
    (hro : attribute_is_readonly env node) :
    output_property_setter env b node ident = (0, "") ∧
    (webidl_property_body_cb env b node).2 =
      (if Int.land (get_binding_shared_modifier env b (attribute_type_name node)
            (some ident)) GENBIND_TYPE_TYPE = 0
        then (output_property_getter env b node ident).2 else "") ∧
    (∀ (p : genbind_node) (type : String),
      Int.land (override_modifier env p) GENBIND_TYPE_TYPE = GENBIND_TYPE_TYPE →
      override_name p = some type →
      (typehandler_property_cb env b p).2 =
          (output_property_type_setter env b type).2
            ++ (output_property_type_getter env b type).2 ∧
        ∃ body, (output_property_type_setter env b type).2 =
          type_accessor_head b "JSAPI_PROP_SETTER" type ++ body
            ++ "        return JS_TRUE;\n\x7d\n\n") := by
  have hset : output_property_setter env b node ident = (0, "") := by
    have h3 : (webidl_node_getint env (webidl_node_find_type
        (webidl_node_getnode (some node)) WEBIDL_NODE_TYPE_MODIFIER)
        = WEBIDL_TYPE_READONLY) := hro
    simp only [output_property_setter, h3, if_true]
  refine ⟨hset, ?_, ?_⟩
  · have h1 : webidl_node_gettext (webidl_node_find_type (webidl_node_getnode (some node))
        WEBIDL_NODE_TYPE_IDENT) = some ident := hident
    have h2 : webidl_node_gettext (webidl_node_find_type (webidl_node_getnode
        (webidl_node_find_type (webidl_node_getnode (some node)) WEBIDL_NODE_TYPE_TYPE))
        WEBIDL_NODE_TYPE_IDENT) = attribute_type_name node := rfl
    simp only [webidl_property_body_cb, h1, h2, hset]
    split_ifs <;> simp
  · intro p type hbit hname
    have h1 : Int.land (genbind_node_getint env (genbind_node_find_type
        (genbind_node_getnode (some p)) GENBIND_NODE_TYPE_MODIFIER)) GENBIND_TYPE_TYPE
        = GENBIND_TYPE_TYPE := hbit
    have h2 : genbind_node_gettext (genbind_node_find_type (genbind_node_getnode (some p))
        GENBIND_NODE_TYPE_IDENT) = some type := hname
    constructor
    · simp only [typehandler_property_cb, h1, h2, if_true]
      simp [output_property_type_setter]
    · exact ⟨_, output_property_type_setter_eq env b type⟩

/-- Witness of C5 as amended: the readonly attribute `DOMString name`. -/
theorem C5_readonly_suppression_witness :
    attribute_ident ex_attr_name_ro = some "name" ∧
    attribute_is_readonly env_ex ex_attr_name_ro ∧
    output_property_setter env_ex ex_binding_typehandler ex_attr_name_ro "name" = (0, "") :=
  ⟨rfl, by decide,
    (C5_readonly_suppression env_ex ex_binding_typehandler ex_attr_name_ro "name" rfl
      (by decide)).1⟩

set_option maxRecDepth 100000 in
/-- C6, the code at the failing input: the binding tree holds a `SETTER` block keyed by
`name`, the attribute `name` is not readonly and has no type handler, and the setter
written is the fixed failure return, without the code of the block. -/
theorem C6_setter_block_not_copied :
    genbind_node_find_type_ident ex_binding_blocks.gb_ast GENBIND_NODE_TYPE_SETTER
      (some "name") = some ex_setter_block ∧
    ¬ attribute_is_readonly env_ex ex_attr_name ∧
    get_binding_shared_modifier env_ex ex_binding_blocks (attribute_type_name ex_attr_name)
      (some "name") = GENBIND_TYPE_NONE ∧
    output_property_setter env_ex ex_binding_blocks ex_attr_name "name" = (0,
      "static JSBool JSAPI_PROP_SETTER(name, JSContext *cx, JSObject *obj, jsval *vp)\n"
      ++ "\x7b\n        return JS_FALSE;\n\x7d\n\n") ∧
    ¬ occurs_in (output_code_block env_ex ex_setter_block.children)
      (output_property_setter env_ex ex_binding_blocks ex_attr_name "name").2 := by
  refine ⟨rfl, by decide, by decide, rfl, ?_⟩
  decide

/-- The three body sources of `output_property_getter`, by the result of its lookups. -/
theorem output_property_getter_eq (env : c_env) (b : binding) (node : webidl_node)
    (ident : String) :
    output_property_getter env b node ident =
      (0, getter_head env b node ident
        ++ (match genbind_node_find_type_ident b.gb_ast GENBIND_NODE_TYPE_GETTER
              (some ident) with
            | some p => output_code_block env (genbind_node_getnode (some p))
            | none =>
              match (match genbind_node_find_type b.gb_ast GENBIND_NODE_TYPE_BINDING with
                | some bn => genbind_node_find_type_ident (genbind_node_getnode (some bn))
                    GENBIND_NODE_TYPE_BINDING_INTERNAL (some ident)
                | none => none : Option genbind_node) with
              | some _ => "\tjsret = private->" ++ ident ++ ";\n"
              | none => (output_property_placeholder b ident).2)
        ++ getter_tail env node) := by
  simp only [output_property_getter, getter_head, getter_tail, String.append_assoc]

/-- C7 (getter body-source priority): `output_property_getter` writes head, one body
source and tail.  (a) With a `GETTER` block keyed by the identifier in the binding tree
the source is the code of the first such block, whatever internal fields exist;
(b) without one, and with an internal field of that identifier in the binding block, it
is the field read; (c) otherwise it is the placeholder log line.  The result is always 0
and the text always ends with the success return and the closing brace. -/
theorem C7_getter_body_source (env : c_env) (b : binding) (node : webidl_node)
    (ident : String) :
    (∀ pre g post, b.gb_ast = pre ++ g :: post →
      (∀ q ∈ pre, ¬ is_block_keyed_by GENBIND_NODE_TYPE_GETTER q ident) →
      is_block_keyed_by GENBIND_NODE_TYPE_GETTER g ident →
      output_property_getter env b node ident =
        (0, getter_head env b node ident ++ output_code_block env g.children
              ++ getter_tail env node)) ∧
    ((∀ q ∈ b.gb_ast, ¬ is_block_keyed_by GENBIND_NODE_TYPE_GETTER q ident) →
      (∀ pre bn post i, b.gb_ast = pre ++ bn :: post →
        (∀ q ∈ pre, q.type ≠ GENBIND_NODE_TYPE_BINDING) →
        bn.type = GENBIND_NODE_TYPE_BINDING → i ∈ bn.children →
        is_block_keyed_by GENBIND_NODE_TYPE_BINDING_INTERNAL i ident →
        output_property_getter env b node ident =
          (0, getter_head env b node ident ++ ("\tjsret = private->" ++ ident ++ ";\n")
                ++ getter_tail env node)) ∧
      (((∀ q ∈ b.gb_ast, q.type ≠ GENBIND_NODE_TYPE_BINDING) ∨
        (∃ pre bn post, b.gb_ast = pre ++ bn :: post ∧
          (∀ q ∈ pre, q.type ≠ GENBIND_NODE_TYPE_BINDING) ∧
          bn.type = GENBIND_NODE_TYPE_BINDING ∧
          ∀ i ∈ bn.children,
            ¬ is_block_keyed_by GENBIND_NODE_TYPE_BINDING_INTERNAL i ident)) →
        output_property_getter env b node ident =
          (0, getter_head env b node ident
                ++ ("\tJSLOG(\"property " ++ b.interface ++ "." ++ ident
                      ++ " has no implementation\");\n")
                ++ getter_tail env node))) ∧
    (output_property_getter env b node ident).1 = 0 ∧
    ∃ text, (output_property_getter env b node ident).2
      = text ++ "\treturn JS_TRUE;\n\x7d\n\n" := by
  refine ⟨?_, ?_, ?_, ?_⟩
  · intro pre g post hlist hfirst hg
    have hfind : genbind_node_find_type_ident b.gb_ast GENBIND_NODE_TYPE_GETTER
        (some ident) = some g := by
      rw [hlist]
      exact node_find_type_ident_first _ _ pre post g ident hfirst hg.1 hg.2
    rw [output_property_getter_eq, hfind]
    rfl
  · intro hnone
    have hfind : genbind_node_find_type_ident b.gb_ast GENBIND_NODE_TYPE_GETTER
        (some ident) = none := node_find_type_ident_none _ _ _ ident hnone
    constructor
    · intro pre bn post i hlist hpre hbn hi hkey
      have hb : genbind_node_find_type b.gb_ast GENBIND_NODE_TYPE_BINDING = some bn := by
        rw [hlist]
        exact node_find_type_first _ pre post bn hpre hbn
      have hint : ∃ j, genbind_node_find_type_ident (genbind_node_getnode (some bn))
          GENBIND_NODE_TYPE_BINDING_INTERNAL (some ident) = some j := by
        by_contra hcon
        have hn : genbind_node_find_type_ident (genbind_node_getnode (some bn))
            GENBIND_NODE_TYPE_BINDING_INTERNAL (some ident) = none := by
          cases hfi : genbind_node_find_type_ident (genbind_node_getnode (some bn))
            GENBIND_NODE_TYPE_BINDING_INTERNAL (some ident) with
          | none => rfl
          | some j => exact absurd ⟨j, hfi⟩ hcon
        have hall := List.find?_eq_none.1 hn i hi
        have hk : node_has_ident GENBIND_NODE_TYPE_IDENT i ident = true :=
          (node_has_ident_iff _ i ident).2 hkey.2
        simp [hkey.1, hk] at hall
      obtain ⟨j, hj⟩ := hint
      rw [output_property_getter_eq, hfind, hb]
      simp only [hj]
    · intro hcase
      have hint : (match genbind_node_find_type b.gb_ast GENBIND_NODE_TYPE_BINDING with
          | some bn => genbind_node_find_type_ident (genbind_node_getnode (some bn))
              GENBIND_NODE_TYPE_BINDING_INTERNAL (some ident)
          | none => none : Option genbind_node) = none := by
        rcases hcase with hnb | ⟨pre, bn, post, hlist, hpre, hbn, hno⟩
        · rw [show genbind_node_find_type b.gb_ast GENBIND_NODE_TYPE_BINDING = none from
            node_find_type_none _ _ hnb]
        · have hb : genbind_node_find_type b.gb_ast GENBIND_NODE_TYPE_BINDING = some bn := by
            rw [hlist]
            exact node_find_type_first _ pre post bn hpre hbn
          rw [hb]
          exact node_find_type_ident_none _ _ _ ident hno
      rw [output_property_getter_eq, hfind]
      simp only [hint, output_property_placeholder]
  · rfl
  · have htail : ∀ x : String, ∃ text,
        x ++ getter_tail env node = text ++ "\treturn JS_TRUE;\n\x7d\n\n" := fun x =>
      ⟨x ++ (output_return env "jsret" node).2, by
        simp only [getter_tail, String.append_assoc]
        rfl⟩
    rw [output_property_getter_eq]
    exact htail _

/-- Witness of C7, case (a): the binding tree holds a `GETTER` block keyed by `name` and
also an internal field `name`; the getter body is the code of the block. -/
theorem C7_getter_body_source_witness :
    output_property_getter env_ex ex_binding_blocks ex_attr_name "name" =
      (0, getter_head env_ex ex_binding_blocks ex_attr_name "name"
            ++ output_code_block env_ex ex_getter_block.children
            ++ getter_tail env_ex ex_attr_name) :=
  (C7_getter_body_source env_ex ex_binding_blocks ex_attr_name "name").1
    [ex_setter_block] ex_getter_block [ex_binding_block] rfl
    (fun q hq => by
      rw [List.mem_singleton] at hq
      subst hq
      rintro ⟨ht, _⟩
      exact absurd ht (by decide))
    ⟨rfl, gb_ident "name", .head _, rfl, rfl⟩

set_option maxRecDepth 100000 in
/-- The getter of the example written out. -/
theorem output_property_getter_block_example :
    output_property_getter env_ex ex_binding_blocks ex_attr_name "name" = (0,
      "static JSBool JSAPI_PROP_GETTER(name, JSContext *cx, JSObject *obj, jsval *vp)\n"
      ++ "\x7b\n"
      ++ "\tJSObject *jsret = NULL; /* DOMString */\n"
      ++ "\tjsret = lookup(private);\n"
      ++ "\tJSAPI_PROP_SET_RVAL(cx, vp, OBJECT_TO_JSVAL(jsret));\n"
      ++ "\treturn JS_TRUE;\n"
      ++ "\x7d\n\n") := by
  rfl

/-! ## Iteration lemmas -/

theorem node_for_each_type_cons {τ : Type} [DecidableEq τ] (ty : τ)
    (cb : ast_node τ → Int × String) (n : ast_node τ) (rest : List (ast_node τ)) :
    node_for_each_type ty cb (n :: rest) =
      if n.type = ty then
        if (cb n).1 ≠ 0 then cb n
        else ((node_for_each_type ty cb rest).1, (cb n).2 ++ (node_for_each_type ty cb rest).2)
      else node_for_each_type ty cb rest := rfl

theorem node_for_each_type_fuel_cons {τ : Type} [DecidableEq τ] (ty : τ)
    (cb : ast_node τ → Option (Int × String)) (n : ast_node τ) (rest : List (ast_node τ)) :
    node_for_each_type_fuel ty cb (n :: rest) =
      if n.type = ty then
        match cb n with
        | none => none
        | some r =>
          if r.1 ≠ 0 then some r
          else
            match node_for_each_type_fuel ty cb rest with
            | none => none
            | some r2 => some (r2.1, r.2 ++ r2.2)
      else node_for_each_type_fuel ty cb rest := rfl

theorem node_for_each_type_silent {τ : Type} [DecidableEq τ] (ty : τ)
    (cb : ast_node τ → Int × String) (l : List (ast_node τ))
    (h : ∀ a ∈ l, a.type = ty → (cb a).2 = "") :
    (node_for_each_type ty cb l).2 = "" := by
  induction l with
  | nil => rfl
  | cons a rest ih =>
    have ih2 := ih (fun x hx => h x (List.mem_cons_of_mem _ hx))
    rw [node_for_each_type_cons]
    by_cases hty : a.type = ty
    · have ha := h a (List.mem_cons_self _ _) hty
      rw [if_pos hty]
      by_cases hr : (cb a).1 ≠ 0
      · rw [if_pos hr, ha]
      · rw [if_neg hr, ha, ih2]
        rfl
    · rw [if_neg hty, ih2]

theorem node_for_each_type_skip {τ : Type} [DecidableEq τ] (ty : τ)
    (cb : ast_node τ → Int × String) (l rest : List (ast_node τ))
    (h : ∀ a ∈ l, a.type = ty → cb a = (0, "")) :
    node_for_each_type ty cb (l ++ rest) = node_for_each_type ty cb rest := by
  induction l with
  | nil => rfl
  | cons a l2 ih =>
    have ih2 := ih (fun x hx => h x (List.mem_cons_of_mem _ hx))
    rw [List.cons_append, node_for_each_type_cons]
    by_cases hty : a.type = ty
    · have ha := h a (List.mem_cons_self _ _) hty
      rw [if_pos hty, ha, ih2]
      simp
    · rw [if_neg hty, ih2]

theorem node_for_each_type_quiet {τ : Type} [DecidableEq τ] (ty : τ)
    (cb : ast_node τ → Int × String) (l : List (ast_node τ))
    (h : ∀ a ∈ l, a.type = ty → cb a = (0, "")) :
    node_for_each_type ty cb l = (0, "") := by
  have := node_for_each_type_skip ty cb l [] h
  rw [List.append_nil] at this
  rw [this]
  rfl

theorem node_for_each_type_fuel_absent {τ : Type} [DecidableEq τ] (ty : τ)
    (cb : ast_node τ → Option (Int × String)) (l : List (ast_node τ))
    (h : ∀ a ∈ l, a.type ≠ ty) :
    node_for_each_type_fuel ty cb l = some (0, "") := by
  induction l with
  | nil => rfl
  | cons a rest ih =>
    have ih2 := ih (fun x hx => h x (List.mem_cons_of_mem _ hx))
    rw [node_for_each_type_fuel_cons, if_neg (h a (List.mem_cons_self _ _)), ih2]

theorem generate_property_body_members_silent (env : c_env) (b : binding)
    (interface : Option String) (l : List webidl_node)
    (h : ∀ f ∈ l, f.type = WEBIDL_NODE_TYPE_LIST → ∀ a ∈ f.children,
      a.type = WEBIDL_NODE_TYPE_ATTRIBUTE → (webidl_property_body_cb env b a).2 = "") :
    generate_property_body_members env b interface l =
      fragment_comments ("/**** " ++ fmt_s env interface ++ " ****/\n") l := by
  induction l with
  | nil => rfl
  | cons f rest ih =>
    have ih2 := ih (fun x hx => h x (List.mem_cons_of_mem _ hx))
    rw [generate_property_body_members, fragment_comments]
    by_cases hty : f.type = WEBIDL_NODE_TYPE_LIST
    · have hf := node_for_each_type_silent WEBIDL_NODE_TYPE_ATTRIBUTE
        (webidl_property_body_cb env b) f.children (h f (List.mem_cons_self _ _) hty)
      rw [if_pos hty, if_pos hty, ih2]
      simp only [webidl_node_for_each_type, webidl_node_getnode, node_getnode, hf,
        String.append_empty]
    · rw [if_neg hty, if_neg hty, ih2]

theorem typehandler_property_cb_of_handler (env : c_env) (b : binding) (p : genbind_node)
    (type : String)
    (hbit : Int.land (override_modifier env p) GENBIND_TYPE_TYPE = GENBIND_TYPE_TYPE)
    (hname : override_name p = some type) :
    typehandler_property_cb env b p =
      (0, (output_property_type_setter env b type).2
            ++ (output_property_type_getter env b type).2) := by
  have h1 : Int.land (genbind_node_getint env (genbind_node_find_type
      (genbind_node_getnode (some p)) GENBIND_NODE_TYPE_MODIFIER)) GENBIND_TYPE_TYPE
      = GENBIND_TYPE_TYPE := hbit
  have h2 : genbind_node_gettext (genbind_node_find_type (genbind_node_getnode (some p))
      GENBIND_NODE_TYPE_IDENT) = some type := hname
  simp only [typehandler_property_cb, h1, h2, if_true]
  simp [output_property_type_setter, output_property_type_getter]

theorem typehandler_property_cb_of_other (env : c_env) (b : binding) (p : genbind_node)
    (hbit : Int.land (override_modifier env p) GENBIND_TYPE_TYPE ≠ GENBIND_TYPE_TYPE) :
    typehandler_property_cb env b p = (0, "") := by
  have h1 : ¬ Int.land (genbind_node_getint env (genbind_node_find_type
      (genbind_node_getnode (some p)) GENBIND_NODE_TYPE_MODIFIER)) GENBIND_TYPE_TYPE
      = GENBIND_TYPE_TYPE := hbit
  simp only [typehandler_property_cb, h1, if_false]

theorem webidl_property_body_cb_of_handler (env : c_env) (b : binding) (node : webidl_node)
    (ident : String) (hident : attribute_ident node = some ident)
    (hbit : Int.land (get_binding_shared_modifier env b (attribute_type_name node)
      (some ident)) GENBIND_TYPE_TYPE ≠ 0) :
    webidl_property_body_cb env b node = (env.ret_indeterminate, "") := by
  have h1 : webidl_node_gettext (webidl_node_find_type (webidl_node_getnode (some node))
      WEBIDL_NODE_TYPE_IDENT) = some ident := hident
  have h2 : webidl_node_gettext (webidl_node_find_type (webidl_node_getnode
      (webidl_node_find_type (webidl_node_getnode (some node)) WEBIDL_NODE_TYPE_TYPE))
      WEBIDL_NODE_TYPE_IDENT) = attribute_type_name node := rfl
  simp only [webidl_property_body_cb, h1, h2, hbit, if_false]

theorem generate_property_body_own (env : c_env) (b : binding) (fuel : Nat)
    (name : String) (pre post : List webidl_node) (inode : webidl_node)
    (hast : b.wi_ast = pre ++ inode :: post)
    (hfirst : ∀ q ∈ pre, ¬ is_interface_named q name)
    (hnamed : is_interface_named inode name)
    (hown : ∀ c ∈ inode.children, c.type ≠ WEBIDL_NODE_TYPE_INTERFACE_INHERITANCE ∧
      c.type ≠ WEBIDL_NODE_TYPE_INTERFACE_IMPLEMENTS) :
    generate_property_body env b (fuel + 1) (some name) =
      some (0, generate_property_body_members env b (some name) inode.children) := by
  have hfind : webidl_node_find_type_ident b.wi_ast WEBIDL_NODE_TYPE_INTERFACE
      (some name) = some inode := by
    rw [hast]
    exact node_find_type_ident_first _ _ pre post inode name hfirst hnamed.1 hnamed.2
  have hinh : webidl_node_find_type (webidl_node_getnode (some inode))
      WEBIDL_NODE_TYPE_INTERFACE_INHERITANCE = none :=
    node_find_type_none _ _ (fun c hc => (hown c hc).1)
  have himp : ∀ cb, node_for_each_type_fuel WEBIDL_NODE_TYPE_INTERFACE_IMPLEMENTS cb
      (webidl_node_getnode (some inode)) = some (0, "") := fun cb =>
    node_for_each_type_fuel_absent _ cb _ (fun c hc => (hown c hc).2)
  simp only [generate_property_body, hfind, hinh, himp, if_true, String.append_empty]
  rfl

theorem typehandler_property_cb_pair (env : c_env) (b : binding) (p : genbind_node)
    (type : String)
    (hbit : Int.land (override_modifier env p) GENBIND_TYPE_TYPE = GENBIND_TYPE_TYPE)
    (hname : override_name p = some type) :
    typehandler_property_cb env b p = (0, type_accessor_pair env b type) := by
  rw [typehandler_property_cb_of_handler env b p type hbit hname,
    output_property_type_setter_eq, output_property_type_getter_eq]
  rfl

theorem typehandler_property_cb_nameless (env : c_env) (b : binding) (p : genbind_node)
    (hname : override_name p = none) :
    typehandler_property_cb env b p = (0, "") := by
  have h2 : genbind_node_gettext (genbind_node_find_type (genbind_node_getnode (some p))
      GENBIND_NODE_TYPE_IDENT) = none := hname
  simp only [typehandler_property_cb, h2]
  split <;> rfl

/-- The type-handler pass returns 0 and writes one pair per name of `typehandler_names`,
in list order. -/
theorem typehandler_pass_eq (env : c_env) (b : binding) (l : List genbind_node) :
    genbind_node_for_each_type l GENBIND_NODE_TYPE_BINDING_PROPERTY
        (typehandler_property_cb env b) =
      (0, concat_texts ((typehandler_names env l).map (type_accessor_pair env b))) := by
  show node_for_each_type _ _ l = _
  induction l with
  | nil => rfl
  | cons q rest ih =>
    rw [node_for_each_type_cons, ih]
    by_cases hty : q.type = GENBIND_NODE_TYPE_BINDING_PROPERTY
    · rw [if_pos hty]
      by_cases hb : Int.land (override_modifier env q) GENBIND_TYPE_TYPE = GENBIND_TYPE_TYPE
      · cases hn : override_name q with
        | none =>
          rw [typehandler_property_cb_nameless env b q hn]
          simp [typehandler_names, hty, hb, hn]
        | some t =>
          rw [typehandler_property_cb_pair env b q t hb hn]
          simp [typehandler_names, hty, hb, hn, concat_texts]
      · rw [typehandler_property_cb_of_other env b q hb]
        simp [typehandler_names, hty, hb]
    · rw [if_neg hty]
      simp [typehandler_names, hty]

theorem typehandler_names_cons (env : c_env) (q : genbind_node) (rest : List genbind_node) :
    typehandler_names env (q :: rest) =
      if q.type = GENBIND_NODE_TYPE_BINDING_PROPERTY ∧
          Int.land (override_modifier env q) GENBIND_TYPE_TYPE = GENBIND_TYPE_TYPE then
        match override_name q with
        | some t => t :: typehandler_names env rest
        | none => typehandler_names env rest
      else typehandler_names env rest := rfl

theorem typehandler_names_append (env : c_env) (l1 l2 : List genbind_node) :
    typehandler_names env (l1 ++ l2) = typehandler_names env l1 ++ typehandler_names env l2 := by
  induction l1 with
  | nil => rfl
  | cons q rest ih =>
    show typehandler_names env (q :: (rest ++ l2)) = _
    rw [typehandler_names_cons, typehandler_names_cons, ih]
    by_cases hc : q.type = GENBIND_NODE_TYPE_BINDING_PROPERTY ∧
        Int.land (override_modifier env q) GENBIND_TYPE_TYPE = GENBIND_TYPE_TYPE
    · rw [if_pos hc, if_pos hc]
      cases override_name q <;> rfl
    · rw [if_neg hc, if_neg hc]

theorem typehandler_names_mem (env : c_env) (l : List genbind_node) (t : String)
    (h : t ∈ typehandler_names env l) :
    ∃ q ∈ l, q.type = GENBIND_NODE_TYPE_BINDING_PROPERTY ∧
      Int.land (override_modifier env q) GENBIND_TYPE_TYPE = GENBIND_TYPE_TYPE ∧
      override_name q = some t := by
  induction l with
  | nil => exact absurd h (List.not_mem_nil _)
  | cons q rest ih =>
    have hrest : t ∈ typehandler_names env rest →
        ∃ q2 ∈ q :: rest, q2.type = GENBIND_NODE_TYPE_BINDING_PROPERTY ∧
          Int.land (override_modifier env q2) GENBIND_TYPE_TYPE = GENBIND_TYPE_TYPE ∧
          override_name q2 = some t := fun h2 => by
      obtain ⟨q2, hq2, hr⟩ := ih h2
      exact ⟨q2, List.mem_cons_of_mem _ hq2, hr⟩
    by_cases hc : q.type = GENBIND_NODE_TYPE_BINDING_PROPERTY ∧
        Int.land (override_modifier env q) GENBIND_TYPE_TYPE = GENBIND_TYPE_TYPE
    · cases hn : override_name q with
      | none =>
        simp only [typehandler_names, hc, and_self, if_true, hn] at h
        exact hrest h
      | some t2 =>
        simp only [typehandler_names, hc, and_self, if_true, hn, List.mem_cons] at h
        rcases h with h | h
        · exact ⟨q, List.mem_cons_self _ _, hc.1, hc.2, by rw [hn, h]⟩
        · exact hrest h
    · simp only [typehandler_names, hc, if_false] at h
      exact hrest h

theorem override_keyed_of_name (q : genbind_node) (t : String)
    (hty : q.type = GENBIND_NODE_TYPE_BINDING_PROPERTY) (hn : override_name q = some t) :
    is_override_keyed_by q t := by
  refine ⟨hty, ?_⟩
  have h : genbind_node_gettext (node_find_type q.children GENBIND_NODE_TYPE_IDENT)
      = some t := hn
  cases hf : node_find_type q.children GENBIND_NODE_TYPE_IDENT with
  | none =>
    rw [hf] at h
    exact absurd h (by simp [genbind_node_gettext, node_gettext])
  | some c =>
    rw [hf] at h
    have hfind : List.find? (fun n => decide (n.type = GENBIND_NODE_TYPE_IDENT)) q.children
        = some c := hf
    exact ⟨c, List.mem_of_find?_eq_some hfind, by simpa using List.find?_some hfind, h⟩

/-- An override without `MODIFIER` child in the type-handler pass: the pass reads the
integer that `genbind_node_getint` yields for an absent node, and writes a pair exactly
when that integer has the type-handler bit. -/
theorem typehandler_property_cb_without_modifier (env : c_env) (b : binding)
    (q : genbind_node) (type : String) (hno : carries_no_modifier q)
    (hname : override_name q = some type) :
    typehandler_property_cb env b q =
      if Int.land env.getint_absent GENBIND_TYPE_TYPE = GENBIND_TYPE_TYPE then
        (0, type_accessor_pair env b type)
      else (0, "") := by
  have hmod : override_modifier env q = env.getint_absent := by
    show genbind_node_getint env (node_find_type q.children GENBIND_NODE_TYPE_MODIFIER) = _
    rw [node_find_type_none _ _ hno]
    rfl
  by_cases hb : Int.land env.getint_absent GENBIND_TYPE_TYPE = GENBIND_TYPE_TYPE
  · rw [if_pos hb]
    exact typehandler_property_cb_pair env b q type (by rw [hmod]; exact hb) hname
  · rw [if_neg hb]
    exact typehandler_property_cb_of_other env b q (by rw [hmod]; exact hb)

set_option maxRecDepth 100000 in
/-- C8, counterexample: the binding lists the type-handler override keyed by `DOMString`
twice.  The attribute `DOMString name` has no override keyed by its identifier and
resolves by its type name to the first of the two, which carries the type-handler bit;
the output of `output_property_body` holds two setter definitions and two getter
definitions keyed by `DOMString`. -/
theorem C8_counterexample :
    attribute_ident ex_attr_name = some "name" ∧
    attribute_type_name ex_attr_name = some "DOMString" ∧
    (∀ q ∈ ex_binding_handler_twice.binding_list, ¬ is_override_keyed_by q "name") ∧
    genbind_node_find_type_ident ex_binding_handler_twice.binding_list
      GENBIND_NODE_TYPE_BINDING_PROPERTY (some "DOMString") = some ex_type_typehandler ∧
    carries_modifier ex_type_typehandler GENBIND_TYPE_TYPE ∧
    (∀ env : c_env, get_binding_shared_modifier env ex_binding_handler_twice
      (attribute_type_name ex_attr_name) (attribute_ident ex_attr_name)
      = GENBIND_TYPE_TYPE) ∧
    (output_property_body env_ex ex_binding_handler_twice 1 = some (0,
      "/**** X ****/\n"
      ++ "static JSBool JSAPI_PROP_SETTER(DOMString, JSContext *cx, JSObject *obj, jsval *vp)\n"
      ++ "\x7b\n        return JS_TRUE;\n\x7d\n\n"
      ++ "static JSBool JSAPI_PROP_GETTER(DOMString, JSContext *cx, JSObject *obj, jsval *vp)\n"
      ++ "\x7b\n        return JS_TRUE;\n\x7d\n\n"
      ++ "static JSBool JSAPI_PROP_SETTER(DOMString, JSContext *cx, JSObject *obj, jsval *vp)\n"
      ++ "\x7b\n        return JS_TRUE;\n\x7d\n\n"
      ++ "static JSBool JSAPI_PROP_GETTER(DOMString, JSContext *cx, JSObject *obj, jsval *vp)\n"
      ++ "\x7b\n        return JS_TRUE;\n\x7d\n\n")) :=
  ⟨rfl, rfl, by decide, rfl,
    ⟨[], gb_modifier GENBIND_TYPE_TYPE, [gb_ident "DOMString"], rfl, (fun _ h => nomatch h),
      rfl, rfl⟩,
    fun _ => rfl, rfl⟩

/-- C8 as amended (type-handler dedup): the attributes' type name `T` resolves to the
override `p`, the first override keyed by `T`, which carries the type-handler bit and is
named `T`, and every later override named `T` carries a `MODIFIER` without the
type-handler bit.  Then (a) every attribute of type name `T` without an override keyed by
its own identifier is classified by the modifier of `p` and writes no accessor of its
own; (b) for `p` the type-handler callback writes the setter definition
`JSAPI_PROP_SETTER(T, ...)` and the getter definition `JSAPI_PROP_GETTER(T, ...)`, each
with head, prologue, copied block and `return JS_TRUE;`; (c) the names the type-handler
pass writes a pair for hold `T` exactly once; (d) whenever the resolution of the
interface succeeds, the output of `output_property_body` is the text of the resolution
followed by one such pair per name; (e) for an interface without inheritance or
implements children whose attributes are all such attributes, the output is the fragment
comment lines followed by these pairs. -/
theorem C8_type_handler_dedup (env : c_env) (b : binding) (T : String)
    (pre post : List genbind_node) (p : genbind_node) (m : Int)
    (hlist : b.binding_list = pre ++ p :: post)
    (hfirst : ∀ q ∈ pre, ¬ is_override_keyed_by q T)
    (hp : is_override_keyed_by p T) (hname : override_name p = some T)
    (hm : carries_modifier p m)
    (hbit : Int.land m GENBIND_TYPE_TYPE = GENBIND_TYPE_TYPE)
    (hothers : ∀ q ∈ post, q.type = GENBIND_NODE_TYPE_BINDING_PROPERTY →
      override_name q = some T →
      ∃ m2, carries_modifier q m2 ∧
        Int.land m2 GENBIND_TYPE_TYPE ≠ GENBIND_TYPE_TYPE) :
    (∀ a i, attribute_ident a = some i → attribute_type_name a = some T →
      (∀ q ∈ b.binding_list, ¬ is_override_keyed_by q i) →
      get_binding_shared_modifier env b (attribute_type_name a) (some i) = m ∧
      (webidl_property_body_cb env b a).2 = "") ∧
    typehandler_property_cb env b p =
      (0, (type_accessor_head b "JSAPI_PROP_SETTER" T
            ++ type_accessor_block env b GENBIND_NODE_TYPE_SETTER T
            ++ "        return JS_TRUE;\n\x7d\n\n")
          ++ (type_accessor_head b "JSAPI_PROP_GETTER" T
            ++ type_accessor_block env b GENBIND_NODE_TYPE_GETTER T
            ++ "        return JS_TRUE;\n\x7d\n\n")) ∧
    (typehandler_names env b.binding_list).count T = 1 ∧
    (∀ fuel out, generate_property_body env b fuel (some b.interface) = some (0, out) →
      output_property_body env b fuel =
        some (0, out ++ concat_texts
          ((typehandler_names env b.binding_list).map (type_accessor_pair env b)))) ∧
    (∀ fuel prew inode postw, b.wi_ast = prew ++ inode :: postw →
      (∀ q ∈ prew, ¬ is_interface_named q b.interface) →
      is_interface_named inode b.interface →
      (∀ c ∈ inode.children, c.type ≠ WEBIDL_NODE_TYPE_INTERFACE_INHERITANCE ∧
        c.type ≠ WEBIDL_NODE_TYPE_INTERFACE_IMPLEMENTS) →
      (∀ f ∈ inode.children, f.type = WEBIDL_NODE_TYPE_LIST → ∀ a ∈ f.children,
        a.type = WEBIDL_NODE_TYPE_ATTRIBUTE →
        ∃ i, attribute_ident a = some i ∧ attribute_type_name a = some T ∧
          ∀ q ∈ b.binding_list, ¬ is_override_keyed_by q i) →
      output_property_body env b (fuel + 1) =
        some (0, fragment_comments ("/**** " ++ b.interface ++ " ****/\n") inode.children
                  ++ concat_texts
                    ((typehandler_names env b.binding_list).map
                      (type_accessor_pair env b)))) := by
  have hclass : ∀ a i, attribute_ident a = some i → attribute_type_name a = some T →
      (∀ q ∈ b.binding_list, ¬ is_override_keyed_by q i) →
      get_binding_shared_modifier env b (attribute_type_name a) (some i) = m ∧
      (webidl_property_body_cb env b a).2 = "" := by
    intro a i hi hty hno
    have hcls : get_binding_shared_modifier env b (attribute_type_name a) (some i) = m := by
      rw [hty]
      exact shared_modifier_of_type_override env b T i pre post p m hno hlist hfirst hp hm
    have hne : Int.land (get_binding_shared_modifier env b (attribute_type_name a)
        (some i)) GENBIND_TYPE_TYPE ≠ 0 := by
      rw [hcls, hbit]
      decide
    refine ⟨hcls, ?_⟩
    rw [webidl_property_body_cb_of_handler env b a i hi hne]
  have hpmod : override_modifier env p = m := by
    obtain ⟨mn, hmn, hint⟩ := genbind_modifier_of_carries env p m hm
    show genbind_node_getint env (genbind_node_find_type (genbind_node_getnode (some p))
      GENBIND_NODE_TYPE_MODIFIER) = m
    rw [hmn, hint]
  have hpair : typehandler_property_cb env b p =
      (0, (type_accessor_head b "JSAPI_PROP_SETTER" T
            ++ type_accessor_block env b GENBIND_NODE_TYPE_SETTER T
            ++ "        return JS_TRUE;\n\x7d\n\n")
          ++ (type_accessor_head b "JSAPI_PROP_GETTER" T
            ++ type_accessor_block env b GENBIND_NODE_TYPE_GETTER T
            ++ "        return JS_TRUE;\n\x7d\n\n")) := by
    have h1 : Int.land (genbind_node_getint env (genbind_node_find_type
        (genbind_node_getnode (some p)) GENBIND_NODE_TYPE_MODIFIER)) GENBIND_TYPE_TYPE
        = GENBIND_TYPE_TYPE := by
      rw [← hpmod] at hbit
      exact hbit
    have h2 : genbind_node_gettext (genbind_node_find_type (genbind_node_getnode (some p))
        GENBIND_NODE_TYPE_IDENT) = some T := hname
    simp only [typehandler_property_cb, h1, h2, if_true]
    simp only [output_property_type_setter, output_property_type_getter,
      type_accessor_head, type_accessor_block, String.append_assoc, if_true]
    rfl
  have hpre : T ∉ typehandler_names env pre := by
    intro hmem
    obtain ⟨q, hq, hqt, _, hqn⟩ := typehandler_names_mem env pre T hmem
    exact hfirst q hq (override_keyed_of_name q T hqt hqn)
  have hpost : T ∉ typehandler_names env post := by
    intro hmem
    obtain ⟨q, hq, hqt, hqb, hqn⟩ := typehandler_names_mem env post T hmem
    obtain ⟨m2, hm2, hno⟩ := hothers q hq hqt hqn
    obtain ⟨mn, hmn, hint⟩ := genbind_modifier_of_carries env q m2 hm2
    have hqmod : override_modifier env q = m2 := by
      show genbind_node_getint env (genbind_node_find_type (genbind_node_getnode (some q))
        GENBIND_NODE_TYPE_MODIFIER) = m2
      rw [hmn, hint]
    rw [hqmod] at hqb
    exact hno hqb
  have hcount : (typehandler_names env b.binding_list).count T = 1 := by
    have hcons : typehandler_names env (p :: post) = T :: typehandler_names env post := by
      simp only [typehandler_names, hp.1, hpmod, hbit, and_self, if_true, hname]
    rw [hlist, typehandler_names_append, hcons, List.count_append, List.count_cons_self,
      List.count_eq_zero_of_not_mem hpre, List.count_eq_zero_of_not_mem hpost]
  have hbody : ∀ fuel out,
      generate_property_body env b fuel (some b.interface) = some (0, out) →
      output_property_body env b fuel =
        some (0, out ++ concat_texts
          ((typehandler_names env b.binding_list).map (type_accessor_pair env b))) := by
    intro fuel out hgen
    simp only [output_property_body, hgen, typehandler_pass_eq, if_true]
  refine ⟨hclass, hpair, hcount, hbody, ?_⟩
  intro fuel prew inode postw hast hfirstw hnamed hown hattrs
  have hall : ∀ f ∈ inode.children, f.type = WEBIDL_NODE_TYPE_LIST → ∀ a ∈ f.children,
      a.type = WEBIDL_NODE_TYPE_ATTRIBUTE → (webidl_property_body_cb env b a).2 = "" := by
    intro f hf hfl a ha hat
    obtain ⟨i, hi, hty, hno⟩ := hattrs f hf hfl a ha hat
    exact (hclass a i hi hty hno).2
  have hgen := generate_property_body_own env b fuel b.interface prew postw inode hast
    hfirstw hnamed hown
  rw [generate_property_body_members_silent env b (some b.interface) inode.children hall]
    at hgen
  exact hbody (fuel + 1) _ hgen

set_option maxRecDepth 100000 in
/-- Witness of C8: three attributes of type `DOMString` in two fragments; the binding
lists an unshared override `Other`, the type handler `DOMString`, the type handler `Node`
and a later unshared override keyed by `DOMString`.  The output is two fragment comments,
the pair keyed by `DOMString` and the pair keyed by `Node`. -/
theorem C8_type_handler_dedup_witness :
    (typehandler_names env_ex ex_binding_handlers.binding_list).count "DOMString" = 1 ∧
    output_property_body env_ex ex_binding_handlers 1 = some (0,
      "/**** X ****/\n/**** X ****/\n"
      ++ "static JSBool JSAPI_PROP_SETTER(DOMString, JSContext *cx, JSObject *obj, jsval *vp)\n"
      ++ "\x7b\n        return JS_TRUE;\n\x7d\n\n"
      ++ "static JSBool JSAPI_PROP_GETTER(DOMString, JSContext *cx, JSObject *obj, jsval *vp)\n"
      ++ "\x7b\n        return JS_TRUE;\n\x7d\n\n"
      ++ "static JSBool JSAPI_PROP_SETTER(Node, JSContext *cx, JSObject *obj, jsval *vp)\n"
      ++ "\x7b\n        return JS_TRUE;\n\x7d\n\n"
      ++ "static JSBool JSAPI_PROP_GETTER(Node, JSContext *cx, JSObject *obj, jsval *vp)\n"
      ++ "\x7b\n        return JS_TRUE;\n\x7d\n\n") := by
  have h := C8_type_handler_dedup env_ex ex_binding_handlers "DOMString"
    [gb_property [gb_modifier GENBIND_TYPE_UNSHARED, gb_ident "Other"]]
    [gb_property [gb_modifier GENBIND_TYPE_TYPE, gb_ident "Node"], ex_type_unshared]
    ex_type_typehandler GENBIND_TYPE_TYPE
    rfl (by decide) (by decide) rfl
    ⟨[], gb_modifier GENBIND_TYPE_TYPE, [gb_ident "DOMString"], rfl, (fun _ h => nomatch h),
      rfl, rfl⟩
    (by decide)
    (by
      intro q hq _ hqn
      simp only [List.mem_cons, List.mem_singleton, List.not_mem_nil, or_false] at hq
      rcases hq with rfl | rfl
      · exact absurd hqn (by decide)
      · exact ⟨GENBIND_TYPE_UNSHARED, ⟨[], gb_modifier GENBIND_TYPE_UNSHARED,
          [gb_ident "DOMString"], rfl, (fun _ h => nomatch h), rfl, rfl⟩, by decide⟩)
  refine ⟨h.2.2.1, ?_⟩
  exact h.2.2.2.2 0 [] _ [] rfl (fun _ h => nomatch h)
    (by decide)
    (by
      intro c hc
      simp only [wi_interface, ast_node.children, List.mem_cons, List.mem_singleton,
        List.not_mem_nil, or_false] at hc
      rcases hc with rfl | rfl | rfl <;> decide)
    (by
      intro f hf hfl a ha hat
      simp only [wi_interface, ast_node.children, List.mem_cons, List.mem_singleton,
        List.not_mem_nil, or_false] at hf
      rcases hf with rfl | rfl | rfl
      · exact absurd hfl (by decide)
      · simp only [wi_list, ast_node.children, List.mem_cons, List.mem_singleton,
          List.not_mem_nil, or_false] at ha
        rcases ha with rfl | rfl
        · exact ⟨"first", rfl, rfl, by decide⟩
        · exact ⟨"second", rfl, rfl, by decide⟩
      · simp only [wi_list, ast_node.children, List.mem_cons, List.mem_singleton,
          List.not_mem_nil, or_false] at ha
        subst ha
        exact ⟨"third", rfl, rfl, by decide⟩)

set_option maxRecDepth 100000 in
/-- The override keyed by `DOMString` that has no `MODIFIER` child, where
`genbind_node_getint` yields -1 for an absent node: `get_binding_shared_modifier`
classifies by it as `GENBIND_TYPE_NONE`, while the type-handler pass writes a pair for
it, so after the type handler keyed by `DOMString` the output holds a second pair keyed
by `DOMString`. -/
theorem output_property_body_modifierless_example :
    carries_no_modifier ex_type_plain ∧
    get_binding_shared_modifier env_ex
      { ex_binding_handler_plain with binding_list := [ex_type_plain] }
      (some "DOMString") (some "name") = GENBIND_TYPE_NONE ∧
    output_property_body env_ex ex_binding_handler_plain 1 = some (0,
      "/**** X ****/\n"
      ++ "static JSBool JSAPI_PROP_SETTER(DOMString, JSContext *cx, JSObject *obj, jsval *vp)\n"
      ++ "\x7b\n        return JS_TRUE;\n\x7d\n\n"
      ++ "static JSBool JSAPI_PROP_GETTER(DOMString, JSContext *cx, JSObject *obj, jsval *vp)\n"
      ++ "\x7b\n        return JS_TRUE;\n\x7d\n\n"
      ++ "static JSBool JSAPI_PROP_SETTER(DOMString, JSContext *cx, JSObject *obj, jsval *vp)\n"
      ++ "\x7b\n        return JS_TRUE;\n\x7d\n\n"
      ++ "static JSBool JSAPI_PROP_GETTER(DOMString, JSContext *cx, JSObject *obj, jsval *vp)\n"
      ++ "\x7b\n        return JS_TRUE;\n\x7d\n\n") := by
  have hland : Int.land env_ex.getint_absent GENBIND_TYPE_TYPE = GENBIND_TYPE_TYPE := by
    show ((Nat.ldiff 1 0 : Nat) : Int) = 1
    simp [Nat.ldiff]
  have hno : carries_no_modifier ex_type_plain := by
    show ∀ c ∈ [gb_ident "DOMString"], c.type ≠ GENBIND_NODE_TYPE_MODIFIER
    decide
  have hplain : typehandler_property_cb env_ex ex_binding_handler_plain ex_type_plain =
      (0, type_accessor_pair env_ex ex_binding_handler_plain "DOMString") := by
    rw [typehandler_property_cb_without_modifier env_ex ex_binding_handler_plain
      ex_type_plain "DOMString" hno rfl, if_pos hland]
  have hpass : genbind_node_for_each_type ex_binding_handler_plain.binding_list
      GENBIND_NODE_TYPE_BINDING_PROPERTY
      (typehandler_property_cb env_ex ex_binding_handler_plain) =
      (0, type_accessor_pair env_ex ex_binding_handler_plain "DOMString"
            ++ type_accessor_pair env_ex ex_binding_handler_plain "DOMString") := by
    show node_for_each_type _ _ [ex_type_typehandler, ex_type_plain] = _
    rw [node_for_each_type_cons, node_for_each_type_cons, hplain]
    rfl
  have hgen : generate_property_body env_ex ex_binding_handler_plain 1
      (some ex_binding_handler_plain.interface) = some (0, "/**** X ****/\n") := rfl
  refine ⟨hno, rfl, ?_⟩
  simp only [output_property_body, hgen, hpass, if_true]
  rfl

set_option maxRecDepth 100000 in
/-- The output of the example of C8 written out: two fragment comments, one setter and
one getter keyed by `DOMString`, nothing keyed by `first`, `second` or `third`. -/
theorem output_property_body_dedup_example :
    output_property_body env_ex ex_binding_dedup 1 = some (0,
      "/**** X ****/\n/**** X ****/\n"
      ++ "static JSBool JSAPI_PROP_SETTER(DOMString, JSContext *cx, JSObject *obj, jsval *vp)\n"
      ++ "\x7b\n        return JS_TRUE;\n\x7d\n\n"
      ++ "static JSBool JSAPI_PROP_GETTER(DOMString, JSContext *cx, JSObject *obj, jsval *vp)\n"
      ++ "\x7b\n        return JS_TRUE;\n\x7d\n\n") := by
  rfl

set_option maxRecDepth 100000 in
/-- C9, counterexample: the binding tree has no `SETTER` and no `GETTER` block at all and
`DOMString` is a type handler.  The type-level setter ends in `return JS_TRUE;` and holds
no `JS_FALSE`, while the per-attribute setter returns `JS_FALSE`; the type-level getter
holds neither the placeholder nor a field read, while the per-attribute getter falls back
to the placeholder. -/
theorem C9_counterexample :
    (∀ q ∈ ex_binding_typehandler.gb_ast,
      ¬ is_block_keyed_by GENBIND_NODE_TYPE_SETTER q "DOMString") ∧
    output_property_type_setter env_ex ex_binding_typehandler "DOMString" = (0,
      "static JSBool JSAPI_PROP_SETTER(DOMString, JSContext *cx, JSObject *obj, jsval *vp)\n"
      ++ "\x7b\n        return JS_TRUE;\n\x7d\n\n") ∧
    ¬ occurs_in "JS_FALSE"
      (output_property_type_setter env_ex ex_binding_typehandler "DOMString").2 ∧
    occurs_in "return JS_FALSE;"
      (output_property_setter env_ex ex_binding_typehandler ex_attr_name "name").2 ∧
    (∀ q ∈ ex_binding_typehandler.gb_ast,
      ¬ is_block_keyed_by GENBIND_NODE_TYPE_GETTER q "DOMString") ∧
    output_property_type_getter env_ex ex_binding_typehandler "DOMString" = (0,
      "static JSBool JSAPI_PROP_GETTER(DOMString, JSContext *cx, JSObject *obj, jsval *vp)\n"
      ++ "\x7b\n        return JS_TRUE;\n\x7d\n\n") ∧
    ¬ occurs_in "has no implementation"
      (output_property_type_getter env_ex ex_binding_typehandler "DOMString").2 ∧
    ¬ occurs_in "private->"
      (output_property_type_getter env_ex ex_binding_typehandler "DOMString").2 ∧
    occurs_in "has no implementation"
      (output_property_getter env_ex ex_binding_typehandler ex_attr_name "name").2 := by
  refine ⟨by decide, rfl, ?_, ?_, by decide, rfl, ?_, ?_, ?_⟩ <;> decide

/-- C9 as amended: a type-level accessor takes its body from the `SETTER` (`GETTER`) block
keyed by the type name and from nothing else.  Without such a block the body is empty and
the function, after its head, is the success return alone: the setter does not return
`JS_FALSE` and the getter has neither field read nor placeholder.  With such a block the
code of the first one is copied between head and success return. -/
theorem C9_type_accessor_bodies (env : c_env) (b : binding) (T : String) :
    ((∀ q ∈ b.gb_ast, ¬ is_block_keyed_by GENBIND_NODE_TYPE_SETTER q T) →
      output_property_type_setter env b T =
        (0, type_accessor_head b "JSAPI_PROP_SETTER" T
              ++ "        return JS_TRUE;\n\x7d\n\n")) ∧
    ((∀ q ∈ b.gb_ast, ¬ is_block_keyed_by GENBIND_NODE_TYPE_GETTER q T) →
      output_property_type_getter env b T =
        (0, type_accessor_head b "JSAPI_PROP_GETTER" T
              ++ "        return JS_TRUE;\n\x7d\n\n")) ∧
    (∀ pre g post, b.gb_ast = pre ++ g :: post →
      (∀ q ∈ pre, ¬ is_block_keyed_by GENBIND_NODE_TYPE_SETTER q T) →
      is_block_keyed_by GENBIND_NODE_TYPE_SETTER g T →
      output_property_type_setter env b T =
        (0, type_accessor_head b "JSAPI_PROP_SETTER" T ++ output_code_block env g.children
              ++ "        return JS_TRUE;\n\x7d\n\n")) ∧
    (∀ pre g post, b.gb_ast = pre ++ g :: post →
      (∀ q ∈ pre, ¬ is_block_keyed_by GENBIND_NODE_TYPE_GETTER q T) →
      is_block_keyed_by GENBIND_NODE_TYPE_GETTER g T →
      output_property_type_getter env b T =
        (0, type_accessor_head b "JSAPI_PROP_GETTER" T ++ output_code_block env g.children
              ++ "        return JS_TRUE;\n\x7d\n\n")) := by
  have hs : ∀ x : Int × String, x.1 = 0 → ∀ t, x.2 = t → x = (0, t) := by
    rintro ⟨a, c⟩ h1 t h2
    simp only at h1 h2
    rw [h1, h2]
  refine ⟨?_, ?_, ?_, ?_⟩
  · intro hnone
    refine hs _ rfl _ ?_
    rw [output_property_type_setter_eq, show genbind_node_find_type_ident b.gb_ast
      GENBIND_NODE_TYPE_SETTER (some T) = none from
        node_find_type_ident_none _ _ _ T hnone]
    simp
  · intro hnone
    refine hs _ rfl _ ?_
    rw [output_property_type_getter_eq, show genbind_node_find_type_ident b.gb_ast
      GENBIND_NODE_TYPE_GETTER (some T) = none from
        node_find_type_ident_none _ _ _ T hnone]
    simp
  · intro pre g post hlist hfirst hg
    refine hs _ rfl _ ?_
    rw [output_property_type_setter_eq, show genbind_node_find_type_ident b.gb_ast
      GENBIND_NODE_TYPE_SETTER (some T) = some g from by
        rw [hlist]
        exact node_find_type_ident_first _ _ pre post g T hfirst hg.1 hg.2]
    rfl
  · intro pre g post hlist hfirst hg
    refine hs _ rfl _ ?_
    rw [output_property_type_getter_eq, show genbind_node_find_type_ident b.gb_ast
      GENBIND_NODE_TYPE_GETTER (some T) = some g from by
        rw [hlist]
        exact node_find_type_ident_first _ _ pre post g T hfirst hg.1 hg.2]
    rfl

/-! ## Interface resolution: theorems -/

/-- C10 (unknown interface): when no `INTERFACE` node of the WebIDL tree is named `name`,
`generate_property_spec` and `generate_property_body` return -1 and write nothing, with
any fuel that allows the call at all. -/
theorem C10_unknown_interface (env : c_env) (b : binding) (name : String) (fuel : Nat)
    (hunknown : ∀ n ∈ b.wi_ast, ¬ is_interface_named n name) :
    generate_property_spec env b (fuel + 1) (some name) = some (-1, "") ∧
    generate_property_body env b (fuel + 1) (some name) = some (-1, "") := by
  have hfind : webidl_node_find_type_ident b.wi_ast WEBIDL_NODE_TYPE_INTERFACE
      (some name) = none := node_find_type_ident_none _ _ _ name hunknown
  constructor
  · simp only [generate_property_spec, hfind]
  · simp only [generate_property_body, hfind]

/-- Witness of C10: the WebIDL tree declares interface `X` only and `Y` is resolved. -/
theorem C10_unknown_interface_witness :
    (∀ n ∈ ex_binding_typehandler.wi_ast, ¬ is_interface_named n "Y") ∧
    generate_property_spec env_ex ex_binding_typehandler 1 (some "Y") = some (-1, "") ∧
    generate_property_body env_ex ex_binding_typehandler 1 (some "Y") = some (-1, "") :=
  ⟨by decide, C10_unknown_interface env_ex ex_binding_typehandler "Y" 0 (by decide)⟩

/-! ## Interface resolution: shared lemmas -/

theorem generate_property_spec_eq_resolve_chain (env : c_env) (b : binding) (fuel : Nat)
    (interface : Option String) :
    generate_property_spec env b fuel interface =
      resolve_chain (generate_property_spec_members env b) b.wi_ast fuel interface := by
  induction fuel generalizing interface with
  | zero => rfl
  | succ n ih =>
    simp only [generate_property_spec, resolve_chain, ih]

theorem generate_property_body_eq_resolve_chain (env : c_env) (b : binding) (fuel : Nat)
    (interface : Option String) :
    generate_property_body env b fuel interface =
      resolve_chain (generate_property_body_members env b) b.wi_ast fuel interface := by
  induction fuel generalizing interface with
  | zero => rfl
  | succ n ih =>
    simp only [generate_property_body, resolve_chain, ih]

/-- One step of the traversal on an interface that is found. -/
theorem resolve_chain_found (members : Option String → List webidl_node → String)
    (wi_ast : List webidl_node) (fuel : Nat) (interface : Option String)
    (inode : webidl_node)
    (hfind : webidl_node_find_type_ident wi_ast WEBIDL_NODE_TYPE_INTERFACE interface
      = some inode) :
    resolve_chain members wi_ast (fuel + 1) interface =
      match (match webidl_node_find_type inode.children
                WEBIDL_NODE_TYPE_INTERFACE_INHERITANCE with
          | some n => resolve_chain members wi_ast fuel n.text
          | none => some (0, "") : Option (Int × String)) with
      | none => none
      | some r =>
        if r.1 = 0 then
          match node_for_each_type_fuel WEBIDL_NODE_TYPE_INTERFACE_IMPLEMENTS
              (fun n => resolve_chain members wi_ast fuel n.text) inode.children with
          | none => none
          | some r2 => some (r2.1, members interface inode.children ++ r.2 ++ r2.2)
        else some (r.1, members interface inode.children ++ r.2) := by
  simp only [resolve_chain, hfind]
  rfl

theorem resolve_chain_unknown (members : Option String → List webidl_node → String)
    (wi_ast : List webidl_node) (fuel : Nat) (name : String)
    (hunknown : ∀ n ∈ wi_ast, ¬ is_interface_named n name) :
    resolve_chain members wi_ast (fuel + 1) (some name) = some (-1, "") := by
  have hfind : webidl_node_find_type_ident wi_ast WEBIDL_NODE_TYPE_INTERFACE
      (some name) = none := node_find_type_ident_none _ _ _ name hunknown
  simp only [resolve_chain, hfind]

theorem webidl_find_interface (wi_ast prew postw : List webidl_node) (inode : webidl_node)
    (name : String) (hast : wi_ast = prew ++ inode :: postw)
    (hfirstw : ∀ q ∈ prew, ¬ is_interface_named q name)
    (hnamed : is_interface_named inode name) :
    webidl_node_find_type_ident wi_ast WEBIDL_NODE_TYPE_INTERFACE (some name)
      = some inode := by
  rw [hast]
  exact node_find_type_ident_first _ _ prew postw inode name hfirstw hnamed.1 hnamed.2

theorem node_for_each_type_fuel_append {τ : Type} [DecidableEq τ] (ty : τ)
    (cb : ast_node τ → Option (Int × String)) (l1 l2 : List (ast_node τ)) :
    node_for_each_type_fuel ty cb (l1 ++ l2) =
      match node_for_each_type_fuel ty cb l1 with
      | none => none
      | some r1 =>
        if r1.1 ≠ 0 then some r1
        else
          match node_for_each_type_fuel ty cb l2 with
          | none => none
          | some r2 => some (r2.1, r1.2 ++ r2.2) := by
  induction l1 with
  | nil =>
    rw [List.nil_append]
    show _ = match some ((0 : Int), "") with
      | none => none
      | some r1 => _
    cases node_for_each_type_fuel ty cb l2 with
    | none => rfl
    | some r2 => simp
  | cons a rest ih =>
    rw [List.cons_append, node_for_each_type_fuel_cons, node_for_each_type_fuel_cons, ih]
    by_cases hty : a.type = ty
    · rw [if_pos hty, if_pos hty]
      cases hcb : cb a with
      | none => rfl
      | some r =>
        by_cases hr : r.1 ≠ 0
        · simp only [if_pos hr]
        · simp only [if_neg hr]
          cases h1 : node_for_each_type_fuel ty cb rest with
          | none => rfl
          | some r1 =>
            by_cases hr1 : r1.1 ≠ 0
            · simp only [if_pos hr1]
            · simp only [if_neg hr1]
              cases h2 : node_for_each_type_fuel ty cb l2 with
              | none => rfl
              | some r2 => simp only [String.append_assoc]
    · rw [if_neg hty, if_neg hty]

/-- The first failing visitor ends the iteration: what stands after it is not visited. -/
theorem node_for_each_type_fuel_first_failure {τ : Type} [DecidableEq τ] (ty : τ)
    (cb : ast_node τ → Option (Int × String)) (prec postc : List (ast_node τ))
    (k : ast_node τ) (op ok : String) (r : Int)
    (hprec : node_for_each_type_fuel ty cb prec = some (0, op))
    (hk : k.type = ty) (hcb : cb k = some (r, ok)) (hr : r ≠ 0) :
    node_for_each_type_fuel ty cb (prec ++ k :: postc) = some (r, op ++ ok) := by
  rw [node_for_each_type_fuel_append, hprec, node_for_each_type_fuel_cons, if_pos hk, hcb]
  simp [hr]

theorem resolve_chain_parent_unknown
    (members : Option String → List webidl_node → String) (wi_ast : List webidl_node)
    (fuel : Nat) (interface : Option String) (inode : webidl_node)
    (prec postc : List webidl_node) (inh : webidl_node) (parent : String)
    (hfind : webidl_node_find_type_ident wi_ast WEBIDL_NODE_TYPE_INTERFACE interface
      = some inode)
    (hch : inode.children = prec ++ inh :: postc)
    (hprec : ∀ c ∈ prec, c.type ≠ WEBIDL_NODE_TYPE_INTERFACE_INHERITANCE)
    (hinh : inh.type = WEBIDL_NODE_TYPE_INTERFACE_INHERITANCE)
    (htext : inh.text = some parent)
    (hunknown : ∀ n ∈ wi_ast, ¬ is_interface_named n parent) :
    resolve_chain members wi_ast (fuel + 2) interface =
      some (-1, members interface inode.children) := by
  have hfi : webidl_node_find_type inode.children WEBIDL_NODE_TYPE_INTERFACE_INHERITANCE
      = some inh := by
    rw [hch]
    exact node_find_type_first _ prec postc inh hprec hinh
  rw [resolve_chain_found members wi_ast (fuel + 1) interface inode hfind, hfi]
  simp only [htext, resolve_chain_unknown members wi_ast fuel parent hunknown]
  simp

theorem resolve_chain_mixin_unknown
    (members : Option String → List webidl_node → String) (wi_ast : List webidl_node)
    (fuel : Nat) (interface : Option String) (inode : webidl_node)
    (prec postc : List webidl_node) (k : webidl_node) (mixin oi op : String)
    (hfind : webidl_node_find_type_ident wi_ast WEBIDL_NODE_TYPE_INTERFACE interface
      = some inode)
    (hch : inode.children = prec ++ k :: postc)
    (hk : k.type = WEBIDL_NODE_TYPE_INTERFACE_IMPLEMENTS)
    (htext : k.text = some mixin)
    (hunknown : ∀ n ∈ wi_ast, ¬ is_interface_named n mixin)
    (hinherited : (match webidl_node_find_type inode.children
                WEBIDL_NODE_TYPE_INTERFACE_INHERITANCE with
          | some n => resolve_chain members wi_ast (fuel + 1) n.text
          | none => some (0, "") : Option (Int × String)) = some (0, oi))
    (hearlier : node_for_each_type_fuel WEBIDL_NODE_TYPE_INTERFACE_IMPLEMENTS
        (fun n => resolve_chain members wi_ast (fuel + 1) n.text) prec = some (0, op)) :
    resolve_chain members wi_ast (fuel + 2) interface =
      some (-1, members interface inode.children ++ oi ++ op) := by
  have hfe : node_for_each_type_fuel WEBIDL_NODE_TYPE_INTERFACE_IMPLEMENTS
      (fun n => resolve_chain members wi_ast (fuel + 1) n.text) inode.children
      = some (-1, op ++ "") := by
    rw [hch]
    refine node_for_each_type_fuel_first_failure _ _ prec postc k op "" (-1) hearlier hk ?_
      (by decide)
    show resolve_chain members wi_ast (fuel + 1) k.text = some (-1, "")
    rw [htext]
    exact resolve_chain_unknown members wi_ast fuel mixin hunknown
  rw [resolve_chain_found members wi_ast (fuel + 1) interface inode hfind, hinherited]
  simp only [hfe, if_true, String.append_empty]

/-- C11 (first failure wins): for the interface found under `name`, (1) when its
`INTERFACE_INHERITANCE` child names an interface that the tree does not declare,
`generate_property_spec` returns -1 having written the own fragments only, so that no
mixin is resolved, and `output_property_spec` returns the same -1; (2) when an
`INTERFACE_IMPLEMENTS` child names an undeclared interface, the parent and the mixins before
it having resolved with 0, the result is -1 and the text holds nothing of the mixins that
stand after it. -/
theorem C11_first_failure_wins (env : c_env) (b : binding) (name : String) (fuel : Nat)
    (prew postw : List webidl_node) (inode : webidl_node)
    (hast : b.wi_ast = prew ++ inode :: postw)
    (hfirstw : ∀ q ∈ prew, ¬ is_interface_named q name)
    (hnamed : is_interface_named inode name) :
    (∀ prec inh postc parent, inode.children = prec ++ inh :: postc →
      (∀ c ∈ prec, c.type ≠ WEBIDL_NODE_TYPE_INTERFACE_INHERITANCE) →
      inh.type = WEBIDL_NODE_TYPE_INTERFACE_INHERITANCE → inh.text = some parent →
      (∀ n ∈ b.wi_ast, ¬ is_interface_named n parent) →
      generate_property_spec env b (fuel + 2) (some name) =
        some (-1, generate_property_spec_members env b (some name) inode.children) ∧
      (name = b.interface →
        output_property_spec env b (fuel + 2) =
          some (-1, "static JSPropertySpec jsclass_properties[] = \x7b\n"
            ++ generate_property_spec_members env b (some name) inode.children
            ++ "\tJSAPI_PS_END\n\x7d;\n\n"))) ∧
    (∀ prec k postc mixin oi op, inode.children = prec ++ k :: postc →
      k.type = WEBIDL_NODE_TYPE_INTERFACE_IMPLEMENTS → k.text = some mixin →
      (∀ n ∈ b.wi_ast, ¬ is_interface_named n mixin) →
      (match webidl_node_find_type inode.children
                WEBIDL_NODE_TYPE_INTERFACE_INHERITANCE with
          | some n => generate_property_spec env b (fuel + 1) n.text
          | none => some (0, "") : Option (Int × String)) = some (0, oi) →
      node_for_each_type_fuel WEBIDL_NODE_TYPE_INTERFACE_IMPLEMENTS
        (fun n => generate_property_spec env b (fuel + 1) n.text) prec = some (0, op) →
      generate_property_spec env b (fuel + 2) (some name) =
        some (-1, generate_property_spec_members env b (some name) inode.children
                    ++ oi ++ op) ∧
      (name = b.interface →
        output_property_spec env b (fuel + 2) =
          some (-1, "static JSPropertySpec jsclass_properties[] = \x7b\n"
            ++ (generate_property_spec_members env b (some name) inode.children
                  ++ oi ++ op)
            ++ "\tJSAPI_PS_END\n\x7d;\n\n"))) := by
  have hfind := webidl_find_interface b.wi_ast prew postw inode name hast hfirstw hnamed
  have hout : ∀ r : Int × String,
      generate_property_spec env b (fuel + 2) (some name) = some r →
      name = b.interface →
      output_property_spec env b (fuel + 2) =
        some (r.1, "static JSPropertySpec jsclass_properties[] = \x7b\n" ++ r.2
          ++ "\tJSAPI_PS_END\n\x7d;\n\n") := by
    intro r hr hn
    rw [hn] at hr
    simp only [output_property_spec, hr]
  constructor
  · intro prec inh postc parent hch hprec hinh htext hunknown
    have hgen : generate_property_spec env b (fuel + 2) (some name) =
        some (-1, generate_property_spec_members env b (some name) inode.children) := by
      rw [generate_property_spec_eq_resolve_chain]
      exact resolve_chain_parent_unknown _ _ fuel (some name) inode prec postc inh parent
        hfind hch hprec hinh htext hunknown
    exact ⟨hgen, hout _ hgen⟩
  · intro prec k postc mixin oi op hch hk htext hunknown hinherited hearlier
    have hgen : generate_property_spec env b (fuel + 2) (some name) =
        some (-1, generate_property_spec_members env b (some name) inode.children
                    ++ oi ++ op) := by
      rw [generate_property_spec_eq_resolve_chain]
      refine resolve_chain_mixin_unknown _ _ fuel (some name) inode prec postc k mixin oi op
        hfind hch hk htext hunknown ?_ ?_
      · simp only [← generate_property_spec_eq_resolve_chain]
        exact hinherited
      · simp only [← generate_property_spec_eq_resolve_chain]
        exact hearlier
    exact ⟨hgen, hout _ hgen⟩

set_option maxRecDepth 100000 in
/-- Witness of C11: `X : Missing` with the declared mixin `Y` gives -1 and the entries of
`X` alone; `X` with the mixins `Y`, `Gone`, `Z` gives -1 and the entries of `X` and `Y`,
nothing of `Z`. -/
theorem C11_first_failure_wins_witness :
    (generate_property_spec env_ex ex_binding_missing_parent 2 (some "X") =
        some (-1, "\t/**** X ****/\n"
          ++ "\tJSAPI_PS(\"name\", name, 0, JSPROP_ENUMERATE | JSPROP_SHARED),\n") ∧
      output_property_spec env_ex ex_binding_missing_parent 2 =
        some (-1, "static JSPropertySpec jsclass_properties[] = \x7b\n"
          ++ "\t/**** X ****/\n"
          ++ "\tJSAPI_PS(\"name\", name, 0, JSPROP_ENUMERATE | JSPROP_SHARED),\n"
          ++ "\tJSAPI_PS_END\n\x7d;\n\n")) ∧
    (generate_property_spec env_ex ex_binding_missing_mixin 2 (some "X") =
        some (-1, "\t/**** X ****/\n"
          ++ "\tJSAPI_PS(\"name\", name, 0, JSPROP_ENUMERATE | JSPROP_SHARED),\n"
          ++ "\t/**** Y ****/\n"
          ++ "\tJSAPI_PS(\"mixed\", mixed, 0, JSPROP_ENUMERATE | JSPROP_SHARED),\n")) := by
  constructor
  · have h := (C11_first_failure_wins env_ex ex_binding_missing_parent "X" 0 [] _ _ rfl
      (fun _ h => nomatch h) (by decide)).1
      [wi_ident "X", wi_list [wi_attribute WEBIDL_TYPE_MODIFIER_NONE WEBIDL_TYPE_USER
            "DOMString" "name"]]
      (wi_inherits "Missing") [wi_implements "Y"] "Missing" rfl (by decide) rfl rfl
      (by decide)
    exact ⟨h.1, h.2 rfl⟩
  · exact ((C11_first_failure_wins env_ex ex_binding_missing_mixin "X" 0 [] _ _ rfl
      (fun _ h => nomatch h) (by decide)).2
      [wi_ident "X", wi_list [wi_attribute WEBIDL_TYPE_MODIFIER_NONE WEBIDL_TYPE_USER
            "DOMString" "name"], wi_implements "Y"]
      (wi_implements "Gone") [wi_implements "Z"] "Gone" ""
      ("\t/**** Y ****/\n"
          ++ "\tJSAPI_PS(\"mixed\", mixed, 0, JSPROP_ENUMERATE | JSPROP_SHARED),\n")
      rfl rfl rfl (by decide) rfl rfl).1

set_option maxRecDepth 100000 in
/-- C12, the code at the failing input: interface `X` has one fragment with `first`, an
attribute without identifier and `third`.  The callback fails with -1 on the nameless
attribute and the iteration over the fragment stops there (`third` gets no entry and no
accessors), but the result is dropped by the member loop: `generate_property_spec`,
`output_property_spec` and `generate_property_body` all return 0. -/
theorem C12_missing_identifier_result_dropped :
    attribute_ident ex_attr_nameless = none ∧
    webidl_property_spec_cb env_ex ex_binding_nameless ex_attr_nameless = (-1, "") ∧
    webidl_property_body_cb env_ex ex_binding_nameless ex_attr_nameless = (-1, "") ∧
    generate_property_spec env_ex ex_binding_nameless 1 (some "X") =
      some (0, "\t/**** X ****/\n"
        ++ "\tJSAPI_PS(\"first\", first, 0, JSPROP_ENUMERATE | JSPROP_SHARED),\n") ∧
    output_property_spec env_ex ex_binding_nameless 1 =
      some (0, "static JSPropertySpec jsclass_properties[] = \x7b\n"
        ++ "\t/**** X ****/\n"
        ++ "\tJSAPI_PS(\"first\", first, 0, JSPROP_ENUMERATE | JSPROP_SHARED),\n"
        ++ "\tJSAPI_PS_END\n\x7d;\n\n") ∧
    generate_property_body env_ex ex_binding_nameless 1 (some "X") =
      some (0, "/**** X ****/\n"
        ++ "static JSBool JSAPI_PROP_SETTER(first, JSContext *cx, JSObject *obj, jsval *vp)\n"
        ++ "\x7b\n        return JS_FALSE;\n\x7d\n\n"
        ++ "static JSBool JSAPI_PROP_GETTER(first, JSContext *cx, JSObject *obj, jsval *vp)\n"
        ++ "\x7b\n"
        ++ "\tJSObject *jsret = NULL; /* DOMString */\n"
        ++ "\tJSLOG(\"property X.first has no implementation\");\n"
        ++ "\tJSAPI_PROP_SET_RVAL(cx, vp, OBJECT_TO_JSVAL(jsret));\n"
        ++ "\treturn JS_TRUE;\n\x7d\n\n") :=
  ⟨rfl, rfl, rfl, rfl, rfl, rfl⟩

/-! ## Own fragments, inheritance and mixins: theorems -/

theorem concat_texts_append (l1 l2 : List String) :
    concat_texts (l1 ++ l2) = concat_texts l1 ++ concat_texts l2 := by
  induction l1 with
  | nil => simp [concat_texts]
  | cons s rest ih => simp [concat_texts, ih, String.append_assoc]

/-- An iteration whose visitors all return 0 visits every node of the tag in list order
and writes their texts one after the other. -/
theorem node_for_each_type_all_ok {τ : Type} [DecidableEq τ] (ty : τ)
    (cb : ast_node τ → Int × String) (l : List (ast_node τ))
    (h : ∀ a ∈ l, a.type = ty → (cb a).1 = 0) :
    node_for_each_type ty cb l =
      (0, concat_texts ((l.filter (fun a => decide (a.type = ty))).map (fun a => (cb a).2))) := by
  induction l with
  | nil => rfl
  | cons a rest ih =>
    have ih2 := ih (fun x hx => h x (List.mem_cons_of_mem _ hx))
    rw [node_for_each_type_cons, List.filter_cons]
    by_cases hty : a.type = ty
    · have ha := h a (List.mem_cons_self _ _) hty
      rw [if_pos hty, if_neg (by rw [ha]; simp), ih2]
      simp [hty, concat_texts]
    · rw [if_neg hty, ih2]
      simp [hty]

theorem webidl_property_spec_cb_attribute_entry (env : c_env) (b : binding)
    (a : webidl_node) (h : (attribute_ident a).isSome) :
    webidl_property_spec_cb env b a = (0, attribute_entry env b a) := by
  obtain ⟨i, hi⟩ := Option.isSome_iff_exists.1 h
  rw [webidl_property_spec_cb_entry env b a i hi]
  simp only [attribute_entry, hi]

theorem generate_property_spec_members_own_entries (env : c_env) (b : binding)
    (name : String) (l : List webidl_node)
    (h : ∀ f ∈ l, f.type = WEBIDL_NODE_TYPE_LIST → ∀ a ∈ f.children,
      a.type = WEBIDL_NODE_TYPE_ATTRIBUTE → (attribute_ident a).isSome) :
    generate_property_spec_members env b (some name) l = own_entries env b name l := by
  induction l with
  | nil => rfl
  | cons f rest ih =>
    have ih2 := ih (fun x hx => h x (List.mem_cons_of_mem _ hx))
    rw [generate_property_spec_members]
    unfold own_entries interface_fragments at ih2 ⊢
    rw [List.filter_cons]
    by_cases hty : f.type = WEBIDL_NODE_TYPE_LIST
    · have hf := h f (List.mem_cons_self _ _) hty
      have hall := node_for_each_type_all_ok WEBIDL_NODE_TYPE_ATTRIBUTE
        (webidl_property_spec_cb env b) f.children (fun a ha hat => by
          rw [webidl_property_spec_cb_attribute_entry env b a (hf a ha hat)])
      have hmap : (f.children.filter (fun a => decide (a.type = WEBIDL_NODE_TYPE_ATTRIBUTE))).map
          (fun a => (webidl_property_spec_cb env b a).2)
          = (fragment_attributes f).map (attribute_entry env b) := by
        unfold fragment_attributes
        apply List.map_congr_left
        intro a ha
        have ha2 := List.mem_filter.1 ha
        rw [webidl_property_spec_cb_attribute_entry env b a
          (hf a ha2.1 (by simpa using ha2.2))]
      rw [if_pos hty, ih2]
      simp only [webidl_node_for_each_type, webidl_node_getnode, node_getnode, hall, hmap,
        hty, decide_True, if_true, List.map_cons, concat_texts, fmt_s, String.append_assoc]
    · rw [if_neg hty, ih2]
      simp [hty]

/-- The traversal of an interface without inheritance and implements children: the own
fragments and the result 0. -/
theorem resolve_chain_own (members : Option String → List webidl_node → String)
    (wi_ast : List webidl_node) (fuel : Nat) (interface : Option String)
    (inode : webidl_node)
    (hfind : webidl_node_find_type_ident wi_ast WEBIDL_NODE_TYPE_INTERFACE interface
      = some inode)
    (hown : ∀ c ∈ inode.children, c.type ≠ WEBIDL_NODE_TYPE_INTERFACE_INHERITANCE ∧
      c.type ≠ WEBIDL_NODE_TYPE_INTERFACE_IMPLEMENTS) :
    resolve_chain members wi_ast (fuel + 1) interface =
      some (0, members interface inode.children) := by
  have hinh : webidl_node_find_type inode.children WEBIDL_NODE_TYPE_INTERFACE_INHERITANCE
      = none := node_find_type_none _ _ (fun c hc => (hown c hc).1)
  rw [resolve_chain_found members wi_ast fuel interface inode hfind, hinh,
    node_for_each_type_fuel_absent _ _ _ (fun c hc => (hown c hc).2)]
  simp

/-- C13 (partial-interface completeness): for an interface without inheritance and
implements children whose attributes all have identifiers, `generate_property_spec`
returns 0 and writes, for every `LIST` fragment in document order, the comment line and
one entry for each `ATTRIBUTE` of the fragment in list order: each attribute once, none
left out. -/
theorem C13_partial_interface_completeness (env : c_env) (b : binding) (name : String)
    (fuel : Nat) (prew postw : List webidl_node) (inode : webidl_node)
    (hast : b.wi_ast = prew ++ inode :: postw)
    (hfirstw : ∀ q ∈ prew, ¬ is_interface_named q name)
    (hnamed : is_interface_named inode name)
    (hown : ∀ c ∈ inode.children, c.type ≠ WEBIDL_NODE_TYPE_INTERFACE_INHERITANCE ∧
      c.type ≠ WEBIDL_NODE_TYPE_INTERFACE_IMPLEMENTS)
    (hident : ∀ f ∈ inode.children, f.type = WEBIDL_NODE_TYPE_LIST → ∀ a ∈ f.children,
      a.type = WEBIDL_NODE_TYPE_ATTRIBUTE → (attribute_ident a).isSome) :
    generate_property_spec env b (fuel + 1) (some name) =
      some (0, own_entries env b name inode.children) := by
  have hfind := webidl_find_interface b.wi_ast prew postw inode name hast hfirstw hnamed
  rw [generate_property_spec_eq_resolve_chain,
    resolve_chain_own _ _ fuel (some name) inode hfind hown,
    generate_property_spec_members_own_entries env b name inode.children hident]

set_option maxRecDepth 100000 in
/-- Witness of C13: interface `X` in two fragments with two attributes and one attribute:
three entries, fragment by fragment, in list order. -/
theorem C13_partial_interface_completeness_witness :
    generate_property_spec env_ex ex_binding_partial 1 (some "X") =
      some (0, "\t/**** X ****/\n"
        ++ "\tJSAPI_PS(\"first\", first, 0, JSPROP_ENUMERATE | JSPROP_SHARED),\n"
        ++ "\tJSAPI_PS_RO(\"second\", second, 0, JSPROP_ENUMERATE | JSPROP_SHARED),\n"
        ++ "\t/**** X ****/\n"
        ++ "\tJSAPI_PS(\"third\", third, 0, JSPROP_ENUMERATE | JSPROP_SHARED),\n") :=
  C13_partial_interface_completeness env_ex ex_binding_partial "X" 0 [] [] _ rfl
    (fun _ h => nomatch h) (by decide) (by decide) (by decide)

/-- An iteration whose visitors all resolve with 0 visits every node of the tag in list
order and writes their texts one after the other. -/
theorem node_for_each_type_fuel_all_ok {τ : Type} [DecidableEq τ] (ty : τ)
    (cb : ast_node τ → Option (Int × String)) (l : List (ast_node τ))
    (h : ∀ m ∈ l, m.type = ty → ∃ o, cb m = some (0, o)) :
    node_for_each_type_fuel ty cb l =
      some (0, concat_texts ((l.filter (fun m => decide (m.type = ty))).map
        (fun m => resolved_text (cb m)))) := by
  induction l with
  | nil => rfl
  | cons a rest ih =>
    have ih2 := ih (fun x hx => h x (List.mem_cons_of_mem _ hx))
    rw [node_for_each_type_fuel_cons, List.filter_cons]
    by_cases hty : a.type = ty
    · obtain ⟨o, ho⟩ := h a (List.mem_cons_self _ _) hty
      rw [if_pos hty, ho, ih2]
      simp [hty, concat_texts, resolved_text, ho]
    · rw [if_neg hty, ih2]
      simp [hty]

theorem resolve_chain_inherits (members : Option String → List webidl_node → String)
    (wi_ast : List webidl_node) (fuel : Nat) (interface : Option String)
    (inode : webidl_node) (prec postc : List webidl_node) (inh : webidl_node)
    (rA r2 : Int × String)
    (hfind : webidl_node_find_type_ident wi_ast WEBIDL_NODE_TYPE_INTERFACE interface
      = some inode)
    (hch : inode.children = prec ++ inh :: postc)
    (hprec : ∀ c ∈ prec, c.type ≠ WEBIDL_NODE_TYPE_INTERFACE_INHERITANCE)
    (hinh : inh.type = WEBIDL_NODE_TYPE_INTERFACE_INHERITANCE)
    (hA : resolve_chain members wi_ast fuel inh.text = some rA)
    (hmix : node_for_each_type_fuel WEBIDL_NODE_TYPE_INTERFACE_IMPLEMENTS
        (fun n => resolve_chain members wi_ast fuel n.text) inode.children = some r2) :
    resolve_chain members wi_ast (fuel + 1) interface =
      some (if rA.1 = 0 then r2.1 else rA.1,
            members interface inode.children ++ rA.2 ++ (if rA.1 = 0 then r2.2 else "")) := by
  have hfi : webidl_node_find_type inode.children WEBIDL_NODE_TYPE_INTERFACE_INHERITANCE
      = some inh := by
    rw [hch]
    exact node_find_type_first _ prec postc inh hprec hinh
  rw [resolve_chain_found members wi_ast fuel interface inode hfind, hfi]
  simp only [hA, hmix]
  by_cases h0 : rA.1 = 0
  · simp only [h0, if_true]
  · simp only [h0, if_false, String.append_empty]

theorem generate_property_spec_members_no_attributes (env : c_env) (b : binding)
    (interface : Option String) (l : List webidl_node)
    (h : ∀ f ∈ l, f.type = WEBIDL_NODE_TYPE_LIST →
      ∀ a ∈ f.children, a.type ≠ WEBIDL_NODE_TYPE_ATTRIBUTE) :
    generate_property_spec_members env b interface l =
      fragment_comments ("\t/**** " ++ fmt_s env interface ++ " ****/\n") l := by
  induction l with
  | nil => rfl
  | cons f rest ih =>
    have ih2 := ih (fun x hx => h x (List.mem_cons_of_mem _ hx))
    rw [generate_property_spec_members, fragment_comments, ih2]
    by_cases hty : f.type = WEBIDL_NODE_TYPE_LIST
    · have hq := node_for_each_type_quiet WEBIDL_NODE_TYPE_ATTRIBUTE
        (webidl_property_spec_cb env b) f.children
        (fun a ha hat => absurd hat (h f (List.mem_cons_self _ _) hty a ha))
      rw [if_pos hty, if_pos hty]
      simp only [webidl_node_for_each_type, webidl_node_getnode, node_getnode, hq,
        String.append_empty]
    · rw [if_neg hty, if_neg hty]

theorem generate_property_body_members_no_attributes (env : c_env) (b : binding)
    (interface : Option String) (l : List webidl_node)
    (h : ∀ f ∈ l, f.type = WEBIDL_NODE_TYPE_LIST →
      ∀ a ∈ f.children, a.type ≠ WEBIDL_NODE_TYPE_ATTRIBUTE) :
    generate_property_body_members env b interface l =
      fragment_comments ("/**** " ++ fmt_s env interface ++ " ****/\n") l :=
  generate_property_body_members_silent env b interface l
    (fun f hf hfl a ha hat => absurd hat (h f hf hfl a ha))

/-- C14 (inheritance ordering): interface `B` is found and its `INTERFACE_INHERITANCE`
child names `A`.  With the result `rA` of resolving `A` and the result `r2` of the pass
over the mixins, the text written for `B` is the text of the own fragments of `B`, then
the whole text of `A`, then (when `A` resolved with 0) the text of the mixins; without
implements children it is the own fragments followed by the text of `A` and the result is
that of `A`.  When no fragment of `B` has an attribute the own text is the comment lines
alone, so the entries are those of `A`.  The same holds for `generate_property_body`. -/
theorem C14_inheritance_ordering (env : c_env) (b : binding) (B A : String) (fuel : Nat)
    (prew postw : List webidl_node) (inode : webidl_node)
    (prec postc : List webidl_node) (inh : webidl_node)
    (hast : b.wi_ast = prew ++ inode :: postw)
    (hfirstw : ∀ q ∈ prew, ¬ is_interface_named q B)
    (hnamed : is_interface_named inode B)
    (hch : inode.children = prec ++ inh :: postc)
    (hprec : ∀ c ∈ prec, c.type ≠ WEBIDL_NODE_TYPE_INTERFACE_INHERITANCE)
    (hinh : inh.type = WEBIDL_NODE_TYPE_INTERFACE_INHERITANCE)
    (htext : inh.text = some A) :
    (∀ rA r2, generate_property_spec env b fuel (some A) = some rA →
      node_for_each_type_fuel WEBIDL_NODE_TYPE_INTERFACE_IMPLEMENTS
        (fun n => generate_property_spec env b fuel n.text) inode.children = some r2 →
      generate_property_spec env b (fuel + 1) (some B) =
        some (if rA.1 = 0 then r2.1 else rA.1,
          generate_property_spec_members env b (some B) inode.children ++ rA.2
            ++ (if rA.1 = 0 then r2.2 else ""))) ∧
    (∀ rA r2, generate_property_body env b fuel (some A) = some rA →
      node_for_each_type_fuel WEBIDL_NODE_TYPE_INTERFACE_IMPLEMENTS
        (fun n => generate_property_body env b fuel n.text) inode.children = some r2 →
      generate_property_body env b (fuel + 1) (some B) =
        some (if rA.1 = 0 then r2.1 else rA.1,
          generate_property_body_members env b (some B) inode.children ++ rA.2
            ++ (if rA.1 = 0 then r2.2 else ""))) ∧
    ((∀ c ∈ inode.children, c.type ≠ WEBIDL_NODE_TYPE_INTERFACE_IMPLEMENTS) →
      (∀ rA, generate_property_spec env b fuel (some A) = some rA →
        generate_property_spec env b (fuel + 1) (some B) =
          some (rA.1, generate_property_spec_members env b (some B) inode.children
                        ++ rA.2)) ∧
      (∀ rA, generate_property_body env b fuel (some A) = some rA →
        generate_property_body env b (fuel + 1) (some B) =
          some (rA.1, generate_property_body_members env b (some B) inode.children
                        ++ rA.2))) ∧
    ((∀ f ∈ inode.children, f.type = WEBIDL_NODE_TYPE_LIST →
        ∀ a ∈ f.children, a.type ≠ WEBIDL_NODE_TYPE_ATTRIBUTE) →
      generate_property_spec_members env b (some B) inode.children =
        fragment_comments ("\t/**** " ++ B ++ " ****/\n") inode.children ∧
      generate_property_body_members env b (some B) inode.children =
        fragment_comments ("/**** " ++ B ++ " ****/\n") inode.children) := by
  have hfind := webidl_find_interface b.wi_ast prew postw inode B hast hfirstw hnamed
  have hspec : ∀ rA r2, generate_property_spec env b fuel (some A) = some rA →
      node_for_each_type_fuel WEBIDL_NODE_TYPE_INTERFACE_IMPLEMENTS
        (fun n => generate_property_spec env b fuel n.text) inode.children = some r2 →
      generate_property_spec env b (fuel + 1) (some B) =
        some (if rA.1 = 0 then r2.1 else rA.1,
          generate_property_spec_members env b (some B) inode.children ++ rA.2
            ++ (if rA.1 = 0 then r2.2 else "")) := by
    intro rA r2 hA hmix
    rw [generate_property_spec_eq_resolve_chain]
    refine resolve_chain_inherits _ _ fuel (some B) inode prec postc inh rA r2 hfind hch
      hprec hinh ?_ ?_
    · rw [htext, ← generate_property_spec_eq_resolve_chain]
      exact hA
    · simp only [← generate_property_spec_eq_resolve_chain]
      exact hmix
  have hbody : ∀ rA r2, generate_property_body env b fuel (some A) = some rA →
      node_for_each_type_fuel WEBIDL_NODE_TYPE_INTERFACE_IMPLEMENTS
        (fun n => generate_property_body env b fuel n.text) inode.children = some r2 →
      generate_property_body env b (fuel + 1) (some B) =
        some (if rA.1 = 0 then r2.1 else rA.1,
          generate_property_body_members env b (some B) inode.children ++ rA.2
            ++ (if rA.1 = 0 then r2.2 else "")) := by
    intro rA r2 hA hmix
    rw [generate_property_body_eq_resolve_chain]
    refine resolve_chain_inherits _ _ fuel (some B) inode prec postc inh rA r2 hfind hch
      hprec hinh ?_ ?_
    · rw [htext, ← generate_property_body_eq_resolve_chain]
      exact hA
    · simp only [← generate_property_body_eq_resolve_chain]
      exact hmix
  refine ⟨hspec, hbody, ?_, ?_⟩
  · intro hnomix
    constructor
    · intro rA hA
      have h := hspec rA (0, "") hA (node_for_each_type_fuel_absent _ _ _ hnomix)
      rw [h]
      by_cases h0 : rA.1 = 0 <;> simp [h0]
    · intro rA hA
      have h := hbody rA (0, "") hA (node_for_each_type_fuel_absent _ _ _ hnomix)
      rw [h]
      by_cases h0 : rA.1 = 0 <;> simp [h0]
  · intro hnone
    exact ⟨generate_property_spec_members_no_attributes env b (some B) inode.children hnone,
      generate_property_body_members_no_attributes env b (some B) inode.children hnone⟩

set_option maxRecDepth 100000 in
/-- Witness of C14: `interface Bar : Foo {}` over `interface Foo { readonly long count; }`:
resolving `Bar` writes the comment line of `Bar` and then everything of `Foo`. -/
theorem C14_inheritance_ordering_witness :
    generate_property_spec env_ex ex_binding_bar 2 (some "Bar") =
      some (0, "\t/**** Bar ****/\n"
        ++ ("\t/**** Foo ****/\n"
          ++ "\tJSAPI_PS_RO(\"count\", count, 0, JSPROP_ENUMERATE | JSPROP_SHARED),\n")) :=
  ((C14_inheritance_ordering env_ex ex_binding_bar "Bar" "Foo" 1
    [wi_interface "Foo" [wi_list [ex_attr_count]]] [] _ [wi_ident "Bar", wi_list []] []
    (wi_inherits "Foo") rfl (by decide) (by decide) rfl (by decide) rfl rfl).2.2.1
    (by decide)).1 _ rfl

theorem resolve_chain_mixins (members : Option String → List webidl_node → String)
    (wi_ast : List webidl_node) (fuel : Nat) (interface : Option String)
    (inode : webidl_node) (oi : String)
    (hfind : webidl_node_find_type_ident wi_ast WEBIDL_NODE_TYPE_INTERFACE interface
      = some inode)
    (hinherited : (match webidl_node_find_type inode.children
                WEBIDL_NODE_TYPE_INTERFACE_INHERITANCE with
          | some n => resolve_chain members wi_ast fuel n.text
          | none => some (0, "") : Option (Int × String)) = some (0, oi))
    (hmix : ∀ m ∈ inode.children, m.type = WEBIDL_NODE_TYPE_INTERFACE_IMPLEMENTS →
      ∃ o, resolve_chain members wi_ast fuel m.text = some (0, o)) :
    resolve_chain members wi_ast (fuel + 1) interface =
      some (0, members interface inode.children ++ oi
        ++ concat_texts ((interface_mixins inode.children).map
            (fun m => resolved_text (resolve_chain members wi_ast fuel m.text)))) := by
  rw [resolve_chain_found members wi_ast fuel interface inode hfind, hinherited,
    node_for_each_type_fuel_all_ok _ _ _ hmix]
  simp only [if_true]
  rfl

/-- C15 (mixin ordering): interface `name` is found, its parent (when it has one)
resolves with 0 and text `oi`, and every `INTERFACE_IMPLEMENTS` child resolves with 0.
Then `generate_property_spec` returns 0 and writes the own fragments, then `oi`, then the
texts of the mixins one after the other in the list order of the `INTERFACE_IMPLEMENTS`
children. -/
theorem C15_mixin_ordering (env : c_env) (b : binding) (name : String) (fuel : Nat)
    (prew postw : List webidl_node) (inode : webidl_node) (oi : String)
    (hast : b.wi_ast = prew ++ inode :: postw)
    (hfirstw : ∀ q ∈ prew, ¬ is_interface_named q name)
    (hnamed : is_interface_named inode name)
    (hinherited : (match webidl_node_find_type inode.children
                WEBIDL_NODE_TYPE_INTERFACE_INHERITANCE with
          | some n => generate_property_spec env b fuel n.text
          | none => some (0, "") : Option (Int × String)) = some (0, oi))
    (hmix : ∀ m ∈ inode.children, m.type = WEBIDL_NODE_TYPE_INTERFACE_IMPLEMENTS →
      ∃ o, generate_property_spec env b fuel m.text = some (0, o)) :
    generate_property_spec env b (fuel + 1) (some name) =
      some (0, generate_property_spec_members env b (some name) inode.children ++ oi
        ++ concat_texts ((interface_mixins inode.children).map
            (fun m => resolved_text (generate_property_spec env b fuel m.text)))) := by
  have hfind := webidl_find_interface b.wi_ast prew postw inode name hast hfirstw hnamed
  simp only [generate_property_spec_eq_resolve_chain] at hinherited hmix ⊢
  exact resolve_chain_mixins _ _ fuel (some name) inode oi hfind hinherited hmix

set_option maxRecDepth 100000 in
/-- Witness of C15: `X : P` lists the mixin `M1` before its parent and its fragment and the
mixin `M2` after them, and the tree declares `M2` before `M1`; the entries come out as
`own`, `parent`, `mixed1`, `mixed2`. -/
theorem C15_mixin_ordering_witness :
    generate_property_spec env_ex ex_binding_mixins 2 (some "X") =
      some (0, "\t/**** X ****/\n"
          ++ "\tJSAPI_PS(\"own\", own, 0, JSPROP_ENUMERATE | JSPROP_SHARED),\n"
        ++ ("\t/**** P ****/\n"
          ++ "\tJSAPI_PS(\"parent\", parent, 0, JSPROP_ENUMERATE | JSPROP_SHARED),\n")
        ++ ("\t/**** M1 ****/\n"
          ++ "\tJSAPI_PS(\"mixed1\", mixed1, 0, JSPROP_ENUMERATE | JSPROP_SHARED),\n"
          ++ "\t/**** M2 ****/\n"
          ++ "\tJSAPI_PS(\"mixed2\", mixed2, 0, JSPROP_ENUMERATE | JSPROP_SHARED),\n")) :=
  C15_mixin_ordering env_ex ex_binding_mixins "X" 1 [] _ _ _ rfl
    (fun _ h => nomatch h) (by decide) rfl
    (by
      intro m hm hty
      simp only [wi_interface, ast_node.children, List.mem_cons, List.mem_singleton,
        List.not_mem_nil, or_false] at hm
      rcases hm with rfl | rfl | rfl | rfl | rfl
      · exact absurd hty (by decide)
      · exact ⟨_, rfl⟩
      · exact absurd hty (by decide)
      · exact absurd hty (by decide)
      · exact ⟨_, rfl⟩)

/-! ## Type mapping: theorems -/

theorem output_return_declaration_case (env : c_env) (ident : String)
    (node : webidl_node) (t : Int) (h : attribute_type_base env node = t) :
    output_return_declaration env ident node =
      (0,
        if t = WEBIDL_TYPE_USER then
          "\tJSObject *" ++ ident ++ " = NULL; /* "
            ++ fmt_s env (attribute_type_name node) ++ " */\n"
        else if t = WEBIDL_TYPE_BOOL then "\tJSBool " ++ ident ++ " = JS_FALSE;\n"
        else if t = WEBIDL_TYPE_BYTE then ""
        else if t = WEBIDL_TYPE_OCTET then ""
        else if t = WEBIDL_TYPE_FLOAT ∨ t = WEBIDL_TYPE_DOUBLE then
          "\tdouble " ++ ident ++ " = 0;\n"
        else if t = WEBIDL_TYPE_SHORT then
          if attribute_type_unsigned env node then "\tuint16_t " ++ ident ++ " = 0;\n"
          else "\tint16_t " ++ ident ++ " = 0;\n"
        else if t = WEBIDL_TYPE_LONGLONG then ""
        else if t = WEBIDL_TYPE_LONG then
          if attribute_type_unsigned env node then "\tuint32_t " ++ ident ++ " = 0;\n"
          else "\tint32_t " ++ ident ++ " = 0;\n"
        else if t = WEBIDL_TYPE_STRING then "\tJSString *" ++ ident ++ " = NULL;\n"
        else if t = WEBIDL_TYPE_SEQUENCE then ""
        else if t = WEBIDL_TYPE_OBJECT then "\tJSObject *" ++ ident ++ " = NULL;\n"
        else if t = WEBIDL_TYPE_DATE then ""
        else if t = WEBIDL_TYPE_VOID then ""
        else "") := by
  have ht : webidl_node_getint env (webidl_node_find_type (webidl_node_getnode
      (webidl_node_find_type (webidl_node_getnode (some node)) WEBIDL_NODE_TYPE_TYPE))
      WEBIDL_NODE_TYPE_TYPE_BASE) = t := h
  unfold output_return_declaration
  simp only [ht]
  by_cases hu : attribute_type_unsigned env node
  · have hu2 : (webidl_node_find_type (webidl_node_getnode
        (webidl_node_find_type (webidl_node_getnode (some node)) WEBIDL_NODE_TYPE_TYPE))
        WEBIDL_NODE_TYPE_MODIFIER).isSome = true ∧
        webidl_node_getint env (webidl_node_find_type (webidl_node_getnode
          (webidl_node_find_type (webidl_node_getnode (some node)) WEBIDL_NODE_TYPE_TYPE))
          WEBIDL_NODE_TYPE_MODIFIER) = WEBIDL_TYPE_MODIFIER_UNSIGNED := hu
    rw [if_pos hu, if_pos hu, if_pos hu2, if_pos hu2]
    rfl
  · have hu2 : ¬ ((webidl_node_find_type (webidl_node_getnode
        (webidl_node_find_type (webidl_node_getnode (some node)) WEBIDL_NODE_TYPE_TYPE))
        WEBIDL_NODE_TYPE_MODIFIER).isSome = true ∧
        webidl_node_getint env (webidl_node_find_type (webidl_node_getnode
          (webidl_node_find_type (webidl_node_getnode (some node)) WEBIDL_NODE_TYPE_TYPE))
          WEBIDL_NODE_TYPE_MODIFIER) = WEBIDL_TYPE_MODIFIER_UNSIGNED) := hu
    rw [if_neg hu, if_neg hu, if_neg hu2, if_neg hu2]
    rfl

/-- C16 (type mapping of the return-value declaration): `output_return_declaration` returns
0 and writes, by the type category of the attribute: user-defined, the `JSObject *`
declaration with the type name in a comment; boolean, `JSBool` with `JS_FALSE`; float and
double, `double` with 0; string, `JSString *` with `NULL`; object, `JSObject *` with `NULL`;
void, nothing; short and long, the unsigned type `uint16_t` / `uint32_t` exactly when the
`TYPE` node has a `MODIFIER` child equal to unsigned and `int16_t` / `int32_t` otherwise,
each with 0. -/
theorem C16_return_declaration_mapping (env : c_env) (ident : String) (node : webidl_node) :
    (output_return_declaration env ident node).1 = 0 ∧
    (attribute_type_base env node = WEBIDL_TYPE_USER →
      (output_return_declaration env ident node).2 =
        "\tJSObject *" ++ ident ++ " = NULL; /* "
          ++ fmt_s env (attribute_type_name node) ++ " */\n") ∧
    (attribute_type_base env node = WEBIDL_TYPE_BOOL →
      (output_return_declaration env ident node).2 =
        "\tJSBool " ++ ident ++ " = JS_FALSE;\n") ∧
    (attribute_type_base env node = WEBIDL_TYPE_FLOAT ∨
      attribute_type_base env node = WEBIDL_TYPE_DOUBLE →
      (output_return_declaration env ident node).2 = "\tdouble " ++ ident ++ " = 0;\n") ∧
    (attribute_type_base env node = WEBIDL_TYPE_STRING →
      (output_return_declaration env ident node).2 =
        "\tJSString *" ++ ident ++ " = NULL;\n") ∧
    (attribute_type_base env node = WEBIDL_TYPE_OBJECT →
      (output_return_declaration env ident node).2 =
        "\tJSObject *" ++ ident ++ " = NULL;\n") ∧
    (attribute_type_base env node = WEBIDL_TYPE_VOID →
      (output_return_declaration env ident node).2 = "") ∧
    (attribute_type_base env node = WEBIDL_TYPE_SHORT →
      (output_return_declaration env ident node).2 =
        if attribute_type_unsigned env node then "\tuint16_t " ++ ident ++ " = 0;\n"
        else "\tint16_t " ++ ident ++ " = 0;\n") ∧
    (attribute_type_base env node = WEBIDL_TYPE_LONG →
      (output_return_declaration env ident node).2 =
        if attribute_type_unsigned env node then "\tuint32_t " ++ ident ++ " = 0;\n"
        else "\tint32_t " ++ ident ++ " = 0;\n") := by
  refine ⟨rfl, ?_, ?_, ?_, ?_, ?_, ?_, ?_, ?_⟩
  · intro h
    rw [output_return_declaration_case env ident node _ h]
    rfl
  · intro h
    rw [output_return_declaration_case env ident node _ h]
    rfl
  · intro h
    rcases h with h | h <;>
    · rw [output_return_declaration_case env ident node _ h]
      rfl
  · intro h
    rw [output_return_declaration_case env ident node _ h]
    rfl
  · intro h
    rw [output_return_declaration_case env ident node _ h]
    rfl
  · intro h
    rw [output_return_declaration_case env ident node _ h]
    rfl
  · intro h
    rw [output_return_declaration_case env ident node _ h]
    rfl
  · intro h
    rw [output_return_declaration_case env ident node _ h]
    rfl

set_option maxRecDepth 100000 in
/-- Witness of C16: the declaration for `unsigned long size` is `uint32_t` with 0. -/
theorem C16_return_declaration_mapping_witness :
    (output_return_declaration env_ex "jsret" ex_attr_ulong).2 = "\tuint32_t jsret = 0;\n" :=
  (C16_return_declaration_mapping env_ex "jsret" ex_attr_ulong).2.2.2.2.2.2.2.2 rfl

theorem output_return_case (env : c_env) (ident : String) (node : webidl_node) (t : Int)
    (h : attribute_type_base env node = t) :
    output_return env ident node =
      (0,
        if t = WEBIDL_TYPE_USER then
          "\tJSAPI_PROP_SET_RVAL(cx, vp, OBJECT_TO_JSVAL(" ++ ident ++ "));\n"
        else if t = WEBIDL_TYPE_BOOL then
          "\tJSAPI_PROP_SET_RVAL(cx, vp, BOOLEAN_TO_JSVAL(" ++ ident ++ "));\n"
        else if t = WEBIDL_TYPE_BYTE then ""
        else if t = WEBIDL_TYPE_OCTET then ""
        else if t = WEBIDL_TYPE_FLOAT ∨ t = WEBIDL_TYPE_DOUBLE then
          "\tJSAPI_PROP_SET_RVAL(cx, vp, DOUBLE_TO_JSVAL(" ++ ident ++ "));\n"
        else if t = WEBIDL_TYPE_SHORT then
          "\tJSAPI_PROP_SET_RVAL(cx, vp, INT_TO_JSVAL(" ++ ident ++ "));\n"
        else if t = WEBIDL_TYPE_LONGLONG then ""
        else if t = WEBIDL_TYPE_LONG then
          "\tJSAPI_PROP_SET_RVAL(cx, vp, INT_TO_JSVAL(" ++ ident ++ "));\n"
        else if t = WEBIDL_TYPE_STRING then
          "\tJSAPI_PROP_SET_RVAL(cx, vp, JSAPI_STRING_TO_JSVAL(" ++ ident ++ "));\n"
        else if t = WEBIDL_TYPE_SEQUENCE then ""
        else if t = WEBIDL_TYPE_OBJECT then
          "\tJSAPI_PROP_SET_RVAL(cx, vp, OBJECT_TO_JSVAL(" ++ ident ++ "));\n"
        else if t = WEBIDL_TYPE_DATE then ""
        else if t = WEBIDL_TYPE_VOID then ""
        else "") := by
  have ht : webidl_node_getint env (webidl_node_find_type (webidl_node_getnode
      (webidl_node_find_type (webidl_node_getnode (some node)) WEBIDL_NODE_TYPE_TYPE))
      WEBIDL_NODE_TYPE_TYPE_BASE) = t := h
  unfold output_return
  simp only [ht]

theorem output_return_declaration_unsupported (env : c_env) (ident : String)
    (node : webidl_node) (h : is_unsupported_type (attribute_type_base env node)) :
    output_return_declaration env ident node = (0, "") := by
  rcases h with h | h | h | h | h <;>
  · rw [output_return_declaration_case env ident node _ h]
    rfl

theorem output_return_unsupported (env : c_env) (ident : String)
    (node : webidl_node) (h : is_unsupported_type (attribute_type_base env node)) :
    output_return env ident node = (0, "") := by
  rcases h with h | h | h | h | h <;>
  · rw [output_return_case env ident node _ h]
    rfl

theorem output_property_getter_body_source (env : c_env) (b : binding)
    (node : webidl_node) (ident : String) :
    output_property_getter env b node ident =
      (0, getter_head env b node ident ++ getter_body_source env b ident
            ++ getter_tail env node) := by
  rw [output_property_getter_eq]
  unfold getter_body_source
  cases genbind_node_find_type_ident b.gb_ast GENBIND_NODE_TYPE_GETTER (some ident) with
  | some p => rfl
  | none =>
    cases genbind_node_find_type b.gb_ast GENBIND_NODE_TYPE_BINDING with
    | none => rfl
    | some bn =>
      simp only [genbind_node_getnode, node_getnode, output_property_placeholder]

/-- C17 (unsupported type categories are non-fatal): for an attribute whose type category
is byte, octet, long long, date or sequence, `output_return_declaration` and
`output_return` write nothing and return 0 for every variable name, and
`output_property_getter` returns 0 and writes a whole getter: the function head, the
private-storage prologue, one body source, the success return and the closing brace. -/
theorem C17_unsupported_types_non_fatal (env : c_env) (b : binding) (node : webidl_node)
    (ident : String) (h : is_unsupported_type (attribute_type_base env node)) :
    (∀ name, output_return_declaration env name node = (0, "")) ∧
    (∀ name, output_return env name node = (0, "")) ∧
    output_property_getter env b node ident =
      (0, "static JSBool JSAPI_PROP_GETTER(" ++ ident
            ++ ", JSContext *cx, JSObject *obj, jsval *vp)\n" ++ "\x7b\n"
            ++ output_private_prologue b
            ++ getter_body_source env b ident
            ++ "\treturn JS_TRUE;\n" ++ "\x7d\n\n") := by
  refine ⟨fun name => output_return_declaration_unsupported env name node h,
    fun name => output_return_unsupported env name node h, ?_⟩
  rw [output_property_getter_body_source]
  simp only [getter_head, getter_tail, output_return_declaration_unsupported env _ node h,
    output_return_unsupported env _ node h, String.append_empty, String.empty_append,
    String.append_assoc]

set_option maxRecDepth 100000 in
/-- Witness of C17: the attribute `long long big`; no declaration, no conversion, and the
getter is complete. -/
theorem C17_unsupported_types_non_fatal_witness :
    is_unsupported_type (attribute_type_base env_ex ex_attr_longlong) ∧
    output_property_getter env_ex ex_binding_partial ex_attr_longlong "big" =
      (0, "static JSBool JSAPI_PROP_GETTER(big, JSContext *cx, JSObject *obj, jsval *vp)\n"
        ++ "\x7b\n"
        ++ "\tJSLOG(\"property X.big has no implementation\");\n"
        ++ "\treturn JS_TRUE;\n"
        ++ "\x7d\n\n") :=
  ⟨by decide,
    (C17_unsupported_types_non_fatal env_ex ex_binding_partial ex_attr_longlong "big"
      (by decide)).2.2⟩

/-! ## End-to-end scenario -/

set_option maxRecDepth 100000 in
/-- C18 (end-to-end scenario): for `interface Foo { readonly long count; }` and a binding
tree without overrides, blocks and internal fields, in every environment,
(i) `output_property_spec` returns 0 and its table holds the one entry
`JSAPI_PS_RO("count", count, 0, JSPROP_ENUMERATE | JSPROP_SHARED)`;
(ii) `output_property_body` returns 0 and writes one getter for `count` that declares
`int32_t jsret = 0;`, logs the placeholder, converts with `INT_TO_JSVAL` and ends with
`return JS_TRUE;`, and writes no setter. -/
theorem C18_end_to_end_scenario (env : c_env) :
    output_property_spec env ex_binding_foo 1 =
      some (0, "static JSPropertySpec jsclass_properties[] = \x7b\n"
        ++ "\t/**** Foo ****/\n"
        ++ table_entry "JSAPI_PS_RO" "count" "count" "JSPROP_ENUMERATE | JSPROP_SHARED"
        ++ "\tJSAPI_PS_END\n\x7d;\n\n") ∧
    table_entry "JSAPI_PS_RO" "count" "count" "JSPROP_ENUMERATE | JSPROP_SHARED"
      = "\tJSAPI_PS_RO(\"count\", count, 0, JSPROP_ENUMERATE | JSPROP_SHARED),\n" ∧
    output_property_body env ex_binding_foo 1 =
      some (0, "/**** Foo ****/\n"
        ++ "static JSBool JSAPI_PROP_GETTER(count, JSContext *cx, JSObject *obj, jsval *vp)\n"
        ++ "\x7b\n"
        ++ "\tint32_t jsret = 0;\n"
        ++ "\tJSLOG(\"property Foo.count has no implementation\");\n"
        ++ "\tJSAPI_PROP_SET_RVAL(cx, vp, INT_TO_JSVAL(jsret));\n"
        ++ "\treturn JS_TRUE;\n"
        ++ "\x7d\n\n") ∧
    ¬ occurs_in "JSAPI_PROP_SETTER"
      ("/**** Foo ****/\n"
        ++ "static JSBool JSAPI_PROP_GETTER(count, JSContext *cx, JSObject *obj, jsval *vp)\n"
        ++ "\x7b\n"
        ++ "\tint32_t jsret = 0;\n"
        ++ "\tJSLOG(\"property Foo.count has no implementation\");\n"
        ++ "\tJSAPI_PROP_SET_RVAL(cx, vp, INT_TO_JSVAL(jsret));\n"
        ++ "\treturn JS_TRUE;\n"
        ++ "\x7d\n\n") := by
  refine ⟨rfl, rfl, rfl, ?_⟩
  decide

/-! ## Termination -/

theorem node_for_each_type_fuel_isSome {τ : Type} [DecidableEq τ] (ty : τ)
    (cb : ast_node τ → Option (Int × String)) (l : List (ast_node τ))
    (h : ∀ m ∈ l, m.type = ty → (cb m).isSome) :
    (node_for_each_type_fuel ty cb l).isSome := by
  induction l with
  | nil => rfl
  | cons a rest ih =>
    have ih2 := ih (fun x hx => h x (List.mem_cons_of_mem _ hx))
    rw [node_for_each_type_fuel_cons]
    by_cases hty : a.type = ty
    · rw [if_pos hty]
      obtain ⟨r, hr⟩ := Option.isSome_iff_exists.1 (h a (List.mem_cons_self _ _) hty)
      obtain ⟨r2, hr2⟩ := Option.isSome_iff_exists.1 ih2
      rw [hr, hr2]
      by_cases h0 : r.1 ≠ 0
      · simp only [if_pos h0, Option.isSome_some]
      · simp only [if_neg h0, Option.isSome_some]
    · rw [if_neg hty]
      exact ih2

theorem webidl_find_interface_mem (wi_ast : List webidl_node) (name : String)
    (inode : webidl_node)
    (hfind : webidl_node_find_type_ident wi_ast WEBIDL_NODE_TYPE_INTERFACE (some name)
      = some inode) :
    inode ∈ wi_ast ∧ is_interface_named inode name := by
  have hf : List.find? (fun n => decide (n.type = WEBIDL_NODE_TYPE_INTERFACE)
      && node_has_ident WEBIDL_NODE_TYPE_IDENT n name) wi_ast = some inode := hfind
  refine ⟨List.mem_of_find?_eq_some hf, ?_⟩
  have hp := List.find?_some hf
  simp only [Bool.and_eq_true, decide_eq_true_eq] at hp
  exact ⟨hp.1, (node_has_ident_iff _ inode name).1 hp.2⟩

theorem node_find_type_mem {τ : Type} [DecidableEq τ] (l : List (ast_node τ)) (ty : τ)
    (n : ast_node τ) (h : node_find_type l ty = some n) : n ∈ l ∧ n.type = ty := by
  have hf : List.find? (fun n => decide (n.type = ty)) l = some n := h
  refine ⟨List.mem_of_find?_eq_some hf, ?_⟩
  simpa using List.find?_some hf

/-- One level of the recursion returns when the levels below it do. -/
theorem resolve_chain_step (members : Option String → List webidl_node → String)
    (wi_ast : List webidl_node) (fuel : Nat) (name : Option String)
    (h : ∀ Y, interface_names wi_ast name Y →
      (resolve_chain members wi_ast fuel Y).isSome) :
    (resolve_chain members wi_ast (fuel + 1) name).isSome := by
  cases name with
  | none => rfl
  | some x =>
    cases hfind : webidl_node_find_type_ident wi_ast WEBIDL_NODE_TYPE_INTERFACE (some x) with
    | none => simp only [resolve_chain, hfind, Option.isSome_some]
    | some inode =>
      obtain ⟨hmem, hnamed⟩ := webidl_find_interface_mem wi_ast x inode hfind
      have hchild : ∀ c ∈ inode.children,
          (c.type = WEBIDL_NODE_TYPE_INTERFACE_INHERITANCE ∨
            c.type = WEBIDL_NODE_TYPE_INTERFACE_IMPLEMENTS) →
          (resolve_chain members wi_ast fuel c.text).isSome := fun c hc hty =>
        h c.text ⟨x, rfl, inode, hmem, hnamed, c, hc, hty, rfl⟩
      have hmix := node_for_each_type_fuel_isSome WEBIDL_NODE_TYPE_INTERFACE_IMPLEMENTS
        (fun n => resolve_chain members wi_ast fuel n.text) inode.children
        (fun m hm hty => hchild m hm (Or.inr hty))
      obtain ⟨r2, hr2⟩ := Option.isSome_iff_exists.1 hmix
      rw [resolve_chain_found members wi_ast fuel (some x) inode hfind, hr2]
      cases hinh : webidl_node_find_type inode.children
          WEBIDL_NODE_TYPE_INTERFACE_INHERITANCE with
      | none => simp
      | some n =>
        obtain ⟨hn, hnty⟩ := node_find_type_mem _ _ n hinh
        obtain ⟨r, hr⟩ := Option.isSome_iff_exists.1 (hchild n hn (Or.inl hnty))
        simp only [hr]
        by_cases h0 : r.1 = 0
        · simp only [if_pos h0, Option.isSome_some]
        · simp only [if_neg h0, Option.isSome_some]

/-- Fuel above the rank of a name is enough. -/
theorem resolve_chain_of_rank (members : Option String → List webidl_node → String)
    (wi_ast : List webidl_node) (rank : Option String → Nat)
    (hrank : ∀ X Y, interface_names wi_ast X Y → rank Y < rank X) (fuel : Nat) :
    ∀ name, rank name < fuel → (resolve_chain members wi_ast fuel name).isSome := by
  induction fuel with
  | zero => intro name h; exact absurd h (Nat.not_lt_zero _)
  | succ n ih =>
    intro name h
    exact resolve_chain_step members wi_ast n name (fun Y hY =>
      ih Y (by have := hrank name Y hY; omega))

theorem node_for_each_type_fuel_mono {τ : Type} [DecidableEq τ] (ty : τ)
    (cb cb2 : ast_node τ → Option (Int × String)) (l : List (ast_node τ))
    (hcb : ∀ m x, cb m = some x → cb2 m = some x) :
    ∀ r, node_for_each_type_fuel ty cb l = some r →
      node_for_each_type_fuel ty cb2 l = some r := by
  induction l with
  | nil => intro r h; exact h
  | cons a rest ih =>
    intro r h
    rw [node_for_each_type_fuel_cons] at h ⊢
    by_cases hty : a.type = ty
    · rw [if_pos hty] at h ⊢
      cases ha : cb a with
      | none => rw [ha] at h; exact absurd h (by simp)
      | some x =>
        rw [ha] at h
        rw [hcb a x ha]
        by_cases h0 : x.1 ≠ 0
        · simp only [if_pos h0] at h ⊢
          exact h
        · simp only [if_neg h0] at h ⊢
          cases hrest : node_for_each_type_fuel ty cb rest with
          | none => rw [hrest] at h; exact absurd h (by simp)
          | some r2 =>
            rw [hrest] at h
            rw [ih r2 hrest]
            exact h
    · rw [if_neg hty] at h ⊢
      exact ih r h

/-- More fuel does not change a result. -/
theorem resolve_chain_mono (members : Option String → List webidl_node → String)
    (wi_ast : List webidl_node) (fuel : Nat) :
    ∀ name r, resolve_chain members wi_ast fuel name = some r →
      resolve_chain members wi_ast (fuel + 1) name = some r := by
  induction fuel with
  | zero => intro name r h; exact absurd h (by simp [resolve_chain])
  | succ n ih =>
    intro name r h
    cases hfind : webidl_node_find_type_ident wi_ast WEBIDL_NODE_TYPE_INTERFACE name with
    | none =>
      simp only [resolve_chain, hfind] at h ⊢
      exact h
    | some inode =>
      rw [resolve_chain_found members wi_ast n name inode hfind] at h
      rw [resolve_chain_found members wi_ast (n + 1) name inode hfind]
      have hmixmono := node_for_each_type_fuel_mono WEBIDL_NODE_TYPE_INTERFACE_IMPLEMENTS
        (fun m => resolve_chain members wi_ast n m.text)
        (fun m => resolve_chain members wi_ast (n + 1) m.text) inode.children
        (fun m x hx => ih m.text x hx)
      cases hinh : webidl_node_find_type inode.children
          WEBIDL_NODE_TYPE_INTERFACE_INHERITANCE with
      | none =>
        rw [hinh] at h
        simp only [if_true] at h ⊢
        cases hfe : node_for_each_type_fuel WEBIDL_NODE_TYPE_INTERFACE_IMPLEMENTS
            (fun m => resolve_chain members wi_ast n m.text) inode.children with
        | none => rw [hfe] at h; exact absurd h (by simp)
        | some r2 =>
          rw [hfe] at h
          rw [hmixmono r2 hfe]
          exact h
      | some p =>
        rw [hinh] at h
        cases hp : resolve_chain members wi_ast n p.text with
        | none => simp only [hp] at h; exact absurd h (by simp)
        | some r0 =>
          simp only [hp] at h
          simp only [ih p.text r0 hp]
          by_cases h0 : r0.1 = 0
          · simp only [if_pos h0] at h ⊢
            cases hfe : node_for_each_type_fuel WEBIDL_NODE_TYPE_INTERFACE_IMPLEMENTS
                (fun m => resolve_chain members wi_ast n m.text) inode.children with
            | none => rw [hfe] at h; exact absurd h (by simp)
            | some r2 =>
              rw [hfe] at h
              rw [hmixmono r2 hfe]
              exact h
          · simp only [if_neg h0] at h ⊢
            exact h

theorem resolve_chain_mono_le (members : Option String → List webidl_node → String)
    (wi_ast : List webidl_node) (fuel fuel2 : Nat) (hle : fuel ≤ fuel2)
    (name : Option String) (r : Int × String)
    (h : resolve_chain members wi_ast fuel name = some r) :
    resolve_chain members wi_ast fuel2 name = some r := by
  induction hle with
  | refl => exact h
  | step _ ih => exact resolve_chain_mono members wi_ast _ name r ih

theorem mem_concat_lists {α : Type} (x : α) (ls : List (List α)) :
    x ∈ concat_lists ls ↔ ∃ l ∈ ls, x ∈ l := by
  induction ls with
  | nil => simp [concat_lists]
  | cons l rest ih => simp [concat_lists, List.mem_append, ih]

theorem interface_names_mem (wi_ast : List webidl_node) (X Y : Option String)
    (h : interface_names wi_ast X Y) : Y ∈ named_texts wi_ast := by
  obtain ⟨x, _, inode, hmem, _, c, hc, _, htext⟩ := h
  rw [named_texts, mem_concat_lists]
  exact ⟨inode.children.map (fun c => c.text), List.mem_map.2 ⟨inode, hmem, rfl⟩,
    List.mem_map.2 ⟨c, hc, htext⟩⟩

theorem interface_names_rank_transGen (wi_ast : List webidl_node)
    (rank : Option String → Nat)
    (hrank : ∀ X Y, interface_names wi_ast X Y → rank Y < rank X) (X Y : Option String)
    (h : Relation.TransGen (interface_names wi_ast) X Y) : rank Y < rank X := by
  induction h with
  | single hxy => exact hrank _ _ hxy
  | tail _ hbc ih => exact lt_trans (hrank _ _ hbc) ih

/-- A rank that falls along the relation rules out cycles. -/
theorem interface_names_acyclic_of_rank (wi_ast : List webidl_node)
    (rank : Option String → Nat)
    (hrank : ∀ X Y, interface_names wi_ast X Y → rank Y < rank X) :
    ∀ X, ¬ Relation.TransGen (interface_names wi_ast) X X := fun X h =>
  lt_irrefl _ (interface_names_rank_transGen wi_ast rank hrank X X h)

/-- On a tree, which is finite, a relation without cycles is well-founded. -/
theorem interface_names_wellFounded (wi_ast : List webidl_node)
    (hacyclic : ∀ X, ¬ Relation.TransGen (interface_names wi_ast) X X) :
    WellFounded (fun Y X => interface_names wi_ast X Y) := by
  have hstrict : IsStrictOrder (Option String)
      (Relation.TransGen (fun Y X => interface_names wi_ast X Y)) :=
    { irrefl := fun X h => hacyclic X (Relation.transGen_swap.1 h)
      trans := fun _ _ _ h1 h2 => Relation.TransGen.trans h1 h2 }
  have hwf : WellFounded (Relation.TransGen (fun Y X => interface_names wi_ast X Y)) := by
    refine RelEmbedding.wellFounded_iff_no_descending_seq.2 ⟨fun f => ?_⟩
    have hmem : ∀ n : Nat, f (n + 1) ∈ {y | y ∈ named_texts wi_ast} := by
      intro n
      have hstep : Relation.TransGen (fun Y X => interface_names wi_ast X Y)
          (f (n + 1)) (f n) := f.map_rel_iff.2 (Nat.lt_succ_self n)
      obtain ⟨c, hc, _⟩ := Relation.TransGen.head'_iff.1 hstep
      exact interface_names_mem wi_ast c (f (n + 1)) hc
    have hinj : Function.Injective (fun n : Nat => f (n + 1)) := fun a c hac =>
      Nat.succ_injective (f.injective hac)
    exact Set.infinite_of_injective_forall_mem hinj hmem (List.finite_toSet _)
  exact Subrelation.wf
    (r := Relation.TransGen (fun Y X => interface_names wi_ast X Y))
    (fun h => Relation.TransGen.single h) hwf

theorem exists_common_bound (l : List (Option String)) (P : Option String → Prop)
    (Q : Option String → Nat → Prop)
    (h : ∀ Y ∈ l, P Y → ∃ F, ∀ f, F ≤ f → Q Y f) :
    ∃ F, ∀ Y ∈ l, P Y → ∀ f, F ≤ f → Q Y f := by
  induction l with
  | nil => exact ⟨0, fun _ hY => nomatch hY⟩
  | cons a rest ih =>
    obtain ⟨F1, hF1⟩ := ih (fun Y hY => h Y (List.mem_cons_of_mem _ hY))
    by_cases hP : P a
    · obtain ⟨F2, hF2⟩ := h a (List.mem_cons_self _ _) hP
      refine ⟨max F1 F2, fun Y hY hPY f hf => ?_⟩
      rcases List.mem_cons.1 hY with rfl | hY2
      · exact hF2 f (le_trans (le_max_right _ _) hf)
      · exact hF1 Y hY2 hPY f (le_trans (le_max_left _ _) hf)
    · refine ⟨F1, fun Y hY hPY f hf => ?_⟩
      rcases List.mem_cons.1 hY with rfl | hY2
      · exact absurd hPY hP
      · exact hF1 Y hY2 hPY f hf

/-- On a relation without cycles the traversal returns for every name, and with the same
result for all larger fuel. -/
theorem resolve_chain_terminates (members : Option String → List webidl_node → String)
    (wi_ast : List webidl_node)
    (hacyclic : ∀ X, ¬ Relation.TransGen (interface_names wi_ast) X X)
    (name : Option String) :
    ∃ fuel r, ∀ fuel2, fuel ≤ fuel2 → resolve_chain members wi_ast fuel2 name = some r := by
  induction name using (interface_names_wellFounded wi_ast hacyclic).induction with
  | _ name ih =>
    have hbound := exists_common_bound (named_texts wi_ast) (interface_names wi_ast name)
      (fun Y f => (resolve_chain members wi_ast f Y).isSome)
      (fun Y _ hY => by
        obtain ⟨F, r, hF⟩ := ih Y hY
        refine ⟨F, fun f hf => ?_⟩
        show (resolve_chain members wi_ast f Y).isSome = true
        rw [hF f hf]
        rfl)
    obtain ⟨F, hF⟩ := hbound
    have hsome := resolve_chain_step members wi_ast F name (fun Y hY =>
      hF Y (interface_names_mem wi_ast name Y hY) hY F (le_refl _))
    obtain ⟨r, hr⟩ := Option.isSome_iff_exists.1 hsome
    exact ⟨F + 1, r, fun fuel2 hle =>
      resolve_chain_mono_le members wi_ast (F + 1) fuel2 hle name r hr⟩

/-- C19 (termination on acyclic input): when the relation "the interface named `X` names
`Y` through an inheritance or implements child" has no cycle in the WebIDL tree,
`generate_property_spec` and `generate_property_body` return for every interface name:
there is a fuel from which on the result is there and stays the same.  The depth of the
recursion is bounded by the depth of the graph: for every rank that falls along the
relation, fuel one above the rank of the name is enough. -/
theorem C19_termination_on_acyclic (env : c_env) (b : binding)
    (hacyclic : ∀ X, ¬ Relation.TransGen (interface_names b.wi_ast) X X) :
    (∀ name, ∃ fuel r, ∀ fuel2, fuel ≤ fuel2 →
      generate_property_spec env b fuel2 name = some r) ∧
    (∀ name, ∃ fuel r, ∀ fuel2, fuel ≤ fuel2 →
      generate_property_body env b fuel2 name = some r) ∧
    (∀ rank : Option String → Nat,
      (∀ X Y, interface_names b.wi_ast X Y → rank Y < rank X) →
      ∀ name, (generate_property_spec env b (rank name + 1) name).isSome ∧
        (generate_property_body env b (rank name + 1) name).isSome) := by
  refine ⟨fun name => ?_, fun name => ?_, fun rank hrank name => ⟨?_, ?_⟩⟩
  · simp only [generate_property_spec_eq_resolve_chain]
    exact resolve_chain_terminates _ b.wi_ast hacyclic name
  · simp only [generate_property_body_eq_resolve_chain]
    exact resolve_chain_terminates _ b.wi_ast hacyclic name
  · rw [generate_property_spec_eq_resolve_chain]
    exact resolve_chain_of_rank _ b.wi_ast rank hrank _ name (Nat.lt_succ_self _)
  · rw [generate_property_body_eq_resolve_chain]
    exact resolve_chain_of_rank _ b.wi_ast rank hrank _ name (Nat.lt_succ_self _)

theorem ex_chain_rank_falls (X Y : Option String)
    (h : interface_names ex_binding_chain.wi_ast X Y) :
    ex_chain_rank Y < ex_chain_rank X := by
  obtain ⟨x, rfl, inode, hmem, ⟨_, d, hd, hdt, hdx⟩, c, hc, hty, rfl⟩ := h
  simp only [ex_binding_chain, List.mem_cons, List.mem_singleton, List.not_mem_nil,
    or_false] at hmem
  rcases hmem with rfl | rfl | rfl | rfl <;>
  · simp only [wi_interface, ast_node.children, List.mem_cons, List.mem_singleton,
      List.not_mem_nil, or_false] at hd hc
    rcases hd with rfl | rfl | rfl | rfl <;>
    first
    | exact absurd hdt (by decide)
    | (simp only [wi_ident, ast_node.text, Option.some.injEq] at hdx
       subst hdx
       rcases hc with rfl | rfl | rfl | rfl <;>
       first
       | (rcases hty with hty | hty <;> exact absurd hty (by decide))
       | decide)

/-- Witness of C19: the chain `C : B`, `B : A` with mixin `M` has no cycle, and fuel 3, one
above the depth 2 of `C`, resolves `C` in both passes. -/
theorem C19_termination_on_acyclic_witness :
    (∀ X, ¬ Relation.TransGen (interface_names ex_binding_chain.wi_ast) X X) ∧
    (generate_property_spec env_ex ex_binding_chain 3 (some "C")).isSome ∧
    (generate_property_body env_ex ex_binding_chain 3 (some "C")).isSome :=
  ⟨interface_names_acyclic_of_rank _ ex_chain_rank ex_chain_rank_falls,
    (C19_termination_on_acyclic env_ex ex_binding_chain
      (interface_names_acyclic_of_rank _ ex_chain_rank ex_chain_rank_falls)).2.2
      ex_chain_rank ex_chain_rank_falls (some "C")⟩

set_option maxRecDepth 100000 in
/-- The table of the example chain written out, with fuel 3: `C`, then its parent `B`, the
parent `A` of `B`, and the mixin `M` of `B`. -/
theorem generate_property_spec_chain_example :
    generate_property_spec env_ex ex_binding_chain 3 (some "C") =
      some (0, "\t/**** C ****/\n"
        ++ "\tJSAPI_PS(\"c\", c, 0, JSPROP_ENUMERATE | JSPROP_SHARED),\n"
        ++ "\t/**** B ****/\n"
        ++ "\tJSAPI_PS(\"b\", b, 0, JSPROP_ENUMERATE | JSPROP_SHARED),\n"
        ++ "\t/**** A ****/\n"
        ++ "\tJSAPI_PS(\"a\", a, 0, JSPROP_ENUMERATE | JSPROP_SHARED),\n"
        ++ "\t/**** M ****/\n"
        ++ "\tJSAPI_PS(\"m\", m, 0, JSPROP_ENUMERATE | JSPROP_SHARED),\n") := by
  rfl

/-! ## Output file bookkeeping: theorems -/

theorem to_int_of_lt (n : Nat) (h : n < 2 ^ 31) : to_int n = (n : Int) := by
  unfold to_int
  have h1 : (n + 2 ^ 31) % 2 ^ 32 = n + 2 ^ 31 := Nat.mod_eq_of_lt (by omega)
  rw [h1]
  push_cast
  omega

theorem snprintf_exact (text : String) (size : Int) (h : size = (text.length : Int) + 1) :
    snprintf size text = text := by
  unfold snprintf
  have h2 : size.toNat - 1 = text.data.length := by
    rw [h]
    show ((text.length : Int) + 1).toNat - 1 = text.length
    omega
  rw [h2, List.take_length]

/-- A comment that fits is appended whole, after a newline. -/
theorem genjsbind_header_comment_fits (comment h : String) (s : output_state)
    (hs : s.hdr_comments = some h) (hfit : strlen h + strlen comment + 2 < 2 ^ 31) :
    genjsbind_header_comment comment s =
      some (0, { s with hdr_comments := some (h ++ "\n" ++ comment) }) := by
  have hlen : to_int (strlen h + strlen comment + 2)
      = ((h ++ "\n" ++ comment).length : Int) + 1 := by
    rw [to_int_of_lt _ hfit]
    simp only [String.length_append, strlen]
    have : ("\n" : String).length = 1 := rfl
    rw [this]
    push_cast
    omega
  have hpos : ¬ to_int (strlen h + strlen comment + 2) ≤ 0 := by
    rw [hlen]
    omega
  simp only [genjsbind_header_comment, hs, hpos, if_false]
  rw [snprintf_exact _ _ hlen]

theorem output_run_header_comment (c : String) (l : List output_call) (s : output_state)
    (r : Int × output_state) (h : genjsbind_header_comment c s = some r) :
    output_run (output_call.header_comment c :: l) s = output_run l r.2 := by
  simp only [output_run, h]

theorem output_run_output_interface (i : String) (l : List output_call) (s : output_state)
    (r : Int × output_state) (h : genjsbind_output_interface i s = some r) :
    output_run (output_call.output_interface i :: l) s = output_run l r.2 := by
  simp only [output_run, h]

theorem output_run_comments (cs : List String) (tail : List output_call) :
    ∀ (s : output_state) (h : String), s.hdr_comments = some h →
      strlen h + (cs.map (fun c => strlen c + 1)).sum + 1 < 2 ^ 31 →
      output_run (cs.map output_call.header_comment ++ tail) s =
        output_run tail
          { s with hdr_comments := some (h ++ concat_texts (cs.map (fun c => "\n" ++ c))) } := by
  induction cs with
  | nil =>
    intro s h hs _
    simp only [List.map_nil, List.nil_append, concat_texts, String.append_empty]
    rw [← hs]
  | cons c rest ih =>
    intro s h hs hsize
    simp only [List.map_cons, List.sum_cons] at hsize
    have hfit : strlen h + strlen c + 2 < 2 ^ 31 := by omega
    have hlen : strlen (h ++ "\n" ++ c) = strlen h + 1 + strlen c := by
      simp only [strlen, String.length_append]
      rfl
    show output_run (output_call.header_comment c
      :: (rest.map output_call.header_comment ++ tail)) s = _
    rw [output_run_header_comment c _ s _ (genjsbind_header_comment_fits c h s hs hfit),
      ih { s with hdr_comments := some (h ++ "\n" ++ c) } (h ++ "\n" ++ c) rfl
        (by rw [hlen]; omega)]
    simp only [List.map_cons, concat_texts, String.append_assoc]

theorem output_run_after_header (rest : List output_call) :
    ∀ (s : output_state) (f h : String), s.outfile = some f → s.hdr_comments = some h →
      s.hdr_comments_output = true →
      strlen h + ((comments_of rest).map (fun c => strlen c + 1)).sum + 1 < 2 ^ 31 →
      ∃ s2, output_run rest s = some s2 ∧
        s2.outfile = some (f ++ interface_lines (interfaces_of rest)) := by
  induction rest with
  | nil =>
    intro s f h hf _ _ _
    exact ⟨s, rfl, by simp [interfaces_of, interface_lines, concat_texts, hf]⟩
  | cons c rest ih =>
    intro s f h hf hh hflag hsize
    cases c with
    | header_comment comment =>
      simp only [comments_of, List.map_cons, List.sum_cons] at hsize
      have hfit : strlen h + strlen comment + 2 < 2 ^ 31 := by omega
      have hlen : strlen (h ++ "\n" ++ comment) = strlen h + 1 + strlen comment := by
        simp only [strlen, String.length_append]
        rfl
      rw [output_run_header_comment comment _ s _
        (genjsbind_header_comment_fits comment h s hh hfit)]
      exact ih { s with hdr_comments := some (h ++ "\n" ++ comment) } f
        (h ++ "\n" ++ comment) hf rfl hflag (by rw [hlen]; omega)
    | output_interface i =>
      simp only [comments_of] at hsize
      have hcall : genjsbind_output_interface i s = some (0,
          { s with outfile := some (f ++ ("/* interface " ++ i ++ " */\n\n")) }) := by
        simp [genjsbind_output_interface, hf, hflag]
      rw [output_run_output_interface i _ s _ hcall]
      obtain ⟨s2, hrun, hout⟩ := ih
        { s with outfile := some (f ++ ("/* interface " ++ i ++ " */\n\n")) }
        (f ++ ("/* interface " ++ i ++ " */\n\n")) h rfl hh hflag hsize
      refine ⟨s2, hrun, ?_⟩
      rw [hout]
      simp only [interfaces_of, interface_lines, List.map_cons, concat_texts,
        String.append_assoc]

theorem header_text_length (cs : List String) :
    strlen (header_text cs) = strlen HDR_COMMENT_PREABLE
      + (cs.map (fun c => strlen c + 1)).sum := by
  have hc : ∀ l : List String, (concat_texts (l.map (fun c => "\n" ++ c))).length
      = (l.map (fun c => strlen c + 1)).sum := by
    intro l
    induction l with
    | nil => rfl
    | cons c rest ih =>
      simp only [List.map_cons, concat_texts, String.length_append, ih, List.sum_cons, strlen]
      have : ("\n" : String).length = 1 := rfl
      rw [this]
      omega
  simp only [header_text, strlen, String.length_append]
  rw [hc]
  rfl

theorem comments_of_comments (cs : List String) (tail : List output_call) :
    comments_of (cs.map output_call.header_comment ++ tail) = cs ++ comments_of tail := by
  induction cs with
  | nil => rfl
  | cons c rest ih =>
    show c :: comments_of (rest.map output_call.header_comment ++ tail) = _
    rw [ih]
    rfl

theorem calls_without_interface (calls : List output_call)
    (h : interfaces_of calls = []) :
    calls = (comments_of calls).map output_call.header_comment := by
  induction calls with
  | nil => rfl
  | cons c rest ih =>
    cases c with
    | header_comment comment =>
      simp only [interfaces_of] at h
      simp only [comments_of, List.map_cons]
      rw [← ih h]
    | output_interface i => simp [interfaces_of] at h

/-- C20 (one-time preamble): after a successful `genjsbind_outputopen`, for a sequence of
`genjsbind_header_comment` and `genjsbind_output_interface` calls whose header text fits
an `int`, every call is defined and the sink receives: nothing when the sequence has no
`genjsbind_output_interface` call; otherwise the fixed preamble followed by the comments
added before the first `genjsbind_output_interface` call, in call order, each whole and
after a newline, then the closing of the comment, and right after it the `interface`
lines of the calls, one for each.  The preamble is there once, and no comment added after
the first `genjsbind_output_interface` call reaches the sink. -/
theorem C20_one_time_preamble (outfilename : Option String) (fopen_ok : Bool)
    (calls : List output_call)
    (hopen : (genjsbind_outputopen outfilename fopen_ok output_state_initial).1 = 0)
    (hsize : header_size (comments_of calls) < 2 ^ 31) :
    (interfaces_of calls = [] →
      ∃ s2, output_run calls
          (genjsbind_outputopen outfilename fopen_ok output_state_initial).2 = some s2 ∧
        s2.outfile = some "") ∧
    (∀ cs i rest, calls = cs.map output_call.header_comment
        ++ output_call.output_interface i :: rest →
      ∃ s2, output_run calls
          (genjsbind_outputopen outfilename fopen_ok output_state_initial).2 = some s2 ∧
        s2.outfile = some (header_text cs ++ "\n*/\n\n"
          ++ ("/* interface " ++ i ++ " */\n\n")
          ++ interface_lines (interfaces_of rest))) := by
  have hstate : (genjsbind_outputopen outfilename fopen_ok output_state_initial).2
      = ⟨some "", some HDR_COMMENT_PREABLE, false⟩ := by
    cases outfilename with
    | none => rfl
    | some name =>
      cases fopen_ok with
      | true => rfl
      | false =>
        have h4 : (genjsbind_outputopen (some name) false output_state_initial).1 = 4 := rfl
        rw [h4] at hopen
        exact absurd hopen (by decide)
  rw [hstate]
  constructor
  · intro hnone
    have hcalls := calls_without_interface calls hnone
    have hrun := output_run_comments (comments_of calls) []
      ⟨some "", some HDR_COMMENT_PREABLE, false⟩ HDR_COMMENT_PREABLE rfl hsize
    rw [List.append_nil, ← hcalls] at hrun
    rw [hrun]
    exact ⟨_, rfl, rfl⟩
  · intro cs i rest hcalls
    rw [hcalls, comments_of_comments] at hsize
    simp only [header_size, comments_of, List.map_append, List.sum_append] at hsize
    have hrun := output_run_comments cs (output_call.output_interface i :: rest)
      ⟨some "", some HDR_COMMENT_PREABLE, false⟩ HDR_COMMENT_PREABLE rfl (by omega)
    rw [hcalls, hrun]
    simp only [output_run, genjsbind_output_interface]
    have hlenle : strlen HDR_COMMENT_PREABLE ≤ strlen HDR_COMMENT_PREABLE
        + (cs.map (fun c => strlen c + 1)).sum := Nat.le_add_right _ _
    obtain ⟨s2, hs2, hout⟩ := output_run_after_header rest
      ⟨some ("" ++ (header_text cs ++ "\n*/\n\n") ++ ("/* interface " ++ i ++ " */\n\n")),
        some (header_text cs), true⟩
      ("" ++ (header_text cs ++ "\n*/\n\n") ++ ("/* interface " ++ i ++ " */\n\n"))
      (header_text cs) rfl rfl rfl (by
        have hl : strlen (header_text cs) = strlen HDR_COMMENT_PREABLE
            + (cs.map (fun c => strlen c + 1)).sum := by
          exact header_text_length cs
        rw [hl]
        omega)
    refine ⟨s2, ?_, ?_⟩
    · rw [← hs2]
      rfl
    · rw [hout]
      simp only [String.empty_append, String.append_assoc]

set_option maxRecDepth 100000 in
/-- Witness of C20: two comments, `Foo`, a late comment, `Bar`, on a file that opens: the
sink holds the preamble with the two comments once, before the line of `Foo`, and the late
comment does not reach it. -/
theorem C20_one_time_preamble_witness :
    ∃ s2, output_run ex_calls
        (genjsbind_outputopen (some "out.c") true output_state_initial).2 = some s2 ∧
      s2.outfile = some ("/* Generated by nsgenjsapi\n"
        ++ "\nfirst" ++ "\nsecond" ++ "\n*/\n\n"
        ++ "/* interface Foo */\n\n"
        ++ "/* interface Bar */\n\n") :=
  (C20_one_time_preamble (some "out.c") true ex_calls rfl (by decide)).2
    ["first", "second"] "Foo"
    [output_call.header_comment "late", output_call.output_interface "Bar"] rfl

/-! ## Skipped attributes, table framing, type table consistency -/

set_option maxRecDepth 100000 in
/-- C21, the code at the failing input: `DOMString handled` has an identifier and its
classification has the type-handler bit.  The callback writes nothing but returns what the
never assigned `ret` holds, in every environment; where that is 7 the iteration over the
fragment stops and `Foo other`, which follows, gets no accessors, while where it is 0 the
accessors of `other` are written. -/
theorem C21_skip_returns_unassigned_ret :
    attribute_ident ex_attr_handled = some "handled" ∧
    Int.land (get_binding_shared_modifier env_ex ex_binding_skip
      (attribute_type_name ex_attr_handled) (some "handled")) GENBIND_TYPE_TYPE
      = GENBIND_TYPE_TYPE ∧
    (∀ env : c_env, webidl_property_body_cb env ex_binding_skip ex_attr_handled
      = (env.ret_indeterminate, "")) ∧
    webidl_property_body_cb env_ex ex_binding_skip ex_attr_handled = (7, "") ∧
    generate_property_body env_ex ex_binding_skip 1 (some "X") =
      some (0, "/**** X ****/\n") ∧
    generate_property_body env_ret_zero ex_binding_skip 1 (some "X") =
      some (0, "/**** X ****/\n"
        ++ "static JSBool JSAPI_PROP_SETTER(other, JSContext *cx, JSObject *obj, jsval *vp)\n"
        ++ "\x7b\n        return JS_FALSE;\n\x7d\n\n"
        ++ "static JSBool JSAPI_PROP_GETTER(other, JSContext *cx, JSObject *obj, jsval *vp)\n"
        ++ "\x7b\n"
        ++ "\tJSObject *jsret = NULL; /* Foo */\n"
        ++ "\tJSLOG(\"property X.other has no implementation\");\n"
        ++ "\tJSAPI_PROP_SET_RVAL(cx, vp, OBJECT_TO_JSVAL(jsret));\n"
        ++ "\treturn JS_TRUE;\n\x7d\n\n") :=
  ⟨rfl, by decide, fun _ => rfl, rfl, rfl, rfl⟩

theorem output_property_spec_of_result (env : c_env) (b : binding) (fuel : Nat)
    (r : Int × String)
    (h : generate_property_spec env b fuel (some b.interface) = some r) :
    output_property_spec env b fuel =
      some (r.1, property_table_header ++ r.2 ++ property_table_footer) := by
  simp only [output_property_spec, h]
  rfl

/-- C22 (table framing is unconditional): whatever result `generate_property_spec` returns,
zero or not, `output_property_spec` returns it and the text written is the table header,
the text of `generate_property_spec`, and the footer with `JSAPI_PS_END` and the closing of
the array; on a tree without cycles there is such a result from some fuel on; and when the
tree declares no interface of the top-level name the result is -1 and the text is the
header followed by the footer. -/
theorem C22_table_framing (env : c_env) (b : binding) :
    (∀ fuel r, generate_property_spec env b fuel (some b.interface) = some r →
      output_property_spec env b fuel =
        some (r.1, property_table_header ++ r.2 ++ property_table_footer)) ∧
    ((∀ X, ¬ Relation.TransGen (interface_names b.wi_ast) X X) →
      ∃ fuel res text, ∀ fuel2, fuel ≤ fuel2 →
        output_property_spec env b fuel2 =
          some (res, property_table_header ++ text ++ property_table_footer)) ∧
    ((∀ n ∈ b.wi_ast, ¬ is_interface_named n b.interface) →
      ∀ fuel, output_property_spec env b (fuel + 1) =
        some (-1, property_table_header ++ property_table_footer)) := by
  refine ⟨fun fuel r h => output_property_spec_of_result env b fuel r h, ?_, ?_⟩
  · intro hacyclic
    obtain ⟨fuel, r, hr⟩ := resolve_chain_terminates
      (generate_property_spec_members env b) b.wi_ast hacyclic (some b.interface)
    refine ⟨fuel, r.1, r.2, fun fuel2 hle => ?_⟩
    exact output_property_spec_of_result env b fuel2 r
      (by rw [generate_property_spec_eq_resolve_chain]; exact hr fuel2 hle)
  · intro hunknown fuel
    have hgen : generate_property_spec env b (fuel + 1) (some b.interface)
        = some (-1, "") := by
      rw [generate_property_spec_eq_resolve_chain]
      exact resolve_chain_unknown _ b.wi_ast fuel b.interface hunknown
    rw [output_property_spec_of_result env b (fuel + 1) _ hgen]
    simp

set_option maxRecDepth 100000 in
/-- Witness of C22: with the top-level interface `Y` undeclared the table is header and
footer and the result -1; with the parent of `X` undeclared the entry of `X` stands
between header and footer and the result is -1 as well. -/
theorem C22_table_framing_witness :
    output_property_spec env_ex { ex_binding_typehandler with interface := "Y" } 1 =
      some (-1, "static JSPropertySpec jsclass_properties[] = \x7b\n"
        ++ "\tJSAPI_PS_END\n\x7d;\n\n") ∧
    output_property_spec env_ex ex_binding_missing_parent 2 =
      some (-1, "static JSPropertySpec jsclass_properties[] = \x7b\n"
        ++ ("\t/**** X ****/\n"
          ++ "\tJSAPI_PS(\"name\", name, 0, JSPROP_ENUMERATE | JSPROP_SHARED),\n")
        ++ "\tJSAPI_PS_END\n\x7d;\n\n") :=
  ⟨(C22_table_framing env_ex { ex_binding_typehandler with interface := "Y" }).2.2
      (by decide) 0,
    (C22_table_framing env_ex ex_binding_missing_parent).1 2 _ rfl⟩

theorem append_ne_empty (a s : String) (h : 0 < a.length) : a ++ s ≠ "" := by
  intro he
  have hl := congrArg String.length he
  rw [String.length_append] at hl
  have h0 : "".length = 0 := rfl
  omega

theorem output_return_mapped (env : c_env) (ident : String) (node : webidl_node)
    (h : is_mapped_type (attribute_type_base env node)) :
    (output_return env ident node).2 ≠ "" := by
  rcases h with h | h | h | h | h | h | h | h <;>
  · rw [output_return_case env ident node _ h]
    first
    | (show "\tJSAPI_PROP_SET_RVAL(cx, vp, OBJECT_TO_JSVAL(" ++ ident ++ "));\n" ≠ ""
       rw [String.append_assoc]
       exact append_ne_empty _ _ (by decide))
    | (show "\tJSAPI_PROP_SET_RVAL(cx, vp, BOOLEAN_TO_JSVAL(" ++ ident ++ "));\n" ≠ ""
       rw [String.append_assoc]
       exact append_ne_empty _ _ (by decide))
    | (show "\tJSAPI_PROP_SET_RVAL(cx, vp, DOUBLE_TO_JSVAL(" ++ ident ++ "));\n" ≠ ""
       rw [String.append_assoc]
       exact append_ne_empty _ _ (by decide))
    | (show "\tJSAPI_PROP_SET_RVAL(cx, vp, INT_TO_JSVAL(" ++ ident ++ "));\n" ≠ ""
       rw [String.append_assoc]
       exact append_ne_empty _ _ (by decide))
    | (show "\tJSAPI_PROP_SET_RVAL(cx, vp, JSAPI_STRING_TO_JSVAL(" ++ ident ++ "));\n" ≠ ""
       rw [String.append_assoc]
       exact append_ne_empty _ _ (by decide))

theorem output_return_declaration_mapped (env : c_env) (ident : String)
    (node : webidl_node) (h : is_mapped_type (attribute_type_base env node)) :
    (output_return_declaration env ident node).2 ≠ "" := by
  rcases h with h | h | h | h | h | h | h | h <;>
  · rw [output_return_declaration_case env ident node _ h]
    first
    | (show "\tJSObject *" ++ ident ++ " = NULL; /* "
          ++ fmt_s env (attribute_type_name node) ++ " */\n" ≠ ""
       rw [String.append_assoc, String.append_assoc, String.append_assoc]
       exact append_ne_empty _ _ (by decide))
    | (show "\tJSBool " ++ ident ++ " = JS_FALSE;\n" ≠ ""
       rw [String.append_assoc]
       exact append_ne_empty _ _ (by decide))
    | (show "\tdouble " ++ ident ++ " = 0;\n" ≠ ""
       rw [String.append_assoc]
       exact append_ne_empty _ _ (by decide))
    | (show (if attribute_type_unsigned env node then "\tuint16_t " ++ ident ++ " = 0;\n"
          else "\tint16_t " ++ ident ++ " = 0;\n") ≠ ""
       split
       · rw [String.append_assoc]
         exact append_ne_empty _ _ (by decide)
       · rw [String.append_assoc]
         exact append_ne_empty _ _ (by decide))
    | (show (if attribute_type_unsigned env node then "\tuint32_t " ++ ident ++ " = 0;\n"
          else "\tint32_t " ++ ident ++ " = 0;\n") ≠ ""
       split
       · rw [String.append_assoc]
         exact append_ne_empty _ _ (by decide)
       · rw [String.append_assoc]
         exact append_ne_empty _ _ (by decide))
    | (show "\tJSString *" ++ ident ++ " = NULL;\n" ≠ ""
       rw [String.append_assoc]
       exact append_ne_empty _ _ (by decide))
    | (show "\tJSObject *" ++ ident ++ " = NULL;\n" ≠ ""
       rw [String.append_assoc]
       exact append_ne_empty _ _ (by decide))

theorem output_return_unmapped (env : c_env) (ident : String) (node : webidl_node)
    (h : ¬ is_mapped_type (attribute_type_base env node)) :
    output_return env ident node = (0, "") := by
  simp only [is_mapped_type, not_or] at h
  obtain ⟨h1, h2, h3, h4, h5, h6, h7, h8⟩ := h
  rw [output_return_case env ident node _ rfl]
  simp only [h1, h2, h3, h4, h5, h6, h7, h8, or_self, if_false, ite_self]

theorem output_return_declaration_unmapped (env : c_env) (ident : String)
    (node : webidl_node) (h : ¬ is_mapped_type (attribute_type_base env node)) :
    output_return_declaration env ident node = (0, "") := by
  simp only [is_mapped_type, not_or] at h
  obtain ⟨h1, h2, h3, h4, h5, h6, h7, h8⟩ := h
  rw [output_return_declaration_case env ident node _ rfl]
  simp only [h1, h2, h3, h4, h5, h6, h7, h8, or_self, if_false, ite_self]

/-- C23 (declaration/conversion consistency of the type table): for every attribute node,
every name given to `output_return` and every name given to `output_return_declaration`,
both return 0, and `output_return` writes a conversion line exactly when
`output_return_declaration` writes a declaration line; both write text when the category
is user, boolean, float, double, short, long, string or object, and both write nothing for
every other category, among them byte, octet, long long, sequence, date, void and every
integer that is no enumerator. -/
theorem C23_declaration_conversion_consistency (env : c_env) (node : webidl_node)
    (ident name : String) :
    (output_return env ident node).1 = 0 ∧
    (output_return_declaration env name node).1 = 0 ∧
    ((output_return env ident node).2 ≠ "" ↔
      (output_return_declaration env name node).2 ≠ "") ∧
    (is_mapped_type (attribute_type_base env node) →
      (output_return env ident node).2 ≠ "" ∧
      (output_return_declaration env name node).2 ≠ "") ∧
    (¬ is_mapped_type (attribute_type_base env node) →
      output_return env ident node = (0, "") ∧
      output_return_declaration env name node = (0, "")) ∧
    (∀ t, t = WEBIDL_TYPE_BYTE ∨ t = WEBIDL_TYPE_OCTET ∨ t = WEBIDL_TYPE_LONGLONG ∨
        t = WEBIDL_TYPE_SEQUENCE ∨ t = WEBIDL_TYPE_DATE ∨ t = WEBIDL_TYPE_VOID ∨
        t < WEBIDL_TYPE_USER ∨ WEBIDL_TYPE_VOID < t → ¬ is_mapped_type t) := by
  refine ⟨by rw [output_return_case env ident node _ rfl],
    by rw [output_return_declaration_case env name node _ rfl], ?_,
    fun h => ⟨output_return_mapped env ident node h,
      output_return_declaration_mapped env name node h⟩,
    fun h => ⟨output_return_unmapped env ident node h,
      output_return_declaration_unmapped env name node h⟩, ?_⟩
  · by_cases h : is_mapped_type (attribute_type_base env node)
    · exact ⟨fun _ => output_return_declaration_mapped env name node h,
        fun _ => output_return_mapped env ident node h⟩
    · rw [output_return_unmapped env ident node h,
        output_return_declaration_unmapped env name node h]
  · intro t ht
    simp only [is_mapped_type, WEBIDL_TYPE_USER, WEBIDL_TYPE_BOOL, WEBIDL_TYPE_BYTE,
      WEBIDL_TYPE_OCTET, WEBIDL_TYPE_FLOAT, WEBIDL_TYPE_DOUBLE, WEBIDL_TYPE_SHORT,
      WEBIDL_TYPE_LONG, WEBIDL_TYPE_LONGLONG, WEBIDL_TYPE_STRING, WEBIDL_TYPE_SEQUENCE,
      WEBIDL_TYPE_OBJECT, WEBIDL_TYPE_DATE, WEBIDL_TYPE_VOID] at ht ⊢
    omega

set_option maxRecDepth 100000 in
/-- Witness of C23: `unsigned long size` gets both lines, and an attribute whose category
is the integer 99 gets neither. -/
theorem C23_declaration_conversion_consistency_witness :
    ((output_return env_ex "jsret" ex_attr_ulong).2 ≠ "" ∧
      (output_return_declaration env_ex "jsret" ex_attr_ulong).2 ≠ "") ∧
    output_return env_ex "jsret" ex_attr_ulong =
      (0, "\tJSAPI_PROP_SET_RVAL(cx, vp, INT_TO_JSVAL(jsret));\n") ∧
    (output_return env_ex "jsret" ex_attr_unknown = (0, "") ∧
      output_return_declaration env_ex "jsret" ex_attr_unknown = (0, "")) :=
  ⟨(C23_declaration_conversion_consistency env_ex ex_attr_ulong "jsret" "jsret").2.2.2.1
      (by decide), rfl,
    (C23_declaration_conversion_consistency env_ex ex_attr_unknown "jsret" "jsret").2.2.2.2.1
      (by decide)⟩

end Nsgenbind
